/- Verification development for the rmdb natural-language query system
   (src/attached_assets/rmonesqlchart_1761467339635.py).

   The Python source is shallowly embedded: each parser, the intent
   refinement pipeline (`QueryEngine.preprocess_query`), the SQL builder
   (`QueryEngine.build_sql_query`), the summary statistics and the
   orchestrator (`QueryEngine.process_query`) are translated into
   executable Lean definitions.  Python `datetime` values are modelled by
   a `Date` structure with exact day arithmetic (matching `timedelta`);
   the source renders dates with `strftime("%Y-%m-%d")`, an injective
   rendering, so dates are kept structured and only formatted where the
   source interpolates them into SQL text.  Python run-time errors
   (IndexError, UnboundLocalError, AttributeError/TypeError on
   wrongly-typed values, ValueError) are modelled with `Except PyErr`.
   `datetime.now()` is modelled by an explicit `today : Date` parameter. -/

import Mathlib

namespace Rmdb

/-! ## Dates

Python `datetime` restricted to what the source uses: a calendar date,
`timedelta(days = n)` addition/subtraction, and lexicographic comparison.
`m`/`d` are 1-based as in `datetime`. -/

structure Date where
  y : Int
  m : Nat
  d : Nat
deriving DecidableEq, Repr

def isLeap (y : Int) : Bool :=
  y % 4 == 0 && (y % 100 != 0 || y % 400 == 0)

/-- Number of days in month `m` of year `y` (Gregorian, as `datetime`). -/
def daysInMonth (y : Int) (m : Nat) : Nat :=
  if m = 2 then (if isLeap y then 29 else 28)
  else if m = 4 ∨ m = 6 ∨ m = 9 ∨ m = 11 then 30
  else 31

/-- The day after `t` (Python `t + timedelta(days=1)`). -/
def nextDay (t : Date) : Date :=
  if t.d < daysInMonth t.y t.m then ⟨t.y, t.m, t.d + 1⟩
  else if t.m < 12 then ⟨t.y, t.m + 1, 1⟩
  else ⟨t.y + 1, 1, 1⟩

/-- The day before `t` (Python `t - timedelta(days=1)`). -/
def prevDay (t : Date) : Date :=
  if 1 < t.d then ⟨t.y, t.m, t.d - 1⟩
  else if 1 < t.m then ⟨t.y, t.m - 1, daysInMonth t.y (t.m - 1)⟩
  else ⟨t.y - 1, 12, 31⟩

/-- `t + timedelta(days=n)` for `n ≥ 0`. -/
def addDays (t : Date) : Nat → Date
  | 0 => t
  | n + 1 => nextDay (addDays t n)

/-- `t - timedelta(days=n)` for `n ≥ 0`. -/
def subDays (t : Date) : Nat → Date
  | 0 => t
  | n + 1 => prevDay (subDays t n)

/-- `t + timedelta(days=k)` for a signed offset `k`. -/
def shiftDays (t : Date) (k : Int) : Date :=
  if 0 ≤ k then addDays t k.toNat else subDays t (-k).toNat

/-- Lexicographic (= chronological, on valid dates) order. -/
def Date.le (a b : Date) : Prop :=
  a.y < b.y ∨ (a.y = b.y ∧ (a.m < b.m ∨ (a.m = b.m ∧ a.d ≤ b.d)))

def Date.lt (a b : Date) : Prop :=
  a.y < b.y ∨ (a.y = b.y ∧ (a.m < b.m ∨ (a.m = b.m ∧ a.d < b.d)))

instance : LE Date := ⟨Date.le⟩
instance : LT Date := ⟨Date.lt⟩

theorem Date.le_def (a b : Date) :
    (a ≤ b) = (a.y < b.y ∨ (a.y = b.y ∧ (a.m < b.m ∨ (a.m = b.m ∧ a.d ≤ b.d)))) := rfl

theorem Date.lt_def (a b : Date) :
    (a < b) = (a.y < b.y ∨ (a.y = b.y ∧ (a.m < b.m ∨ (a.m = b.m ∧ a.d < b.d)))) := rfl

instance (a b : Date) : Decidable (a ≤ b) := by
  rw [Date.le_def]; infer_instance

instance (a b : Date) : Decidable (a < b) := by
  rw [Date.lt_def]; infer_instance

theorem Date.le_refl (a : Date) : a ≤ a := by
  rw [Date.le_def]; omega

theorem Date.le_trans {a b c : Date} (h1 : a ≤ b) (h2 : b ≤ c) : a ≤ c := by
  rw [Date.le_def] at *; omega

theorem Date.le_of_lt {a b : Date} (h : a < b) : a ≤ b := by
  rw [Date.lt_def] at h; rw [Date.le_def]; omega

theorem Date.lt_of_le_of_lt {a b c : Date} (h1 : a ≤ b) (h2 : b < c) : a < c := by
  rw [Date.le_def] at h1; rw [Date.lt_def] at *; omega

theorem Date.not_le_of_lt {a b : Date} (h : a < b) : ¬ b ≤ a := by
  rw [Date.lt_def] at h; rw [Date.le_def]; omega

theorem daysInMonth_pos (y : Int) (m : Nat) : 0 < daysInMonth y m := by
  unfold daysInMonth; split_ifs <;> omega

theorem lt_nextDay (t : Date) : t < nextDay t := by
  unfold nextDay
  split_ifs with h1 h2 <;> rw [Date.lt_def] <;> dsimp only <;> omega

theorem prevDay_lt (t : Date) : prevDay t < t := by
  unfold prevDay
  split_ifs with h1 h2 <;> rw [Date.lt_def] <;> dsimp only <;> omega

theorem le_addDays (t : Date) (n : Nat) : t ≤ addDays t n := by
  induction n with
  | zero => exact Date.le_refl t
  | succ k ih => exact Date.le_trans ih (Date.le_of_lt (lt_nextDay _))

theorem subDays_le (t : Date) (n : Nat) : subDays t n ≤ t := by
  induction n with
  | zero => exact Date.le_refl t
  | succ k ih => exact Date.le_trans (Date.le_of_lt (prevDay_lt _)) ih

theorem addDays_le_addDays (t : Date) {n k : Nat} (h : n ≤ k) :
    addDays t n ≤ addDays t k := by
  induction k with
  | zero => simp_all [Nat.le_zero.mp h, Date.le_refl]
  | succ j ih =>
    rcases Nat.lt_or_ge n (j + 1) with hlt | hge
    · exact Date.le_trans (ih (Nat.lt_succ_iff.mp hlt)) (Date.le_of_lt (lt_nextDay _))
    · have : n = j + 1 := Nat.le_antisymm h hge
      subst this; exact Date.le_refl _

theorem subDays_le_addDays (t : Date) (n k : Nat) : subDays t n ≤ addDays t k :=
  Date.le_trans (subDays_le t n) (le_addDays t k)

theorem subDays_le_subDays (t : Date) {n k : Nat} (h : n ≤ k) :
    subDays t k ≤ subDays t n := by
  induction k with
  | zero => simp_all [Nat.le_zero.mp h, Date.le_refl]
  | succ j ih =>
    rcases Nat.lt_or_ge n (j + 1) with hlt | hge
    · exact Date.le_trans (Date.le_of_lt (prevDay_lt _)) (ih (Nat.lt_succ_iff.mp hlt))
    · have : n = j + 1 := Nat.le_antisymm h hge
      subst this; exact Date.le_refl _

theorem shiftDays_le_shiftDays (t : Date) {a b : Int} (h : a ≤ b) :
    shiftDays t a ≤ shiftDays t b := by
  unfold shiftDays
  split_ifs with h1 h2 h2
  · exact addDays_le_addDays t (by omega)
  · omega
  · exact subDays_le_addDays t _ _
  · exact subDays_le_subDays t (by omega)

/-- `strftime("%Y-%m-%d")`. -/
def pad2 (n : Nat) : String := if n < 10 then "0" ++ toString n else toString n

def Date.fmt (t : Date) : String :=
  toString t.y ++ "-" ++ pad2 t.m ++ "-" ++ pad2 t.d

/-! ## Text scanning

The source parsers are small `re.search`/`re.findall` patterns over
lowercased text.  They are embedded as direct left-to-right scanners over
`List Char` with the same leftmost-match semantics; each regex's
alternatives are tried in the order they are written.  `\w` is
`[A-Za-z0-9_]`, `\s` is whitespace, `\d` is a digit. -/

abbrev Cs := List Char

/-- Python `text.lower()` on the character list. -/
def lcs (s : String) : Cs := s.data.map Char.toLower

def csOf (s : String) : Cs := s.data

def isWordChar (c : Char) : Bool := c.isAlphanum || c == '_'

/-- Consume the literal `pat` as a prefix, returning the rest. -/
def dropLit : Cs → Cs → Option Cs
  | [], cs => some cs
  | _ :: _, [] => none
  | p :: ps, c :: cs => if c = p then dropLit ps cs else none

def litP (pat : String) (cs : Cs) : Option Cs := dropLit pat.data cs

/-- First alternative (in order) that matches as a prefix; returns it with the rest. -/
def altsP (pats : List String) (cs : Cs) : Option (String × Cs)
  := match pats with
  | [] => none
  | p :: ps => match litP p cs with
    | some rest => some (p, rest)
    | none => altsP ps cs

/-- `\s+`. -/
def ws1 : Cs → Option Cs
  | c :: cs => if c.isWhitespace then some (cs.dropWhile Char.isWhitespace) else none
  | [] => none

/-- `\s*`. -/
def ws0 (cs : Cs) : Cs := cs.dropWhile Char.isWhitespace

/-- `\d+` as a `Nat`, with the rest. -/
def digits1 (cs : Cs) : Option (Nat × Cs) :=
  let ds := cs.takeWhile Char.isDigit
  if ds.isEmpty then none
  else some (ds.foldl (fun a c => a * 10 + (c.toNat - 48)) 0, cs.dropWhile Char.isDigit)

/-- Exactly `n` digits as a `Nat`, with the rest (`\d{n}`, no trailing boundary). -/
def ndigits : Nat → Cs → Option (Nat × Cs)
  | 0, cs => some (0, cs)
  | n + 1, c :: cs =>
    if c.isDigit then
      (ndigits n cs).map (fun (v, rest) => ((c.toNat - 48) * 10 ^ n + v, rest))
    else none
  | _ + 1, [] => none

/-- `(\d+\.?\d*)` as an exact rational, with the rest. -/
def decimal1 (cs : Cs) : Option (Rat × Cs) :=
  match digits1 cs with
  | none => none
  | some (ip, rest) =>
    match rest with
    | '.' :: rest2 =>
      let fs := rest2.takeWhile Char.isDigit
      let fv : Rat := (fs.foldl (fun a c => a * 10 + (c.toNat - 48)) 0 : Int) /
        ((10 : Int) ^ fs.length : Int)
      some ((ip : Rat) + fv, rest2.dropWhile Char.isDigit)
    | _ => some ((ip : Rat), rest)

/-- `\w+`, with the rest. -/
def word1 (cs : Cs) : Option (String × Cs) :=
  let ws := cs.takeWhile isWordChar
  if ws.isEmpty then none else some (String.mk ws, cs.dropWhile isWordChar)

/-- `re.search`: try `f` at every start position, leftmost first. -/
def scanP (f : Cs → Option α) : Cs → Option α
  | [] => f []
  | c :: cs => match f (c :: cs) with
    | some r => some r
    | none => scanP f cs

/-- Is `pat` a substring (Python `pat in text`)? -/
def containsSub (pat : String) (cs : Cs) : Bool :=
  (scanP (litP pat) cs).isSome

def containsAnyWord (ws : List String) (cs : Cs) : Bool :=
  ws.any (fun w => containsSub w cs)

/-- Python `str.strip()`: drop surrounding whitespace. -/
def trimCs (cs : Cs) : Cs :=
  ((cs.dropWhile Char.isWhitespace).reverse.dropWhile Char.isWhitespace).reverse

/-- Python `str.replace(pat, repl)` (all occurrences, left to right);
fuel-driven recursion, `fuel = cs.length` suffices for non-empty `pat`. -/
def replAllGo (pat repl : Cs) : Nat → Cs → Cs
  | 0, cs => cs
  | _ + 1, [] => []
  | fuel + 1, c :: cs =>
    match dropLit pat (c :: cs) with
    | some rest => repl ++ replAllGo pat repl fuel rest
    | none => c :: replAllGo pat repl fuel cs

def replAll (pat repl : String) (cs : Cs) : Cs :=
  replAllGo pat.data repl.data cs.length cs

/-- `re.sub(rf"\b{w}\b", repl, text)`: whole-word replace with `\b` checks. -/
def replWordGo (pat repl : Cs) : Nat → Option Char → Cs → Cs
  | 0, _, cs => cs
  | _ + 1, _, [] => []
  | fuel + 1, prev, c :: cs =>
    let boundaryBefore := match prev with
      | none => true
      | some p => !isWordChar p
    match (if boundaryBefore then dropLit pat (c :: cs) else none) with
    | some rest =>
      let boundaryAfter := match rest with
        | [] => true
        | r :: _ => !isWordChar r
      if boundaryAfter then repl ++ replWordGo pat repl fuel (pat.getLast?) rest
      else c :: replWordGo pat repl fuel (some c) cs
    | none => c :: replWordGo pat repl fuel (some c) cs

def replWord (pat repl : String) (cs : Cs) : Cs :=
  replWordGo pat.data repl.data cs.length none cs

/-- Python `s.replace(pat, repl)` on `String`s (list-based; Lean's own
`String.replace` is well-founded-recursive and does not reduce). -/
def pyReplace (s pat repl : String) : String := String.mk (replAll pat repl s.data)

/-- Python `s.lower()` on `String`s. -/
def lowerStr (s : String) : String := String.mk (s.data.map Char.toLower)

/-- Python `s.strip()` on `String`s. -/
def trimStr (s : String) : String := String.mk (trimCs s.data)

/-- Alternatives with a continuation (regex backtracking across an
alternation followed by more pattern). -/
def altsCont (pats : List String) (cs : Cs) (k : String → Cs → Option α) : Option α :=
  match pats with
  | [] => none
  | p :: ps =>
    match litP p cs with
    | some rest =>
      match k p rest with
      | some r => some r
      | none => altsCont ps cs k
    | none => altsCont ps cs k

/-- Python `rstrip('s')`. -/
def rstripS (s : String) : String := String.mk ((s.data.reverse.dropWhile (· = 's')).reverse)

/-! ## Shared regex cores -/

/-- `q(\d)\s+(\d{4})` at a position: the quarter digit and the year. -/
def q1Core (cs : Cs) : Option (Nat × Int) := do
  let cs ← litP "q" cs
  match cs with
  | c :: rest =>
    if c.isDigit then do
      let rest2 ← ws1 rest
      let (y, _) ← ndigits 4 rest2
      pure (c.toNat - 48, (y : Int))
    else none
  | [] => none

/-- `20\d{2}` at a position (value and rest). -/
def year20At (cs : Cs) : Option (Nat × Cs) := do
  let cs1 ← litP "20" cs
  match cs1 with
  | a :: b :: rest =>
    if a.isDigit && b.isDigit then
      pure (2000 + (a.toNat - 48) * 10 + (b.toNat - 48), rest)
    else none
  | _ => none

/-- `re.search(r'\b(20\d{2})\b', text)`: first boundary-delimited year. -/
def scanYearBound : Option Char → Cs → Option Nat
  | _, [] => none
  | prev, c :: cs =>
    let here : Option Nat :=
      if (match prev with | none => true | some p => !isWordChar p) then
        match year20At (c :: cs) with
        | some (y, rest) =>
          match rest with
          | [] => some y
          | r :: _ => if isWordChar r then none else some y
        | none => none
      else none
    match here with
    | some y => some y
    | none => scanYearBound (some c) cs

/-- `re.findall(r'\b(20\d{2})\b', text)`: all boundary-delimited years in
order.  (The trailing `\b` means matches can never overlap, so collecting a
match at every position equals `findall`.) -/
def findYearsAux : Option Char → Cs → List Int
  | _, [] => []
  | prev, c :: cs =>
    let here : List Int :=
      if (match prev with | none => true | some p => !isWordChar p) then
        match year20At (c :: cs) with
        | some (y, rest) =>
          match rest with
          | [] => [(y : Int)]
          | r :: _ => if isWordChar r then [] else [(y : Int)]
        | none => []
      else []
    here ++ findYearsAux (some c) cs

def month_map : List (String × Nat) :=
  [("january", 1), ("jan", 1), ("february", 2), ("feb", 2), ("march", 3), ("mar", 3),
   ("april", 4), ("apr", 4), ("may", 5), ("june", 6), ("jun", 6), ("july", 7), ("jul", 7),
   ("august", 8), ("aug", 8), ("september", 9), ("sep", 9), ("october", 10), ("oct", 10),
   ("november", 11), ("nov", 11), ("december", 12), ("dec", 12)]

def monthLookup (w : String) : Option Nat := (month_map.find? (fun p => p.1 = w)).map (·.2)

/-- `between\s+(\w+)\s+and\s+(\w+)\s+(\d{4})` at a position. -/
def monthRangeCore (cs : Cs) : Option (String × String × Int) := do
  let cs ← litP "between" cs
  let cs ← ws1 cs
  let (w1, cs) ← word1 cs
  let cs ← ws1 cs
  let cs ← litP "and" cs
  let cs ← ws1 cs
  let (w2, cs) ← word1 cs
  let cs ← ws1 cs
  let (y, _) ← ndigits 4 cs
  pure (w1, w2, (y : Int))

/-- `'between January and March 2026'` on already-lowercased text: first day
of the start month to the last calendar day of the end month (the source
computes the last day as `datetime(year, end_month+1, 1) - timedelta(days=1)`;
December is special-cased to the 31st). -/
def monthRangeOn (cs : Cs) : Option (Date × Date) :=
  match scanP monthRangeCore cs with
  | some (w1, w2, y) =>
    match monthLookup w1, monthLookup w2 with
    | some m1, some m2 =>
      let start : Date := ⟨y, m1, 1⟩
      let stop : Date := if m2 = 12 then ⟨y, 12, 31⟩ else prevDay ⟨y, m2 + 1, 1⟩
      some (start, stop)
    | _, _ => none
  | none => none

/-! ## DateCalculator -/

namespace DateCalculator

def relUnitAlts : List String :=
  ["month", "months", "day", "days", "year", "years", "week", "weeks"]

/-- `DateCalculator._unit_to_days`. -/
def unitToDays (q : Nat) (u : String) : Nat :=
  if u = "day" then q
  else if u = "week" then q * 7
  else if u = "month" then q * 30
  else if u = "year" then q * 365
  else 0

/-- `(last|past|previous)\s+(\d+)\s+(month|…|weeks)` at a position, with
the unit group `rstrip('s')`-ed as the source does. -/
def pastCore (cs : Cs) : Option (Nat × String) := do
  let (_, cs) ← altsP ["last", "past", "previous"] cs
  let cs ← ws1 cs
  let (q, cs) ← digits1 cs
  let cs ← ws1 cs
  let (u, _) ← altsP relUnitAlts cs
  pure (q, rstripS u)

def futureCore (cs : Cs) : Option (Nat × String) := do
  let (_, cs) ← altsP ["next", "future", "upcoming", "coming"] cs
  let cs ← ws1 cs
  let (q, cs) ← digits1 cs
  let cs ← ws1 cs
  let (u, _) ← altsP relUnitAlts cs
  pure (q, rstripS u)

/-- `in\s+the\s+` prefix variant of a core pattern. -/
def inTheCore (core : Cs → Option α) (cs : Cs) : Option α := do
  let cs ← litP "in" cs
  let cs ← ws1 cs
  let cs ← litP "the" cs
  let cs ← ws1 cs
  core cs

/-- Pattern 3: `(last|past)\s+(\d+)\s+u\s+(or|and)\s+(next|future)\s+(\d+)\s+u`.
(The inner unit alternation needs backtracking: `month` may match inside
`months` but then `\s+` fails, so the engine retries `months`.) -/
def orCore (cs : Cs) : Option (Nat × String × Nat × String) := do
  let (_, cs) ← altsP ["last", "past"] cs
  let cs ← ws1 cs
  let (q1, cs) ← digits1 cs
  let cs ← ws1 cs
  altsCont relUnitAlts cs (fun u1 cs => do
    let cs ← ws1 cs
    let (_, cs) ← altsP ["or", "and"] cs
    let cs ← ws1 cs
    let (_, cs) ← altsP ["next", "future"] cs
    let cs ← ws1 cs
    let (q2, cs) ← digits1 cs
    let cs ← ws1 cs
    let (u2, _) ← altsP relUnitAlts cs
    pure (q1, rstripS u1, q2, rstripS u2))

/-- `DateCalculator.parse_relative_date` (with `datetime.now()` as `today`). -/
def parse_relative_date (today : Date) (text : String) : Option (Date × Date) :=
  let cs := trimCs (lcs text)
  match (scanP pastCore cs).orElse (fun _ => scanP (inTheCore pastCore) cs) with
  | some (q, u) => some (subDays today (unitToDays q u), today)
  | none =>
  match (scanP futureCore cs).orElse (fun _ => scanP (inTheCore futureCore) cs) with
  | some (q, u) => some (today, addDays today (unitToDays q u))
  | none =>
  match scanP orCore cs with
  | some (q1, u1, q2, u2) =>
    some (subDays today (unitToDays q1 u1), addDays today (unitToDays q2 u2))
  | none => none

/-- `DateCalculator._parse_multiple_items`: split on `" and "`, `" & "`,
`"&"` and commas; strip, drop empties, case-insensitively dedupe keeping
order, truncate to 5. -/
def dedupeCI (seen : List String) : List String → List String
  | [] => []
  | i :: rest =>
    if lowerStr i ∈ seen then dedupeCI seen rest
    else i :: dedupeCI (lowerStr i :: seen) rest

def _parse_multiple_items (text : String) : List String :=
  let cs := replAll "&" "," (replAll " & " "," (replAll " and " "," (csOf text)))
  let items := ((cs.splitOn ',').map (fun i => String.mk (trimCs i))).filter (fun i => i ≠ "")
  (dedupeCI [] items).take 5

/-- `DateCalculator.parse_specific_quarter`: `q(\d)\s+(\d{4})` with a 1–4
validity check, then `first|1st|second|…\s+quarter\s+(\d{4})`. -/
def namedQCore (name : String) (cs : Cs) : Option Int := do
  let cs ← litP name cs
  let cs ← ws1 cs
  let cs ← litP "quarter" cs
  let cs ← ws1 cs
  let (y, _) ← ndigits 4 cs
  pure ((y : Int))

def namedQuarterGo (cs : Cs) : List (String × Nat) → Option (Int × Nat)
  | [] => none
  | (n, num) :: rest =>
    match scanP (namedQCore n) cs with
    | some y => some (y, num)
    | none => namedQuarterGo cs rest

def quarter_names : List (String × Nat) :=
  [("first", 1), ("1st", 1), ("second", 2), ("2nd", 2),
   ("third", 3), ("3rd", 3), ("fourth", 4), ("4th", 4)]

def parse_specific_quarter (text : String) : Option (Int × Nat) :=
  let cs := lcs text
  match scanP q1Core cs with
  | some (qn, y) =>
    if 1 ≤ qn ∧ qn ≤ 4 then some (y, qn) else namedQuarterGo cs quarter_names
  | none => namedQuarterGo cs quarter_names

/-- `DateCalculator.parse_specific_year`: `(?:in|during|for)\s+(20\d{2})` on
the lowercased text, else the first `\b(20\d{2})\b` on the raw text. -/
def yearAfterPrep (cs : Cs) : Option Int := do
  let (_, cs) ← altsP ["in", "during", "for"] cs
  let cs ← ws1 cs
  let (y, _) ← year20At cs
  pure ((y : Int))

def parse_specific_year (text : String) : Option Int :=
  match scanP yearAfterPrep (lcs text) with
  | some y => some y
  | none => (scanYearBound none (csOf text)).map (fun n => (n : Int))

/-- `DateCalculator.parse_multiple_years`: all `\b(20\d{2})\b` matches; a
list only when more than one. -/
def parse_multiple_years (text : String) : Option (List Int) :=
  let ys := findYearsAux none (csOf text)
  if ys.length > 1 then some ys else none

/-- `DateCalculator.parse_month_range` (lowercases, then the shared core). -/
def parse_month_range (text : String) : Option (Date × Date) :=
  monthRangeOn (lcs text)

end DateCalculator

/-! ## NumberCalculator -/

namespace NumberCalculator

def feeUnits : List String := ["million", "billion", "thousand", "m", "b", "k"]

/-- `NumberCalculator._get_multiplier`. -/
def _get_multiplier (u : String) : Rat :=
  let u := trimStr (lowerStr u)
  if u = "million" ∨ u = "m" then 1000000
  else if u = "billion" ∨ u = "b" then 1000000000
  else if u = "thousand" ∨ u = "k" then 1000
  else 1

def betweenCore (cs : Cs) : Option (Rat × Rat × String) := do
  let cs ← litP "between" cs
  let cs ← ws1 cs
  let (a, cs) ← decimal1 cs
  let cs ← ws1 cs
  let cs ← litP "and" cs
  let cs ← ws1 cs
  let (b, cs) ← decimal1 cs
  let cs ← ws1 cs
  let (u, _) ← altsP feeUnits cs
  pure (a, b, u)

def toCore (cs : Cs) : Option (Rat × Rat × String) := do
  let (a, cs) ← decimal1 cs
  let cs ← ws1 cs
  let cs ← litP "to" cs
  let cs ← ws1 cs
  let (b, cs) ← decimal1 cs
  let cs ← ws1 cs
  let (u, _) ← altsP feeUnits cs
  pure (a, b, u)

def overCore (cs : Cs) : Option (Rat × Option String) := do
  let (_, cs) ← altsP ["over", "above", "more than", "greater than"] cs
  let cs ← ws1 cs
  let (v, cs) ← decimal1 cs
  let cs2 := ws0 cs
  match altsP feeUnits cs2 with
  | some (u, _) => pure (v, some u)
  | none => pure (v, none)

def underCore (cs : Cs) : Option (Rat × Option String) := do
  let (_, cs) ← altsP ["under", "below", "less than"] cs
  let cs ← ws1 cs
  let (v, cs) ← decimal1 cs
  let cs2 := ws0 cs
  match altsP feeUnits cs2 with
  | some (u, _) => pure (v, some u)
  | none => pure (v, none)

/-- `NumberCalculator.parse_fee_range`: returns `(min_fee, max_fee)` with
`none` as the open upper bound; tries the four patterns in source order. -/
def parse_fee_range (text : String) : Option (Rat × Option Rat) :=
  let cs := lcs text
  match scanP betweenCore cs with
  | some (a, b, u) => let m := _get_multiplier u; some (a * m, some (b * m))
  | none =>
  match scanP toCore cs with
  | some (a, b, u) => let m := _get_multiplier u; some (a * m, some (b * m))
  | none =>
  match scanP overCore cs with
  | some (v, u) => some (v * _get_multiplier (u.getD ""), none)
  | none =>
  match scanP underCore cs with
  | some (v, u) => some (0, some (v * _get_multiplier (u.getD "")))
  | none => none

def limitCore (cs : Cs) : Option Int := do
  let (_, cs) ← altsP ["top", "first", "largest", "biggest", "smallest"] cs
  let cs ← ws1 cs
  let (n, _) ← digits1 cs
  pure ((n : Int))

/-- `NumberCalculator.parse_limit`: `(?:top|first|largest|biggest|smallest)\s+(\d+)`. -/
def parse_limit (text : String) : Option Int :=
  scanP limitCore (lcs text)

end NumberCalculator

/-! ## SemanticTimeParser -/

namespace SemanticTimeParser

def word_to_number : List (String × String) :=
  [("one", "1"), ("two", "2"), ("three", "3"), ("four", "4"), ("five", "5"),
   ("six", "6"), ("seven", "7"), ("eight", "8"), ("nine", "9"), ("ten", "10"),
   ("eleven", "11"), ("twelve", "12"), ("thirteen", "13"), ("fourteen", "14"),
   ("fifteen", "15"), ("sixteen", "16"), ("seventeen", "17"), ("eighteen", "18"),
   ("nineteen", "19"), ("twenty", "20"), ("thirty", "30"), ("forty", "40"),
   ("fifty", "50"), ("sixty", "60"), ("seventy", "70"), ("eighty", "80"),
   ("ninety", "90")]

def _convert_written_numbers (cs : Cs) : Cs :=
  word_to_number.foldl (fun acc p => replWord p.1 p.2 acc) cs

def semUnitAlts : List String :=
  ["month", "months", "day", "days", "year", "years", "week", "weeks",
   "quarter", "quarters"]

/-- `SemanticTimeParser._unit_to_days`. -/
def _unit_to_days (q : Nat) (u : String) : Nat :=
  if u = "day" then q
  else if u = "week" then q * 7
  else if u = "month" then q * 30
  else if u = "quarter" then q * 90
  else if u = "year" then q * 365
  else 0

def numericCore (cs : Cs) : Option (Nat × String) := do
  let (q, cs) ← digits1 cs
  let cs2 := ws0 cs
  let (u, _) ← altsP semUnitAlts cs2
  pure (q, rstripS u)

def futureWords : List String := ["next", "coming", "upcoming", "future"]
def pastWords : List String := ["last", "past", "previous", "recent"]

/-- `SemanticTimeParser._extract_numeric_timeframe`: written numbers are
normalized first, then `(\d+)\s*(unit)`; direction from context words,
defaulting to the future. -/
def _extract_numeric_timeframe (today : Date) (cs : Cs) : Option (Date × Date) :=
  let text := _convert_written_numbers cs
  match scanP numericCore text with
  | some (q, u) =>
    let days := _unit_to_days q u
    let isFuture := containsAnyWord futureWords text
    let isPast := containsAnyWord pastWords text
    if isFuture then some (today, addDays today days)
    else if isPast then some (subDays today days, today)
    else some (today, addDays today days)
  | none => none

/-- `SemanticTimeParser._parse_future_reference`. -/
def _parse_future_reference (today : Date) (cs : Cs) : Option (Date × Date) :=
  match _extract_numeric_timeframe today cs with
  | some r => some r
  | none =>
    if containsSub "quarter" cs then some (today, addDays today 90)
    else if containsSub "year" cs then some (today, addDays today 365)
    else if containsSub "months" cs then some (today, addDays today 180)
    else some (today, addDays today 180)

/-- `SemanticTimeParser._parse_past_reference`. -/
def _parse_past_reference (today : Date) (cs : Cs) : Option (Date × Date) :=
  match _extract_numeric_timeframe today cs with
  | some r => some r
  | none =>
    if containsSub "quarter" cs then some (subDays today 90, today)
    else if containsSub "year" cs then some (subDays today 365, today)
    else if containsSub "months" cs then some (subDays today 180, today)
    else some (subDays today 180, today)

def vague_mappings : List (String × Int × Int) :=
  [("soon", 0, 90), ("near future", 0, 180), ("short term", 0, 180),
   ("medium term", 180, 730), ("long term", 730, 1825), ("immediately", 0, 30),
   ("recently", -90, 0), ("shortly", 0, 60), ("little while", 0, 90)]

def vagueLookup (cs : Cs) : Option (Int × Int) :=
  (vague_mappings.find? (fun t => containsSub t.1 cs)).map (·.2)

def _get_current_quarter_dates (today : Date) : Date × Date :=
  if today.m ≤ 3 then (⟨today.y, 1, 1⟩, ⟨today.y, 3, 31⟩)
  else if today.m ≤ 6 then (⟨today.y, 4, 1⟩, ⟨today.y, 6, 30⟩)
  else if today.m ≤ 9 then (⟨today.y, 7, 1⟩, ⟨today.y, 9, 30⟩)
  else (⟨today.y, 10, 1⟩, ⟨today.y, 12, 31⟩)

/-- `SemanticTimeParser._get_quarter_dates`: `quarters.get(quarter,
(Jan 1, Dec 31))` — an out-of-range quarter digit falls back to the year. -/
def _get_quarter_dates (y : Int) (q : Nat) : Date × Date :=
  if q = 1 then (⟨y, 1, 1⟩, ⟨y, 3, 31⟩)
  else if q = 2 then (⟨y, 4, 1⟩, ⟨y, 6, 30⟩)
  else if q = 3 then (⟨y, 7, 1⟩, ⟨y, 9, 30⟩)
  else if q = 4 then (⟨y, 10, 1⟩, ⟨y, 12, 31⟩)
  else (⟨y, 1, 1⟩, ⟨y, 12, 31⟩)

def sem_quarter_names : List (String × Nat) :=
  [("first", 1), ("second", 2), ("third", 3), ("fourth", 4)]

def semNamedQuarterGo (cs : Cs) : List (String × Nat) → Option (Date × Date)
  | [] => none
  | (n, num) :: rest =>
    match scanP (DateCalculator.namedQCore n) cs with
    | some y => some (_get_quarter_dates y num)
    | none => semNamedQuarterGo cs rest

/-- `SemanticTimeParser._parse_specific_quarter` (note: no 1–4 validity
check, unlike `DateCalculator`). -/
def _parse_specific_quarter (cs : Cs) : Option (Date × Date) :=
  match scanP q1Core cs with
  | some (qn, y) => some (_get_quarter_dates y qn)
  | none => semNamedQuarterGo cs sem_quarter_names

/-- `SemanticTimeParser._parse_specific_year`: first `\b(20\d{2})\b`. -/
def _parse_specific_year (cs : Cs) : Option Int :=
  (scanYearBound none cs).map (fun n => (n : Int))

/-- `SemanticTimeParser.parse`: resolution order exactly as in the source —
directional branches, the vague table, this-quarter / this-year, specific
quarter, specific year, month range, generic numeric extraction. -/
def parse (today : Date) (time_reference : String) : Option (Date × Date) :=
  if time_reference = "" then none
  else
  let tr := trimCs (lcs time_reference)
  if containsAnyWord futureWords tr then _parse_future_reference today tr
  else if containsAnyWord pastWords tr then _parse_past_reference today tr
  else
  match vagueLookup tr with
  | some (a, b) => some (shiftDays today a, shiftDays today b)
  | none =>
  if containsSub "this quarter" tr then some (_get_current_quarter_dates today)
  else if containsSub "this year" tr then some (⟨today.y, 1, 1⟩, ⟨today.y, 12, 31⟩)
  else
  match _parse_specific_quarter tr with
  | some r => some r
  | none =>
  match _parse_specific_year tr with
  | some y => some (⟨y, 1, 1⟩, ⟨y, 12, 31⟩)
  | none =>
  match monthRangeOn tr with
  | some r => some r
  | none => _extract_numeric_timeframe today tr

end SemanticTimeParser

/-! ## Values, argument mappings and classifications

Classifier arguments are JSON-like values.  Dates produced by the pipeline
are kept structured (`vDate`; the source stores the injective
`%Y-%m-%d` rendering).  Python run-time errors on wrongly-typed values are
modelled by `PyErr`. -/

inductive Value where
  | vStr (s : String)
  | vInt (n : Int)
  | vRat (q : Rat)
  | vDate (d : Date)
  | vStrList (l : List String)
  | vIntList (l : List Int)
deriving DecidableEq, Repr

inductive PyErr where
  | attrError
  | typeError
  | valueError
  | indexError
  | unboundLocal
deriving DecidableEq, Repr

instance {e a : Type} [DecidableEq e] [DecidableEq a] : DecidableEq (Except e a) :=
  fun x y =>
    match x, y with
    | .ok v, .ok w => if h : v = w then isTrue (by rw [h]) else isFalse (by simp [h])
    | .error v, .error w => if h : v = w then isTrue (by rw [h]) else isFalse (by simp [h])
    | .ok _, .error _ => isFalse (by simp)
    | .error _, .ok _ => isFalse (by simp)

/-- Python truthiness. -/
def Value.truthy : Value → Bool
  | .vStr s => s ≠ ""
  | .vInt n => n ≠ 0
  | .vRat q => q ≠ 0
  | .vDate _ => true
  | .vStrList l => l ≠ []
  | .vIntList l => l ≠ []

/-- Python `str(v)` for the values the pipeline renders. -/
def Value.pyStr : Value → String
  | .vStr s => s
  | .vInt n => toString n
  | .vRat q => toString q
  | .vDate d => d.fmt
  | .vStrList l => toString l
  | .vIntList l => toString l

/-- Python `len(v)`: defined for strings and lists, a TypeError otherwise. -/
def Value.pyLen : Value → Except PyErr Nat
  | .vStr s => .ok s.length
  | .vStrList l => .ok l.length
  | .vIntList l => .ok l.length
  | _ => .error .typeError

/-- Python `float(v)` where it succeeds: numbers, and numeric strings. -/
def strToRat? (s : String) : Option Rat :=
  match decimal1 (trimCs (csOf s)) with
  | some (v, []) => some v
  | _ => none

def Value.pyFloat? : Value → Option Rat
  | .vRat q => some q
  | .vInt n => some (n : Rat)
  | .vStr s => strToRat? s
  | _ => none

/-- Python `int(v)` where it succeeds (`int("3.5")` raises, `int(3.9)`
truncates toward zero). -/
def Value.pyInt? : Value → Option Int
  | .vInt n => some n
  | .vRat q => some (q.num / q.den)
  | .vStr s =>
    (match (trimCs (csOf s)) with
     | [] => none
     | cs => if cs.all Char.isDigit then (digits1 cs).map (fun p => (p.1 : Int)) else none)
  | _ => none

/-- An argument mapping (a Python dict: association list, first match wins;
well-formed inputs carry no duplicate keys). -/
abbrev Args := List (String × Value)

namespace Args

def get : Args → String → Option Value
  | [], _ => none
  | (k', v) :: rest, k => if k' = k then some v else get rest k

def getD (a : Args) (k : String) (d : Value) : Value := (a.get k).getD d

/-- `d[k] = v`: replace the first binding of `k`, else append. -/
def set : Args → String → Value → Args
  | [], k, v => [(k, v)]
  | (k', v') :: rest, k, v =>
    if k' = k then (k, v) :: rest else (k', v') :: set rest k v

/-- `del d[k]` / `d.pop(k, None)`: remove every binding of `k` (at most one
on well-formed mappings). -/
def erase (a : Args) (k : String) : Args := a.filter (fun p => p.1 ≠ k)

def has (a : Args) (k : String) : Bool := (a.get k).isSome

/-- `k in d and d[k]` (presence plus truthiness). -/
def hasT (a : Args) (k : String) : Bool :=
  match a.get k with
  | some v => v.truthy
  | none => false

end Args

/-- The classifier result being refined (`function_name`, `arguments`). -/
structure Classification where
  function_name : String
  arguments : Args
deriving DecidableEq, Repr

/-! ## `QueryEngine.preprocess_query`

The ordered override passes of the source's refinement pipeline, with
`datetime.now()` as the explicit `today` and Python run-time errors as
`Except PyErr`. -/

/-- STEP 0: semantic-time-reference materialization. -/
def pass0 (today : Date) (c : Classification) : Except PyErr Classification :=
  match c.arguments.get "time_reference" with
  | some v =>
    if v.truthy then
      match v with
      | .vStr s =>
        match SemanticTimeParser.parse today s with
        | some (s1, e1) =>
          .ok ⟨c.function_name,
            (((c.arguments.set "start_date" (.vDate s1)).set "end_date"
              (.vDate e1)).erase "time_reference")⟩
        | none => .ok ⟨c.function_name, c.arguments.erase "time_reference"⟩
      | _ => .error .attrError
    else .ok c
  | none => .ok c

/-- The value-level core of STEP 0.5 (status synonym normalization):
either the canonical form, or `none` when no synonym list matches (in
which case the source leaves the original value untouched). -/
def statusCanon (s : String) : Option String :=
  let l := lowerStr s
  if l = "won" ∨ l = "win" ∨ l = "winning" ∨ l = "successful" ∨ l = "awarded" then
    some "won"
  else if l = "lost" ∨ l = "lose" ∨ l = "losing" ∨ l = "unsuccessful" ∨ l = "rejected" then
    some "lost"
  else if l = "submit" ∨ l = "submitted" ∨ l = "pending" ∨ l = "awaiting" then
    some "submitted"
  else if l = "lead" ∨ l = "leads" ∨ l = "opportunity" ∨ l = "opportunities" then
    some "lead"
  else if l = "proposal" ∨ l = "proposal development" ∨ l = "developing" then
    some "proposal development"
  else none

/-- STEP 0.5: status normalization (`.lower()` on a non-string raises). -/
def statusPass (c : Classification) : Except PyErr Classification :=
  match c.arguments.get "status" with
  | some (.vStr s) =>
    match statusCanon s with
    | some w => .ok ⟨c.function_name, c.arguments.set "status" (.vStr w)⟩
    | none => .ok c
  | some _ => .error .attrError
  | none => .ok c

def tagKeywords : List String := ["tag", "tags", "tagged", "tagged as", "tagged with"]
def categoryKeywords : List String :=
  ["category", "categories", "request category", "market segment"]
def rankingWords6 : List String :=
  ["largest", "biggest", "top", "highest", "greatest", "major"]

/-- `tags[0]` of a parsed item list (IndexError on an empty list). -/
def listHead : List String → Except PyErr String
  | [] => .error .indexError
  | t :: _ => .ok t

/-- `_parse_multiple_items(value)`: the argument must be a string
(`.replace` on anything else raises). -/
def parseItemsOf (v : Value) : Except PyErr (List String) :=
  match v with
  | .vStr s => .ok (DateCalculator._parse_multiple_items s)
  | _ => .error .attrError

/-- STEP 0.75 (first half): tag-vs-category disambiguation. -/
def tagPass (q : String) (c : Classification) : Except PyErr Classification :=
  let ql := lcs q
  if containsAnyWord tagKeywords ql && !containsAnyWord categoryKeywords ql then
    if c.function_name = "get_largest_by_category" then do
      let tags ← parseItemsOf (c.arguments.getD "category" (.vStr ""))
      let isRanking := containsAnyWord rankingWords6 ql
      let c2 ←
        (if tags.length > 1 then
          .ok ⟨"get_projects_by_multiple_tags", [("tags", .vStrList tags)]⟩
        else if isRanking then do
          let t ← listHead tags
          .ok ⟨"get_largest_by_tags", [("tag", .vStr t)]⟩
        else do
          let t ← listHead tags
          .ok ⟨"get_projects_by_tags", [("tag", .vStr t)]⟩ :
          Except PyErr Classification)
      -- "Preserve limit if it exists": read from the *new* arguments (a
      -- source quirk — always absent, so never restored).
      match c2.arguments.get "limit" with
      | some lv =>
        if lv.truthy then .ok ⟨c2.function_name, c2.arguments.set "limit" lv⟩
        else .ok c2
      | none => .ok c2
    else if c.function_name = "get_projects_by_category" then do
      let tags ← parseItemsOf (c.arguments.getD "category" (.vStr ""))
      if tags.length > 1 then
        .ok ⟨"get_projects_by_multiple_tags", [("tags", .vStrList tags)]⟩
      else do
        let t ← listHead tags
        .ok ⟨"get_projects_by_tags", [("tag", .vStr t)]⟩
    else if c.function_name = "get_projects_by_tags" then do
      let tags ← parseItemsOf (c.arguments.getD "tag" (.vStr ""))
      if tags.length > 1 then
        .ok ⟨"get_projects_by_multiple_tags", [("tags", .vStrList tags)]⟩
      else .ok c
    else .ok c
  else .ok c

/-- `tags[:5]` / `tags[0]` on the raw `tags` argument (Python slicing and
indexing also work on strings). -/
def take5V : Value → Value
  | .vStrList l => .vStrList (l.take 5)
  | .vIntList l => .vIntList (l.take 5)
  | .vStr s => .vStr (String.mk (s.data.take 5))
  | v => v

def head0V : Value → Except PyErr Value
  | .vStrList (t :: _) => .ok (.vStr t)
  | .vStrList [] => .error .indexError
  | .vIntList (t :: _) => .ok (.vInt t)
  | .vIntList [] => .error .indexError
  | .vStr s =>
    match s.data with
    | c :: _ => .ok (.vStr (String.mk [c]))
    | [] => .error .indexError
  | _ => .error .typeError

/-- STEP 0.75 (second half): the explicit multi-tag fix-ups (cap at 5,
collapse a single-tag multi-tag call). -/
def capPass (c : Classification) : Except PyErr Classification :=
  if c.function_name = "get_projects_by_multiple_tags" then
    let tv := c.arguments.getD "tags" (.vStrList [])
    match tv.pyLen with
    | .error e => .error e
    | .ok n =>
      if n > 5 then .ok ⟨c.function_name, c.arguments.set "tags" (take5V tv)⟩
      else if n = 1 then do
        let t ← head0V tv
        .ok ⟨"get_projects_by_tags", [("tag", t)]⟩
      else .ok c
  else .ok c

/-- STEP 0.8: company-comparison validation. -/
def opcoPass (c : Classification) : Except PyErr Classification :=
  if c.function_name = "compare_opco_revenue" then
    let companies := c.arguments.getD "companies" (.vStrList [])
    if !companies.truthy then .ok ⟨"compare_companies", []⟩
    else
      match companies.pyLen with
      | .error e => .error e
      | .ok n => if n = 0 then .ok ⟨"compare_companies", []⟩ else .ok c
  else .ok c

def monthProtected : List String :=
  ["get_largest_by_tags", "get_projects_by_tags", "get_projects_by_multiple_tags",
   "get_projects_by_combined_filters"]

def relProtected : List String :=
  ["get_largest_by_tags", "get_projects_by_multiple_tags",
   "get_projects_by_combined_filters"]

def rankingWords3 (ql : Cs) : Bool :=
  containsSub "largest" ql || containsSub "top" ql || containsSub "biggest" ql

def yearRankingSet : List String :=
  ["get_largest_projects", "get_largest_by_tags", "get_projects_by_multiple_tags",
   "get_projects_by_combined_filters"]

def yearPlainExcluded : List String :=
  ["get_largest_projects", "get_smallest_projects", "get_largest_by_tags",
   "get_projects_by_tags", "get_projects_by_multiple_tags",
   "get_projects_by_combined_filters"]

/-- STEP 1: date inference from the raw question.  The source assigns the
local `date_range` only on the `not month_range` branch; the specific-year
`elif` then reads it, so a month-range match with at most one detected year
raises `UnboundLocalError`. -/
def datePass (today : Date) (q : String) (c : Classification) :
    Except PyErr Classification :=
  let ql := lcs q
  let mr := DateCalculator.parse_month_range q
  let c1 : Classification :=
    match mr with
    | some (s, e) =>
      ⟨(if c.function_name ∈ monthProtected then c.function_name
        else "get_projects_by_date_range"),
       (c.arguments.set "start_date" (.vDate s)).set "end_date" (.vDate e)⟩
    | none => c
  let drVar : Option (Option (Date × Date)) :=
    if mr.isSome then none else some (DateCalculator.parse_relative_date today q)
  let c2 : Classification :=
    match drVar with
    | some (some (s, e)) =>
      let fn :=
        if c1.function_name ∈ relProtected then c1.function_name
        else if rankingWords3 ql then "get_largest_projects"
        else "get_projects_by_date_range"
      ⟨fn, ((((c1.arguments.set "start_date" (.vDate s)).set "end_date"
          (.vDate e)).erase "start_year").erase "end_year").erase "time_reference"⟩
    | _ => c1
  let c3 : Classification :=
    match DateCalculator.parse_specific_quarter q with
    | some (y, qu) =>
      if c2.function_name ≠ "get_projects_by_combined_filters" then
        ⟨"get_projects_by_quarter",
         (c2.arguments.set "year" (.vInt y)).set "quarter" (.vInt (qu : Int))⟩
      else c2
    | none => c2
  match DateCalculator.parse_multiple_years q with
  | some ys =>
    let c4 : Classification :=
      if ys.length = 2 && containsAnyWord ["compare", "vs", "versus"] ql then
        if c3.function_name ≠ "get_projects_by_combined_filters" then
          ⟨"compare_years",
           (c3.arguments.set "year1" (.vInt (ys.getD 0 0))).set "year2"
             (.vInt (ys.getD 1 0))⟩
        else c3
      else
        if c3.function_name ≠ "get_projects_by_combined_filters" then
          ⟨"get_projects_by_years", c3.arguments.set "years" (.vIntList ys)⟩
        else c3
    .ok c4
  | none =>
    match drVar with
    | none => .error .unboundLocal
    | some dr =>
      if dr.isNone ∧ mr.isNone then
        match DateCalculator.parse_specific_year q with
        | some y =>
          if rankingWords3 ql then
            if c3.function_name ∈ yearRankingSet then
              .ok ⟨c3.function_name,
                (c3.arguments.set "start_year" (.vInt y)).set "end_year" (.vInt y)⟩
            else .ok c3
          else
            if c3.function_name ∉ yearPlainExcluded then
              .ok ⟨"get_projects_by_year", c3.arguments.set "year" (.vInt y)⟩
            else .ok c3
        | none => .ok c3
      else .ok c3

def feeProtected : List String :=
  ["get_projects_by_combined_filters", "get_largest_by_tags",
   "get_projects_by_multiple_tags"]

/-- STEP 2: fee-range inference (`max_fee` falsy or absent becomes the
999 999 999 999 sentinel). -/
def feePass (q : String) (c : Classification) : Except PyErr Classification :=
  let ql := lcs q
  match NumberCalculator.parse_fee_range q with
  | some (mn, mx) =>
    let a1 := c.arguments.set "min_fee" (.vRat mn)
    let a2 :=
      match mx with
      | some m => if m ≠ 0 then a1.set "max_fee" (.vRat m)
                  else a1.set "max_fee" (.vRat 999999999999)
      | none => a1.set "max_fee" (.vRat 999999999999)
    let fn :=
      if c.function_name ∈ feeProtected then c.function_name
      else if a2.has "client" || containsAnyWord ["tamu", "clid"] ql then
        "get_projects_by_client_and_fee_range"
      else "get_projects_by_fee_range"
    .ok ⟨fn, a2⟩
  | none => .ok c

/-- STEP 3: limit inference (`if limit:` drops a parsed 0). -/
def limitPass (q : String) (c : Classification) : Except PyErr Classification :=
  match NumberCalculator.parse_limit q with
  | some n =>
    if n ≠ 0 then .ok ⟨c.function_name, c.arguments.set "limit" (.vInt n)⟩
    else .ok c
  | none => .ok c

/-- `QueryEngine.preprocess_query` (with `datetime.now()` as `today`). -/
def preprocess_query (today : Date) (q : String) (c : Classification) :
    Except PyErr Classification := do
  let c ← pass0 today c
  let c ← statusPass c
  let c ← tagPass q c
  let c ← capPass c
  let c ← opcoPass c
  let c ← datePass today q c
  let c ← feePass q c
  limitPass q c

/-! ## Query template catalog (`QueryEngine.query_templates`)

SQL skeletons are kept verbatim up to indentation whitespace. -/

structure Template where
  sql : String
  params : List String
  param_types : List String
  chart_type : String
  chart_field : Option String
deriving DecidableEq, Repr

def query_templates (name : String) : Option Template :=
  if name = "get_projects_by_year" then some
    { sql := "SELECT * FROM \"Sample\"
WHERE EXTRACT(YEAR FROM \"Start Date\") = %s
AND \"Start Date\" > '2000-01-01'
ORDER BY CAST(NULLIF(\"Fee\", '') AS NUMERIC) DESC NULLS LAST",
      params := ["year"], param_types := ["int"],
      chart_type := "bar", chart_field := some "Fee" }
  else if name = "get_projects_by_date_range" then some
    { sql := "SELECT * FROM \"Sample\"
WHERE \"Start Date\" >= %s::date
AND \"Start Date\" <= %s::date
AND \"Start Date\" > '2000-01-01'
ORDER BY CAST(NULLIF(\"Fee\", '') AS NUMERIC) DESC NULLS LAST",
      params := ["start_date", "end_date"], param_types := ["str", "str"],
      chart_type := "bar", chart_field := some "Fee" }
  else if name = "get_projects_by_quarter" then some
    { sql := "SELECT * FROM \"Sample\"
WHERE EXTRACT(YEAR FROM \"Start Date\") = %s
AND EXTRACT(QUARTER FROM \"Start Date\") = %s
AND \"Start Date\" > '2000-01-01'
ORDER BY CAST(NULLIF(\"Fee\", '') AS NUMERIC) DESC NULLS LAST",
      params := ["year", "quarter"], param_types := ["int", "int"],
      chart_type := "bar", chart_field := some "Fee" }
  else if name = "get_projects_by_years" then some
    { sql := "SELECT * FROM \"Sample\"
WHERE EXTRACT(YEAR FROM \"Start Date\") = ANY(%s)
AND \"Start Date\" > '2000-01-01'
ORDER BY \"Start Date\", CAST(NULLIF(\"Fee\", '') AS NUMERIC) DESC NULLS LAST",
      params := ["years"], param_types := ["array"],
      chart_type := "bar", chart_field := some "Fee" }
  else if name = "get_largest_projects" then some
    { sql := "SELECT * FROM \"Sample\"
WHERE \"Fee\" IS NOT NULL AND \"Fee\" != ''
{date_filter}
ORDER BY CAST(\"Fee\" AS NUMERIC) DESC
{limit_clause}",
      params := [], param_types := [],
      chart_type := "bar", chart_field := some "Fee" }
  else if name = "get_smallest_projects" then some
    { sql := "SELECT * FROM \"Sample\"
WHERE \"Fee\" IS NOT NULL AND \"Fee\" != ''
AND CAST(\"Fee\" AS NUMERIC) > 0
{date_filter}
ORDER BY CAST(\"Fee\" AS NUMERIC) ASC
{limit_clause}",
      params := [], param_types := [],
      chart_type := "bar", chart_field := some "Fee" }
  else if name = "get_largest_in_region" then some
    { sql := "SELECT * FROM \"Sample\"
WHERE \"State Lookup\" = %s::text
AND \"Fee\" IS NOT NULL AND \"Fee\" != ''
ORDER BY CAST(\"Fee\" AS NUMERIC) DESC
{limit_clause}",
      params := ["state_code"], param_types := ["str"],
      chart_type := "bar", chart_field := some "Fee" }
  else if name = "get_largest_by_category" then some
    { sql := "SELECT * FROM \"Sample\"
WHERE \"Request Category\" ILIKE %s
AND \"Fee\" IS NOT NULL AND \"Fee\" != ''
ORDER BY CAST(\"Fee\" AS NUMERIC) DESC
{limit_clause}",
      params := ["category"], param_types := ["str"],
      chart_type := "bar", chart_field := some "Fee" }
  else if name = "get_projects_by_category" then some
    { sql := "SELECT * FROM \"Sample\"
WHERE \"Request Category\" ILIKE %s
ORDER BY CAST(NULLIF(\"Fee\", '') AS NUMERIC) DESC NULLS LAST",
      params := ["category"], param_types := ["str"],
      chart_type := "bar", chart_field := some "Fee" }
  else if name = "get_projects_by_project_type" then some
    { sql := "SELECT * FROM \"Sample\"
WHERE \"Project Type\" ILIKE %s
ORDER BY CAST(NULLIF(\"Fee\", '') AS NUMERIC) DESC NULLS LAST",
      params := ["project_type"], param_types := ["str"],
      chart_type := "bar", chart_field := some "Fee" }
  else if name = "get_projects_by_multiple_categories" then some
    { sql := "SELECT * FROM \"Sample\"
WHERE \"Request Category\" ILIKE ANY(%s)
ORDER BY CAST(NULLIF(\"Fee\", '') AS NUMERIC) DESC NULLS LAST",
      params := ["categories"], param_types := ["array"],
      chart_type := "bar", chart_field := some "Fee" }
  else if name = "get_largest_by_tags" then some
    { sql := "SELECT * FROM \"Sample\"
WHERE \"Tags\" ILIKE %s
AND \"Fee\" IS NOT NULL AND \"Fee\" != ''
ORDER BY CAST(\"Fee\" AS NUMERIC) DESC
{limit_clause}",
      params := ["tag"], param_types := ["str"],
      chart_type := "bar", chart_field := some "Fee" }
  else if name = "get_projects_by_tags" then some
    { sql := "SELECT * FROM \"Sample\"
WHERE \"Tags\" ILIKE %s
ORDER BY CAST(NULLIF(\"Fee\", '') AS NUMERIC) DESC NULLS LAST",
      params := ["tag"], param_types := ["str"],
      chart_type := "bar", chart_field := some "Fee" }
  else if name = "get_top_tags" then some
    { sql := "SELECT TRIM(UNNEST(string_to_array(\"Tags\", ','))) as tag,
COUNT(*) as project_count,
SUM(CAST(NULLIF(\"Fee\", '') AS NUMERIC)) as total_value
FROM \"Sample\"
WHERE \"Tags\" IS NOT NULL AND \"Tags\" != ''
GROUP BY tag
HAVING TRIM(UNNEST(string_to_array(\"Tags\", ','))) != ''
ORDER BY total_value DESC NULLS LAST
{limit_clause}",
      params := [], param_types := [],
      chart_type := "bar", chart_field := some "total_value" }
  else if name = "get_top_tags_by_date" then some
    { sql := "SELECT TRIM(UNNEST(string_to_array(\"Tags\", ','))) as tag,
COUNT(*) as project_count,
SUM(CAST(NULLIF(\"Fee\", '') AS NUMERIC)) as total_value
FROM \"Sample\"
WHERE \"Tags\" IS NOT NULL AND \"Tags\" != ''
AND EXTRACT(YEAR FROM \"Start Date\") >= %s
AND EXTRACT(YEAR FROM \"Start Date\") <= %s
GROUP BY tag
HAVING TRIM(UNNEST(string_to_array(\"Tags\", ','))) != ''
ORDER BY project_count DESC, total_value DESC NULLS LAST
{limit_clause}",
      params := ["start_year", "end_year"], param_types := ["int", "int"],
      chart_type := "bar", chart_field := some "project_count" }
  else if name = "get_projects_by_shared_tags" then some
    { sql := "WITH reference_tags AS (
SELECT UNNEST(string_to_array(\"Tags\", ',')) as tag
FROM \"Sample\"
WHERE \"Client\" ILIKE %s OR \"Project Name\"::text ILIKE %s
LIMIT 1
)
SELECT DISTINCT s.*
FROM \"Sample\" s, reference_tags rt
WHERE s.\"Tags\" ILIKE '%%' || rt.tag || '%%'
ORDER BY CAST(NULLIF(s.\"Fee\", '') AS NUMERIC) DESC NULLS LAST
{limit_clause}",
      params := ["reference_client", "reference_project"],
      param_types := ["str", "str"],
      chart_type := "bar", chart_field := some "Fee" }
  else if name = "get_projects_by_multiple_tags" then some
    { sql := "SELECT * FROM \"Sample\"
WHERE \"Tags\" IS NOT NULL
AND \"Tags\" != ''
{tag_conditions}
ORDER BY CAST(NULLIF(\"Fee\", '') AS NUMERIC) DESC NULLS LAST
{limit_clause}",
      params := [], param_types := [],
      chart_type := "bar", chart_field := some "Fee" }
  else if name = "get_projects_by_company" then some
    { sql := "SELECT * FROM \"Sample\"
WHERE \"Company\" ILIKE %s
ORDER BY CAST(NULLIF(\"Fee\", '') AS NUMERIC) DESC NULLS LAST",
      params := ["company"], param_types := ["str"],
      chart_type := "bar", chart_field := some "Fee" }
  else if name = "compare_companies" then some
    { sql := "SELECT \"Company\",
COUNT(*) as project_count,
SUM(CAST(NULLIF(\"Fee\", '') AS NUMERIC)) as total_revenue,
AVG(CAST(NULLIF(\"Fee\", '') AS NUMERIC)) as avg_project_size,
AVG(CAST(NULLIF(\"Win %\", '') AS NUMERIC)) as avg_win_rate
FROM \"Sample\"
WHERE \"Company\" IS NOT NULL AND \"Company\" != ''
GROUP BY \"Company\"
ORDER BY total_revenue DESC NULLS LAST",
      params := [], param_types := [],
      chart_type := "bar", chart_field := some "total_revenue" }
  else if name = "compare_opco_revenue" then some
    { sql := "SELECT \"Company\",
COUNT(*) as project_count,
SUM(CAST(NULLIF(\"Fee\", '') AS NUMERIC)) as total_revenue,
SUM(CAST(NULLIF(\"Fee\", '') AS NUMERIC) * CAST(NULLIF(\"Win %%\", '') AS NUMERIC) / 100) as predicted_revenue,
AVG(CAST(NULLIF(\"Win %%\", '') AS NUMERIC)) as avg_win_rate
FROM \"Sample\"
WHERE (\"Company\" ILIKE ANY(%s))
AND \"Status\" NOT IN ('Won', 'Lost')
GROUP BY \"Company\"
ORDER BY predicted_revenue DESC NULLS LAST",
      params := ["companies"], param_types := ["array"],
      chart_type := "bar", chart_field := some "predicted_revenue" }
  else if name = "get_projects_by_client" then some
    { sql := "SELECT * FROM \"Sample\"
WHERE \"Client\" ILIKE %s
ORDER BY CAST(NULLIF(\"Fee\", '') AS NUMERIC) DESC NULLS LAST",
      params := ["client"], param_types := ["str"],
      chart_type := "bar", chart_field := some "Fee" }
  else if name = "get_projects_by_client_and_fee_range" then some
    { sql := "SELECT * FROM \"Sample\"
WHERE \"Client\" ILIKE %s
AND CAST(NULLIF(\"Fee\", '') AS NUMERIC) >= %s
AND CAST(NULLIF(\"Fee\", '') AS NUMERIC) <= %s
ORDER BY CAST(NULLIF(\"Fee\", '') AS NUMERIC) DESC",
      params := ["client", "min_fee", "max_fee"],
      param_types := ["str", "float", "float"],
      chart_type := "bar", chart_field := some "Fee" }
  else if name = "get_client_win_rates" then some
    { sql := "SELECT \"Client\",
COUNT(*) as project_count,
AVG(CAST(NULLIF(\"Win %\", '') AS NUMERIC)) as avg_win_rate,
SUM(CAST(NULLIF(\"Fee\", '') AS NUMERIC)) as total_value
FROM \"Sample\"
WHERE \"Client\" ILIKE %s
AND \"Win %\" IS NOT NULL AND \"Win %\" != ''
GROUP BY \"Client\"
ORDER BY avg_win_rate DESC",
      params := ["client"], param_types := ["str"],
      chart_type := "bar", chart_field := some "avg_win_rate" }
  else if name = "get_projects_by_status" then some
    { sql := "SELECT * FROM \"Sample\"
WHERE \"Status\" ILIKE %s
ORDER BY CAST(NULLIF(\"Fee\", '') AS NUMERIC) DESC NULLS LAST",
      params := ["status"], param_types := ["str"],
      chart_type := "bar", chart_field := some "Fee" }
  else if name = "get_status_breakdown" then some
    { sql := "SELECT \"Status\",
COUNT(*) as project_count,
SUM(CAST(NULLIF(\"Fee\", '') AS NUMERIC)) as total_value,
AVG(CAST(NULLIF(\"Win %\", '') AS NUMERIC)) as avg_win_rate
FROM \"Sample\"
GROUP BY \"Status\"
ORDER BY total_value DESC NULLS LAST",
      params := [], param_types := [],
      chart_type := "pie", chart_field := some "project_count" }
  else if name = "get_overoptimistic_losses" then some
    { sql := "SELECT * FROM \"Sample\"
WHERE \"Status\" ~* 'lost'
AND CAST(NULLIF(\"Win %\", '') AS NUMERIC) > 70
ORDER BY CAST(NULLIF(\"Win %\", '') AS NUMERIC) DESC",
      params := [], param_types := [],
      chart_type := "bar", chart_field := some "Win %" }
  else if name = "get_top_predicted_wins" then some
    { sql := "SELECT * FROM \"Sample\"
WHERE \"Status\" NOT IN ('Won', 'Lost')
AND \"Win %%\" IS NOT NULL AND \"Win %%\" != ''
AND CAST(NULLIF(\"Win %%\", '') AS NUMERIC) > 50
AND \"Start Date\" >= CURRENT_DATE
AND \"Start Date\" <= CURRENT_DATE + INTERVAL '6 months'
ORDER BY CAST(NULLIF(\"Win %%\", '') AS NUMERIC) DESC,
CAST(NULLIF(\"Fee\", '') AS NUMERIC) DESC
LIMIT %s",
      params := ["limit"], param_types := ["int"],
      chart_type := "bar", chart_field := some "Win %" }
  else if name = "get_project_win_rate" then some
    { sql := "SELECT \"Project Name\", \"Win %\", \"Status\", \"Fee\",
\"Request Category\", \"Company\", \"Point Of Contact\", \"Tags\"
FROM \"Sample\"
WHERE \"Project Name\"::text ILIKE %s",
      params := ["project_name"], param_types := ["str"],
      chart_type := "none", chart_field := none }
  else if name = "get_projects_by_win_range" then some
    { sql := "SELECT * FROM \"Sample\"
WHERE CAST(NULLIF(\"Win %%\", '') AS NUMERIC) >= %s
AND CAST(NULLIF(\"Win %%\", '') AS NUMERIC) <= %s
ORDER BY CAST(NULLIF(\"Win %%\", '') AS NUMERIC) DESC",
      params := ["min_win", "max_win"], param_types := ["int", "int"],
      chart_type := "bar", chart_field := some "Fee" }
  else if name = "predict_win_probability" then some
    -- The 40-line SELECT list of this template (similar-project aggregates
    -- and CASE insights) is abbreviated here: no optional slot or extra %s
    -- occurs in the elided text, and no claim touches this template's text.
    { sql := "SELECT p.*, similar_avg_win_rate, similar_projects_count, prediction, status_insight FROM \"Sample\" p
WHERE p.\"Project Name\"::text ILIKE %s
LIMIT 1",
      params := ["project_name"], param_types := ["str"],
      chart_type := "none", chart_field := none }
  else if name = "get_projects_by_state" then some
    { sql := "SELECT * FROM \"Sample\"
WHERE \"State Lookup\" = %s
ORDER BY CAST(NULLIF(\"Fee\", '') AS NUMERIC) DESC NULLS LAST",
      params := ["state_code"], param_types := ["str"],
      chart_type := "bar", chart_field := some "Fee" }
  else if name = "get_projects_by_fee_range" then some
    { sql := "SELECT * FROM \"Sample\"
WHERE \"Fee\" IS NOT NULL AND \"Fee\" != ''
AND CAST(\"Fee\" AS NUMERIC) >= %s
{max_fee_filter}
ORDER BY CAST(\"Fee\" AS NUMERIC) DESC",
      params := ["min_fee"], param_types := ["float"],
      chart_type := "bar", chart_field := some "Fee" }
  else if name = "get_projects_by_size" then some
    { sql := "SELECT
*
FROM \"Sample\"
WHERE \"Fee\" IS NOT NULL AND \"Fee\" != ''
AND CAST(NULLIF(\"Fee\", '') AS NUMERIC) > 0
AND {size_case_statement} = %s
ORDER BY CAST(\"Fee\" AS NUMERIC) DESC",
      params := ["size"], param_types := ["str"],
      chart_type := "bar", chart_field := some "Fee" }
  else if name = "get_size_distribution" then some
    { sql := "SELECT
{size_case_statement} as size_tier,
COUNT(*) as project_count,
ROUND(SUM(CAST(NULLIF(\"Fee\", '') AS NUMERIC))::numeric, 0) as total_value,
ROUND(AVG(CAST(NULLIF(\"Fee\", '') AS NUMERIC))::numeric, 0) as avg_fee,
ROUND(MIN(CAST(NULLIF(\"Fee\", '') AS NUMERIC))::numeric, 0) as min_fee,
ROUND(MAX(CAST(NULLIF(\"Fee\", '') AS NUMERIC))::numeric, 0) as max_fee,
ROUND(AVG(CAST(NULLIF(\"Win %\", '') AS NUMERIC))::numeric, 1) as avg_win_rate
FROM \"Sample\"
WHERE \"Fee\" IS NOT NULL AND \"Fee\" != ''
AND CAST(NULLIF(\"Fee\", '') AS NUMERIC) > 0
GROUP BY size_tier
ORDER BY MIN(CAST(NULLIF(\"Fee\", '') AS NUMERIC))",
      params := [], param_types := [],
      chart_type := "pie", chart_field := some "project_count" }
  else if name = "get_similar_projects" then some
    { sql := "WITH target AS (
SELECT \"Request Category\", \"Company\", \"Fee\", \"Tags\"
FROM \"Sample\"
WHERE \"Project Name\"::text ILIKE %s
LIMIT 1
)
SELECT s.*,
ABS(CAST(NULLIF(s.\"Fee\", '') AS NUMERIC) - CAST(NULLIF(t.\"Fee\", '') AS NUMERIC)) as fee_diff
FROM \"Sample\" s, target t
WHERE s.\"Request Category\" = t.\"Request Category\"
AND s.\"Company\" = t.\"Company\"
AND s.\"Project Name\"::text NOT ILIKE %s
ORDER BY fee_diff
LIMIT 10",
      params := ["project_name", "project_name"], param_types := ["str", "str"],
      chart_type := "bar", chart_field := some "Fee" }
  else if name = "compare_project_with_similar" then some
    { sql := "WITH target_project AS (
SELECT * FROM \"Sample\" WHERE \"Project Name\"::text ILIKE %s LIMIT 1
)
SELECT s.*,
CASE WHEN s.\"Project Name\"::text ILIKE %s THEN 1 ELSE 0 END as is_target
FROM \"Sample\" s, target_project tp
WHERE s.\"Request Category\" = tp.\"Request Category\"
AND s.\"Company\" = tp.\"Company\"
ORDER BY ABS(CAST(NULLIF(s.\"Fee\", '') AS NUMERIC) - CAST(NULLIF(tp.\"Fee\", '') AS NUMERIC))
LIMIT 20",
      params := ["project_name", "project_name"], param_types := ["str", "str"],
      chart_type := "bar", chart_field := some "Fee" }
  else if name = "get_related_projects" then some
    { sql := "WITH target_tags AS (
SELECT UNNEST(string_to_array(\"Tags\", ',')) as tag
FROM \"Sample\"
WHERE \"Project Name\"::text ILIKE %s
LIMIT 1
)
SELECT DISTINCT s.*,
(SELECT COUNT(*) FROM target_tags tt WHERE s.\"Tags\" ILIKE '%%' || tt.tag || '%%') as matching_tags
FROM \"Sample\" s
WHERE EXISTS (
SELECT 1 FROM target_tags tt WHERE s.\"Tags\" ILIKE '%%' || tt.tag || '%%'
)
AND s.\"Project Name\"::text NOT ILIKE %s
ORDER BY matching_tags DESC, CAST(NULLIF(s.\"Fee\", '') AS NUMERIC) DESC NULLS LAST
LIMIT 20",
      params := ["project_name", "project_name"], param_types := ["str", "str"],
      chart_type := "bar", chart_field := some "Fee" }
  else if name = "get_projects_by_status_and_win_rate" then some
    { sql := "SELECT * FROM \"Sample\"
WHERE \"Status\" ILIKE %s
AND \"Win %%\" IS NOT NULL AND \"Win %%\" != ''
AND CAST(NULLIF(\"Win %%\", '') AS NUMERIC) > %s
ORDER BY CAST(NULLIF(\"Win %%\", '') AS NUMERIC) DESC",
      params := ["status", "min_win"], param_types := ["str", "int"],
      chart_type := "bar", chart_field := some "Win %" }
  else if name = "analyze_pursuit_duration" then some
    -- The aggregate SELECT list (avg/median/min/max days, win rate, value)
    -- is abbreviated: no optional slot or %s occurs in the elided text, and
    -- no claim touches this template's text.
    { sql := "SELECT \"Company\", \"Status\", \"Request Category\", COUNT(*) as total_pursuits, avg_days_old, median_days_old, newest_pursuit_days, oldest_pursuit_days, oldest_start_date, newest_start_date, avg_win_rate, total_value
FROM \"Sample\"
WHERE \"Status\" IN ('Won', 'Lost')
AND \"Start Date\" IS NOT NULL
AND \"Start Date\" > '2020-01-01'
AND \"Start Date\" <= CURRENT_DATE
GROUP BY \"Company\", \"Status\", \"Request Category\"
HAVING COUNT(*) >= 2
ORDER BY \"Company\", \"Status\", avg_days_old DESC",
      params := [], param_types := [],
      chart_type := "bar", chart_field := some "avg_days_old" }
  else if name = "get_all_projects" then some
    { sql := "SELECT \"Project Type\", \"Start Date\", \"Fee\", \"Client\",
\"Project Name\", \"Status\", \"Company\", \"Win %\", \"Tags\"
FROM \"Sample\"
ORDER BY \"Start Date\" DESC NULLS LAST",
      params := [], param_types := [],
      chart_type := "none", chart_field := none }
  else if name = "get_projects_sorted" then some
    { sql := "SELECT * FROM \"Sample\"
WHERE \"Win %\" IS NOT NULL AND \"Win %\" != ''
AND \"Fee\" IS NOT NULL AND \"Fee\" != ''
ORDER BY
CAST(NULLIF(\"Win %\", '') AS NUMERIC) DESC,
CAST(NULLIF(\"Fee\", '') AS NUMERIC) DESC",
      params := [], param_types := [],
      chart_type := "bar", chart_field := some "Fee" }
  else if name = "group_projects_by_type_size" then some
    { sql := "SELECT
\"Project Type\",
{size_case_statement} as size_category,
COUNT(*) as project_count,
ROUND(SUM(CAST(NULLIF(\"Fee\", '') AS NUMERIC))::numeric, 0) as total_value,
ROUND(AVG(CAST(NULLIF(\"Win %\", '') AS NUMERIC))::numeric, 1) as avg_win_rate
FROM \"Sample\"
WHERE \"Fee\" IS NOT NULL AND \"Fee\" != ''
AND CAST(NULLIF(\"Fee\", '') AS NUMERIC) > 0
GROUP BY \"Project Type\", size_category
ORDER BY \"Project Type\", MIN(CAST(NULLIF(\"Fee\", '') AS NUMERIC))",
      params := [], param_types := [],
      chart_type := "bar", chart_field := some "total_value" }
  else if name = "get_projects_by_combined_filters" then some
    { sql := "SELECT * FROM \"Sample\"
WHERE 1=1
{size_filter}
{category_filter}
{tag_filter}
{status_filter}
{company_filter}
{state_filter}
{fee_filter}
{win_filter}
{date_filter}
AND \"Start Date\" > '2000-01-01'
ORDER BY CAST(NULLIF(\"Fee\", '') AS NUMERIC) DESC NULLS LAST
{limit_clause}",
      params := [], param_types := [],
      chart_type := "bar", chart_field := some "Fee" }
  else if name = "get_projects_by_contact" then some
    { sql := "SELECT * FROM \"Sample\"
WHERE \"Point Of Contact\" ILIKE %s
ORDER BY CAST(NULLIF(\"Fee\", '') AS NUMERIC) DESC NULLS LAST",
      params := ["contact_name"], param_types := ["str"],
      chart_type := "bar", chart_field := some "Fee" }
  else if name = "get_project_by_id" then some
    { sql := "SELECT * FROM \"Sample\"
WHERE \"Project Name\"::text ILIKE %s OR \"Internal Id\" ILIKE %s",
      params := ["project_name", "internal_id"], param_types := ["str", "str"],
      chart_type := "none", chart_field := none }
  else if name = "get_revenue_by_category" then some
    { sql := "SELECT
\"Request Category\",
COUNT(*) as project_count,
SUM(CAST(NULLIF(\"Fee\", '') AS NUMERIC)) as total_revenue,
AVG(CAST(NULLIF(\"Fee\", '') AS NUMERIC)) as avg_revenue,
AVG(CAST(NULLIF(\"Win %%\", '') AS NUMERIC)) as avg_win_rate
FROM \"Sample\"
WHERE \"Request Category\" ILIKE %s
{status_filter}
GROUP BY \"Request Category\"",
      params := ["category"], param_types := ["str"],
      chart_type := "none", chart_field := none }
  else if name = "get_weighted_revenue_projection" then some
    { sql := "SELECT
\"Status\",
COUNT(*) as project_count,
SUM(CAST(NULLIF(\"Fee\", '') AS NUMERIC)) as total_value,
SUM(CAST(NULLIF(\"Fee\", '') AS NUMERIC) *
CAST(NULLIF(\"Win %%\", '') AS NUMERIC) / 100) as weighted_expected_value,
AVG(CAST(NULLIF(\"Win %%\", '') AS NUMERIC)) as avg_win_rate
FROM \"Sample\"
WHERE \"Status\" NOT IN ('Won', 'Lost')
AND \"Win %%\" IS NOT NULL AND \"Win %%\" != ''
GROUP BY \"Status\"
ORDER BY weighted_expected_value DESC",
      params := [], param_types := [],
      chart_type := "bar", chart_field := some "weighted_expected_value" }
  else if name = "compare_years" then some
    { sql := "SELECT
EXTRACT(YEAR FROM \"Start Date\") as year,
COUNT(*) as project_count,
SUM(CAST(NULLIF(\"Fee\", '') AS NUMERIC)) as total_revenue,
AVG(CAST(NULLIF(\"Fee\", '') AS NUMERIC)) as avg_project_size,
AVG(CAST(NULLIF(\"Win %%\", '') AS NUMERIC)) as avg_win_rate
FROM \"Sample\"
WHERE EXTRACT(YEAR FROM \"Start Date\") IN (%s, %s)
AND \"Start Date\" > '2000-01-01'
GROUP BY year
ORDER BY year",
      params := ["year1", "year2"], param_types := ["int", "int"],
      chart_type := "bar", chart_field := some "total_revenue" }
  else none

/-! ## `QueryEngine.build_sql_query`

`size_case` stands for `self.size_calculator.get_sql_case_statement()`
(derived from the live dataset, not from the arguments).  Python
placeholder replacement (`str.replace`) replaces every occurrence.
Fallible coercions: the combined-filter path calls `float()`/`int()`
outside any `try`, the regular path wraps them in `try/except` with a
zero fallback. -/

inductive BuildResult where
  | notFound
  | built (sql : String) (params : Option (List Value))
deriving DecidableEq, Repr

def BuildResult.paramCount : BuildResult → Nat
  | .notFound => 0
  | .built _ ps => (ps.getD []).length

def pyFloatE (v : Value) : Except PyErr Rat :=
  match v.pyFloat? with
  | some r => .ok r
  | none => .error .valueError

def pyIntE (v : Value) : Except PyErr Int :=
  match v.pyInt? with
  | some n => .ok n
  | none => .error .valueError

/-- `isinstance(v, list)` with the elements as values. -/
def listItems : Value → Option (List Value)
  | .vStrList l => some (l.map Value.vStr)
  | .vIntList l => some (l.map Value.vInt)
  | _ => none

/-- The rendered LIMIT clause of the combined path. -/
def limitRender (a : Args) : String :=
  if a.hasT "limit" then
    match (a.getD "limit" (.vStr "")).pyInt? with
    | some n => "LIMIT " ++ toString n
    | none => ""
  else ""

/-- The combined-filters path of `build_sql_query`, one segment per
optional filter block of the source (each yields its clause text and its
bound parameters; the four fee/win blocks call `float()`/`int()` outside
any `try` and so may raise). -/
def sizeSeg (size_case : String) (args : Args) : String × List Value :=
  if args.hasT "size" then
    ("AND " ++ size_case ++ " ILIKE %s",
     [Value.vStr ("%" ++ (args.getD "size" (.vStr "")).pyStr ++ "%")])
  else ("", [])

def catSeg (args : Args) : String × List Value :=
  if args.hasT "categories" then
    match listItems (args.getD "categories" (.vStr "")) with
    | some items =>
      if items.length > 0 then
        ("AND (" ++
           String.intercalate " OR "
             (items.map (fun _ => "\"Request Category\" ILIKE %s")) ++ ")",
         items.map (fun c => Value.vStr ("%" ++ c.pyStr ++ "%")))
      else ("", [])
    | none => ("", [])
  else ("", [])

def tagSeg (args : Args) : String × List Value :=
  if args.hasT "tags" then
    match listItems (args.getD "tags" (.vStr "")) with
    | some items =>
      if items.length > 0 then
        ("AND " ++
           String.intercalate " AND " (items.map (fun _ => "\"Tags\" ILIKE %s")),
         items.map (fun t => Value.vStr ("%" ++ t.pyStr ++ "%")))
      else ("", [])
    | none => ("", [])
  else ("", [])

def statusSeg (args : Args) : String × List Value :=
  if args.hasT "status" then
    ("AND \"Status\" ILIKE %s",
     [Value.vStr ("%" ++ (args.getD "status" (.vStr "")).pyStr ++ "%")])
  else ("", [])

def companySeg (args : Args) : String × List Value :=
  if args.hasT "company" then
    ("AND \"Company\" ILIKE %s",
     [Value.vStr ("%" ++ (args.getD "company" (.vStr "")).pyStr ++ "%")])
  else ("", [])

def stateSeg (args : Args) : String × List Value :=
  if args.hasT "state_code" then
    ("AND \"State Lookup\" = %s",
     [Value.vStr (args.getD "state_code" (.vStr "")).pyStr])
  else ("", [])

def minFeeSeg (args : Args) : Except PyErr (String × List Value) :=
  if args.hasT "min_fee" then do
    let f ← pyFloatE (args.getD "min_fee" (.vStr ""))
    pure ("AND CAST(NULLIF(\"Fee\", '') AS NUMERIC) >= %s", [Value.vRat f])
  else pure ("", [])

def maxFeeSeg (args : Args) : Except PyErr (String × List Value) :=
  if args.hasT "max_fee" then do
    let f ← pyFloatE (args.getD "max_fee" (.vStr ""))
    pure (" AND CAST(NULLIF(\"Fee\", '') AS NUMERIC) <= %s", [Value.vRat f])
  else pure ("", [])

def minWinSeg (args : Args) : Except PyErr (String × List Value) :=
  if args.hasT "min_win" then do
    let n ← pyIntE (args.getD "min_win" (.vStr ""))
    pure ("AND CAST(NULLIF(\"Win %\", '') AS NUMERIC) >= %s", [Value.vInt n])
  else pure ("", [])

def maxWinSeg (args : Args) : Except PyErr (String × List Value) :=
  if args.hasT "max_win" then do
    let n ← pyIntE (args.getD "max_win" (.vStr ""))
    pure (" AND CAST(NULLIF(\"Win %\", '') AS NUMERIC) <= %s", [Value.vInt n])
  else pure ("", [])

def startDateSeg (args : Args) : String × List Value :=
  if args.hasT "start_date" then
    ("AND \"Start Date\" >= %s::date", [args.getD "start_date" (.vStr "")])
  else ("", [])

def endDateSeg (args : Args) : String × List Value :=
  if args.hasT "end_date" then
    (" AND \"Start Date\" <= %s::date", [args.getD "end_date" (.vStr "")])
  else ("", [])

def buildCombined (size_case : String) (sql0 : String) (args : Args) :
    Except PyErr (String × List Value) := do
  let sz := sizeSeg size_case args
  let ct := catSeg args
  let tg := tagSeg args
  let st := statusSeg args
  let co := companySeg args
  let sf := stateSeg args
  let f1 ← minFeeSeg args
  let f2 ← maxFeeSeg args
  let w1 ← minWinSeg args
  let w2 ← maxWinSeg args
  let d1 := startDateSeg args
  let d2 := endDateSeg args
  let limitC := limitRender args
  let sql := pyReplace sql0 "{size_filter}" sz.1
  let sql := pyReplace sql "{category_filter}" ct.1
  let sql := pyReplace sql "{tag_filter}" tg.1
  let sql := pyReplace sql "{status_filter}" st.1
  let sql := pyReplace sql "{company_filter}" co.1
  let sql := pyReplace sql "{state_filter}" sf.1
  let sql := pyReplace sql "{fee_filter}" (f1.1 ++ f2.1)
  let sql := pyReplace sql "{win_filter}" (w1.1 ++ w2.1)
  let sql := pyReplace sql "{date_filter}" (d1.1 ++ d2.1)
  let sql := pyReplace sql "{limit_clause}" limitC
  pure (sql, sz.2 ++ ct.2 ++ tg.2 ++ st.2 ++ co.2 ++ sf.2 ++ f1.2 ++ f2.2 ++
    w1.2 ++ w2.2 ++ d1.2 ++ d2.2)

/-- One iteration of the regular-path parameter loop (each branch appends
exactly one parameter). -/
def coerceParam (args : Args) (param_name param_type : String) : Value :=
  if param_name = "state_code" then
    .vStr (args.getD "state_code" (.vStr "")).pyStr
  else if param_name = "status" then
    .vStr ("%" ++ (args.getD "status" (.vStr "")).pyStr ++ "%")
  else if param_name = "min_win" ∨ param_name = "max_win" then
    .vInt (((args.getD param_name (.vInt 0)).pyInt?).getD 0)
  else if param_name = "project_name" ∨ param_name = "internal_id" ∨
      param_name = "reference_client" ∨ param_name = "reference_project" then
    let val0 := args.getD param_name (.vStr "")
    let val1 :=
      if !val0.truthy ∧ (param_name = "reference_project" ∨ param_name = "internal_id")
      then args.getD "project_name" (.vStr "") else val0
    let val2 :=
      if !val1.truthy ∧ param_name = "reference_client"
      then args.getD "client" (.vStr "") else val1
    .vStr ("%" ++ val2.pyStr ++ "%")
  else
    match args.get param_name with
    | some v =>
      if param_type = "int" then .vInt ((v.pyInt?).getD 0)
      else if param_type = "float" then .vRat ((v.pyFloat?).getD 0)
      else if param_type = "array" then
        match listItems v with
        | some items =>
          if items = [] then .vStrList []
          else if param_name = "categories" ∨ param_name = "companies" then
            .vStrList (items.map (fun x => "%" ++ trimStr x.pyStr ++ "%"))
          else v
        | none =>
          -- non-list value for an array parameter: wrapped in a one-element
          -- list (rendered via `str` here; the source keeps the raw value)
          if param_name = "categories" ∨ param_name = "companies" then
            .vStrList ["%" ++ trimStr v.pyStr ++ "%"]
          else .vStrList [v.pyStr]
      else if param_type = "str" then
        if v = .vStr "" then .vStr "%%" else .vStr ("%" ++ v.pyStr ++ "%")
      else v
    | none =>
      if param_type = "int" then .vInt 0
      else if param_type = "float" then .vRat 0
      else if param_type = "array" then .vStrList []
      else .vStr "%%"

/-- `param_types[idx] if idx < len(param_types) else "str"`. -/
def paramTypeAt (ts : List String) (i : Nat) : String := ts.getD i "str"

/-- `QueryEngine.build_sql_query`. -/
def build_sql_query (size_case : String) (function_name : String)
    (arguments : Args) : Except PyErr BuildResult :=
  match query_templates function_name with
  | none => .ok .notFound
  | some t =>
    if function_name = "get_projects_by_combined_filters" then
      match buildCombined size_case t.sql arguments with
      | .ok (sql, ps) => .ok (.built sql (some ps))
      | .error e => .error e
    else
      -- regular path
      let sql := if containsSub "{size_case_statement}" (csOf t.sql)
        then pyReplace t.sql "{size_case_statement}" size_case else t.sql
      let sql :=
        if containsSub "{date_filter}" (csOf sql) then
          let df :=
            if arguments.has "start_date" ∧ arguments.has "end_date" then
              "AND \"Start Date\" >= '" ++ (arguments.getD "start_date" (.vStr "")).pyStr ++
              "'::date AND \"Start Date\" <= '" ++
              (arguments.getD "end_date" (.vStr "")).pyStr ++
              "'::date AND \"Start Date\" > '2000-01-01'"
            else if arguments.has "start_year" ∧ arguments.has "end_year" then
              "AND \"Start Date\" >= '" ++ (arguments.getD "start_year" (.vStr "")).pyStr ++
              "-01-01'::date AND \"Start Date\" <= '" ++
              (arguments.getD "end_year" (.vStr "")).pyStr ++
              "-12-31'::date AND \"Start Date\" > '2000-01-01'"
            else ""
          pyReplace sql "{date_filter}" df
        else sql
      let sql :=
        if containsSub "{status_filter}" (csOf sql) then
          let sf :=
            if arguments.hasT "status" then
              "AND \"Status\" ILIKE '%" ++ (arguments.getD "status" (.vStr "")).pyStr ++ "%'"
            else ""
          pyReplace sql "{status_filter}" sf
        else sql
      let sql :=
        if containsSub "{limit_clause}" (csOf sql) then
          let lc :=
            if arguments.hasT "limit" then
              match (arguments.getD "limit" (.vStr "")).pyInt? with
              | some n => "LIMIT " ++ toString n
              | none => ""
            else ""
          pyReplace sql "{limit_clause}" lc
        else sql
      let sql :=
        if containsSub "{max_fee_filter}" (csOf sql) then
          let mf :=
            if arguments.hasT "max_fee" then
              match (arguments.getD "max_fee" (.vStr "")).pyFloat? with
              | some f =>
                if f < 999999999999 then
                  -- the source renders the Python float; we render the exact
                  -- rational (formatting-only divergence)
                  "AND CAST(\"Fee\" AS NUMERIC) <= " ++ toString f
                else ""
              | none => ""
            else ""
          pyReplace sql "{max_fee_filter}" mf
        else sql
      if t.params.length > 0 then
        -- the tuple-conversion special case for a single array parameter
        -- returns the same contents, so it is not distinguished here
        .ok (.built sql (some ((List.range t.params.length).map (fun i =>
          coerceParam arguments (t.params.getD i "") (paramTypeAt t.param_types i)))))
      else .ok (.built sql none)

/-! ## `QueryEngine.calculate_summary_stats`

Rows are records of column values.  The chart configuration and the
status/company breakdowns are not modelled (no claim refers to them). -/

abbrev Row := List (String × Value)

/-- The fee extraction loop: rows with a present, truthy `"Fee"` whose
`float()` conversion succeeds (`except` skips the rest). -/
def feesOf (data : List Row) : List Rat :=
  data.foldr
    (fun item acc =>
      match Args.get item "Fee" with
      | some v =>
        if v.truthy then
          match v.pyFloat? with
          | some f => f :: acc
          | none => acc
        else acc
      | none => acc) []

/-- Python `x or y` on optional values. -/
def pyOr (x y : Option Value) : Option Value :=
  match x with
  | some v => if v.truthy then some v else y
  | none => y

def winRatesOf (data : List Row) : List Rat :=
  data.foldr
    (fun item acc =>
      let wf := pyOr (Args.get item "Win_Percentage")
        (pyOr (Args.get item "Win %") (Args.get item "Win %"))
      match wf with
      | some v =>
        if v.truthy then
          match v.pyFloat? with
          | some f => f :: acc
          | none => acc
        else acc
      | none => acc) []

structure SummaryStats where
  total_records : Nat
  total_value : Option Rat
  avg_fee : Option Rat
  median_fee : Option Rat
  min_fee : Option Rat
  max_fee : Option Rat
  avg_win_rate : Option Rat
deriving DecidableEq, Repr

/-- `sorted(fees)` (Python sorts ascending). -/
def sortedFees (fees : List Rat) : List Rat := fees.insertionSort (· ≤ ·)

/-- `calculate_summary_stats` (`{}` on empty data becomes `none`). -/
def calculate_summary_stats (data : List Row) : Option SummaryStats :=
  if data = [] then none
  else
    let fees := feesOf data
    let wins := winRatesOf data
    some
      { total_records := data.length
        total_value := if fees = [] then none else some fees.sum
        avg_fee := if fees = [] then none else some (fees.sum / fees.length)
        median_fee :=
          if fees = [] then none
          else some ((sortedFees fees).getD (fees.length / 2) 0)
        min_fee := if fees = [] then none else (fees.min?)
        max_fee := if fees = [] then none else (fees.max?)
        avg_win_rate := if wins = [] then none else some (wins.sum / wins.length) }

/-! ## `QueryEngine.process_query`

The external classifier call and the database execution are inputs: the
classifier's wrapped result (`AzureOpenAIClient.classify_query` already
catches its own failures and returns `function_name = "none"`) and an
`execDb` oracle whose `.error` is a caught database exception.  Note that
`execute_query` wraps `build_sql_query` in its `try`, so builder errors
surface as failure responses, while `preprocess_query` runs outside any
handler and its exceptions propagate. -/

structure ClassifierResult where
  function_name : Option String
  arguments : Args
deriving DecidableEq, Repr

inductive Response where
  | failure (error : String) (message : String)
  | success (question : String) (function_name : String) (arguments : Args)
      (data : List Row) (row_count : Nat) (summary : Option SummaryStats)
      (message : String)
deriving DecidableEq, Repr

def Response.isSuccess : Response → Bool
  | .failure _ _ => false
  | .success _ _ _ _ _ _ _ => true

def pyErrStr : PyErr → String
  | .attrError => "AttributeError"
  | .typeError => "TypeError"
  | .valueError => "ValueError"
  | .indexError => "IndexError"
  | .unboundLocal => "UnboundLocalError"

def cannotClassifyResponse (q : String) : Response :=
  .failure "cannot_classify"
    ("Could not understand the question: '" ++ q ++ "'. Please try rephrasing.")

def process_query (today : Date) (size_case : String)
    (execDb : String → Option (List Value) → Except String (List Row))
    (q : String) (cls : ClassifierResult) : Except PyErr Response :=
  if cls.function_name = some "none" ∨ cls.function_name = none then
    .ok (cannotClassifyResponse q)
  else
    match cls.function_name with
    | none => .ok (cannotClassifyResponse q)
    | some fn => do
      let c ← preprocess_query today q ⟨fn, cls.arguments⟩
      match build_sql_query size_case c.function_name c.arguments with
      | .error e =>
        .ok (.failure (pyErrStr e) "An error occurred while executing the query")
      | .ok .notFound =>
        .ok (.failure ("Unknown function: " ++ c.function_name)
          "An error occurred while executing the query")
      | .ok (.built sql ps) =>
        match execDb sql ps with
        | .error e => .ok (.failure e "An error occurred while executing the query")
        | .ok rows =>
          .ok (.success q c.function_name c.arguments rows rows.length
            (calculate_summary_stats rows)
            ("Found " ++ toString rows.length ++ " results"))

/-! ## Auxiliary definitions for the claims -/

/-- Builder-result projections. -/
def builtSql : Except PyErr BuildResult → Option String
  | .ok (.built s _) => some s
  | _ => none

def builtParams : Except PyErr BuildResult → Option (List Value)
  | .ok (.built _ p) => some (p.getD [])
  | _ => none

/-- The presence-only keys of the combined-filter path (each contributes a
fixed clause when present and truthy). -/
def presenceKeys : List String :=
  ["size", "status", "company", "state_code", "min_fee", "max_fee",
   "min_win", "max_win", "start_date", "end_date"]

/-- Shape of the categories filter: `some n` iff the combined path renders
`n` OR-clauses for it, `none` iff it renders nothing. -/
def catShape (a : Args) : Option Nat :=
  if a.hasT "categories" then
    match listItems (a.getD "categories" (.vStr "")) with
    | some items => if items.length > 0 then some items.length else none
    | none => none
  else none

def tagShape (a : Args) : Option Nat :=
  if a.hasT "tags" then
    match listItems (a.getD "tags" (.vStr "")) with
    | some items => if items.length > 0 then some items.length else none
    | none => none
  else none

/-- The SQL text of the combined path as a function of the filter
*shapes* alone (no argument values except the integer-rendered limit). -/
def combinedTextSpec (sc sql0 : String) (size? : Bool) (cat tagn : Option Nat)
    (status? company? state? feeMin? feeMax? winMin? winMax? dStart? dEnd? : Bool)
    (limitR : String) : String :=
  let r1 := pyReplace sql0 "{size_filter}"
    (if size? then "AND " ++ sc ++ " ILIKE %s" else "")
  let r2 := pyReplace r1 "{category_filter}"
    (match cat with
     | some n => "AND (" ++
         String.intercalate " OR "
           (List.replicate n "\"Request Category\" ILIKE %s") ++ ")"
     | none => "")
  let r3 := pyReplace r2 "{tag_filter}"
    (match tagn with
     | some n => "AND " ++
         String.intercalate " AND " (List.replicate n "\"Tags\" ILIKE %s")
     | none => "")
  let r4 := pyReplace r3 "{status_filter}" (if status? then "AND \"Status\" ILIKE %s" else "")
  let r5 := pyReplace r4 "{company_filter}" (if company? then "AND \"Company\" ILIKE %s" else "")
  let r6 := pyReplace r5 "{state_filter}" (if state? then "AND \"State Lookup\" = %s" else "")
  let r7 := pyReplace r6 "{fee_filter}"
    ((if feeMin? then "AND CAST(NULLIF(\"Fee\", '') AS NUMERIC) >= %s" else "") ++
     (if feeMax? then " AND CAST(NULLIF(\"Fee\", '') AS NUMERIC) <= %s" else ""))
  let r8 := pyReplace r7 "{win_filter}"
    ((if winMin? then "AND CAST(NULLIF(\"Win %\", '') AS NUMERIC) >= %s" else "") ++
     (if winMax? then " AND CAST(NULLIF(\"Win %\", '') AS NUMERIC) <= %s" else ""))
  let r9 := pyReplace r8 "{date_filter}"
    ((if dStart? then "AND \"Start Date\" >= %s::date" else "") ++
     (if dEnd? then " AND \"Start Date\" <= %s::date" else ""))
  pyReplace r9 "{limit_clause}" limitR

/-- Number of bound parameters each combined filter contributes:
one per present truthy scalar filter, one per rendered list clause,
none for the limit. -/
def boundValueCount (a : Args) : Nat :=
  (if a.hasT "size" then 1 else 0) + (catShape a).getD 0 + (tagShape a).getD 0 +
  (if a.hasT "status" then 1 else 0) + (if a.hasT "company" then 1 else 0) +
  (if a.hasT "state_code" then 1 else 0) + (if a.hasT "min_fee" then 1 else 0) +
  (if a.hasT "max_fee" then 1 else 0) + (if a.hasT "min_win" then 1 else 0) +
  (if a.hasT "max_win" then 1 else 0) + (if a.hasT "start_date" then 1 else 0) +
  (if a.hasT "end_date" then 1 else 0)

/-- From the spec's words (§4.6): the optional filters of the combined
template are "size, categories-list, tags-list, status, company, state,
fee-range, win-rate-range, date-range, limit"; this counts how many of
those ten filters are present. -/
def specNumFiltersPresent (a : Args) : Nat :=
  (if a.hasT "size" then 1 else 0) + (if a.hasT "categories" then 1 else 0) +
  (if a.hasT "tags" then 1 else 0) + (if a.hasT "status" then 1 else 0) +
  (if a.hasT "company" then 1 else 0) + (if a.hasT "state_code" then 1 else 0) +
  (if a.hasT "min_fee" || a.hasT "max_fee" then 1 else 0) +
  (if a.hasT "min_win" || a.hasT "max_win" then 1 else 0) +
  (if a.hasT "start_date" || a.hasT "end_date" then 1 else 0) +
  (if a.hasT "limit" then 1 else 0)

/-- From the spec's words (§4.6/§8): the median as the lower-middle element
of the sorted fee sequence. -/
def specLowerMedian (fees : List Rat) : Rat :=
  (sortedFees fees).getD ((fees.length - 1) / 2) 0

/-- Classifier argument mappings as Python could actually hold them for the
keys the pipeline reads: `time_reference`/`status` values are strings, and
a `companies` value supports `len()`. -/
def WFArgs (a : Args) : Prop :=
  (∀ v, a.get "time_reference" = some v → v.truthy = true → ∃ s, v = .vStr s) ∧
  (∀ v, a.get "status" = some v → ∃ s, v = .vStr s) ∧
  (∀ v, a.get "companies" = some v → ∃ n, v.pyLen = .ok n) ∧
  (∀ v, a.get "tags" = some v → ∃ l, v = .vStrList l)

/-- The argument keys the date pass may set or erase. -/
def dateKeys : List String :=
  ["start_date", "end_date", "year", "quarter", "year1", "year2", "years",
   "start_year", "end_year", "time_reference"]

/-- A refined classification is *tag-stable* when a second run of the
tag-disambiguation pass cannot re-split its single-tag call: whenever the
question has a tag keyword and no category keyword and the function is the
single-tag call, the stored tag is a string that no longer parses into
multiple items. -/
def TagStable (q : String) (c : Classification) : Prop :=
  (containsAnyWord tagKeywords (lcs q) &&
    !containsAnyWord categoryKeywords (lcs q)) = true →
  c.function_name = "get_projects_by_tags" →
  ∀ v, c.arguments.get "tag" = some v →
    ∃ s, v = .vStr s ∧ (DateCalculator._parse_multiple_items s).length ≤ 1

/-- A refined classification is *year-stable* when a second run of the
specific-year branch cannot inject a fresh `year` argument: if the
question's only date signal is a specific year (no ranking word), either
the refined arguments already carry that year, or the refined function is
one the branch skips (and stays skipped on a second run). -/
def YearStable (today : Date) (q : String) (c : Classification) : Prop :=
  ∀ y, DateCalculator.parse_specific_year q = some y →
    DateCalculator.parse_month_range q = none →
    DateCalculator.parse_relative_date today q = none →
    DateCalculator.parse_multiple_years q = none →
    rankingWords3 (lcs q) = false →
    (c.arguments.get "year" = some (.vInt y) ∨
     (c.function_name ∈ yearPlainExcluded ∧
      (DateCalculator.parse_specific_quarter q = none ∨
       c.function_name = "get_projects_by_combined_filters")))

/-- After STEP 0 any remaining `time_reference` is falsy. -/
def TrOK (a : Args) : Prop :=
  ∀ v, a.get "time_reference" = some v → v.truthy = false

/-- The date pass rewrites arguments only at `dateKeys`, and keeps any
remaining `time_reference` falsy. -/
def ArgsStep (a b : Args) : Prop :=
  (∀ k, ¬ k ∈ dateKeys → b.get k = a.get k) ∧ (TrOK a → TrOK b)

/-- After STEP 0.5 any `status` value is a string fixed by the synonym
normalization. -/
def StatusOK (a : Args) : Prop :=
  ∀ v, a.get "status" = some v → ∃ s, v = .vStr s ∧
    (statusCanon s = none ∨ statusCanon s = some s)

/-- After STEP 0.75 a tag-keyword question cannot still carry the two
category functions the pass rewrites. -/
def TagFnOK (q : String) (c : Classification) : Prop :=
  (containsAnyWord tagKeywords (lcs q) &&
    !containsAnyWord categoryKeywords (lcs q)) = true →
  c.function_name ≠ "get_largest_by_category" ∧
  c.function_name ≠ "get_projects_by_category"

/-- After STEP 0.75 a multi-tag call carries a lennable tag list of
admissible length. -/
def CapOK (c : Classification) : Prop :=
  c.function_name = "get_projects_by_multiple_tags" →
  ∀ v, c.arguments.get "tags" = some v →
    ∃ n, v.pyLen = .ok n ∧ n ≤ 5 ∧ n ≠ 1

/-- After STEP 0.8 a surviving company comparison has a nonempty company
list. -/
def OpcoOK (c : Classification) : Prop :=
  c.function_name = "compare_opco_revenue" →
  ∃ v n, c.arguments.get "companies" = some v ∧ v.truthy = true ∧
    v.pyLen = .ok n ∧ n ≠ 0

/-! # Theorems

First the mapping lemmas for `Args`, then the claim theorems C1–C10. -/

namespace Args

theorem get_set_self (a : Args) (k : String) (v : Value) :
    (a.set k v).get k = some v := by
  induction a with
  | nil => simp [set, get]
  | cons p rest ih =>
    obtain ⟨k', v'⟩ := p
    by_cases h : k' = k <;> simp [set, get, h, ih]

theorem get_set_ne (a : Args) {k' k : String} (v : Value) (h : k' ≠ k) :
    (a.set k' v).get k = a.get k := by
  induction a with
  | nil => simp [set, get, h]
  | cons p rest ih =>
    obtain ⟨k0, v0⟩ := p
    by_cases h0 : k0 = k'
    · subst h0; simp [set, get, h]
    · have h1 : ¬ k = k' := fun hh => h hh.symm
      by_cases h2 : k0 = k <;> simp [set, get, h0, h1, h2, ih]

theorem get_erase_self (a : Args) (k : String) : (a.erase k).get k = none := by
  induction a with
  | nil => simp [erase, get]
  | cons p rest ih =>
    obtain ⟨k0, v0⟩ := p
    simp only [erase, List.filter_cons, ne_eq, decide_not] at ih ⊢
    by_cases h0 : k0 = k <;> simp [get, h0, ih]

theorem get_erase_ne (a : Args) {k' k : String} (h : k' ≠ k) :
    (a.erase k').get k = a.get k := by
  induction a with
  | nil => simp [erase, get]
  | cons p rest ih =>
    obtain ⟨k0, v0⟩ := p
    simp only [erase, List.filter_cons, ne_eq, decide_not] at ih ⊢
    have h2 : ¬ k = k' := fun hh => h hh.symm
    by_cases h0 : k0 = k'
    · subst h0; simp [get, h, h2, ih]
    · by_cases h1 : k0 = k <;> simp [get, h0, h1, h2, ih]

theorem set_same (a : Args) {k : String} {v : Value} (h : a.get k = some v) :
    a.set k v = a := by
  induction a with
  | nil => simp [get] at h
  | cons p rest ih =>
    obtain ⟨k0, v0⟩ := p
    by_cases h0 : k0 = k
    · subst h0
      simp [get] at h
      simp [set, h]
    · simp [get, h0] at h
      simp [set, h0, ih h]

theorem erase_absent (a : Args) {k : String} (h : a.get k = none) :
    a.erase k = a := by
  induction a with
  | nil => simp [erase]
  | cons p rest ih =>
    obtain ⟨k0, v0⟩ := p
    simp only [erase, List.filter_cons, ne_eq, decide_not] at ih ⊢
    by_cases h0 : k0 = k
    · subst h0; simp [get] at h
    · simp only [get, h0, if_false, if_neg h0] at h
      simp [h0, ih h]

end Args

/-- **C5.** For every question whose text-understanding wrapper yields
`function_name = "none"` (or no function name at all, as the wrapper does
for malformed output), the orchestrator returns the structured
"could not understand" failure with `success = false`, without running the
refiner, the builder or the executor (the result is one fixed value,
independent of `today`, the size-tier SQL and the database oracle), and
without raising (`.ok`, never `.error`). -/
theorem C5_none_is_terminal (today : Date) (sc : String)
    (execDb : String → Option (List Value) → Except String (List Row))
    (q : String) (args : Args) :
    process_query today sc execDb q ⟨some "none", args⟩ =
        .ok (cannotClassifyResponse q) ∧
    process_query today sc execDb q ⟨none, args⟩ =
        .ok (cannotClassifyResponse q) ∧
    (cannotClassifyResponse q).isSuccess = false ∧
    cannotClassifyResponse q =
      .failure "cannot_classify"
        ("Could not understand the question: '" ++ q ++ "'. Please try rephrasing.") := by
  refine ⟨?_, ?_, rfl, rfl⟩ <;> simp [process_query]

/-- C5 witness: the theorem applied at a concrete question. -/
theorem C5_none_is_terminal_witness :
    process_query ⟨2026, 10, 12⟩ "SC" (fun _ _ => .ok []) "gibberish"
        ⟨some "none", []⟩ = .ok (cannotClassifyResponse "gibberish") :=
  (C5_none_is_terminal ⟨2026, 10, 12⟩ "SC" (fun _ _ => .ok []) "gibberish" []).1

set_option maxRecDepth 10000 in
/-- **C8 counterexample.** The resolver does *not* map "recently" to the
−90..0 window of the vague-phrase table: the past-directional branch
(substring "recent") captures it first and applies its 180-day default. -/
theorem C8_counterexample :
    SemanticTimeParser.parse ⟨2026, 10, 12⟩ "recently" ≠
      some (subDays ⟨2026, 10, 12⟩ 90, ⟨2026, 10, 12⟩) := by
  decide

set_option maxRecDepth 10000 in
/-- **C8 amended.** For the phrase "recently" the resolver returns the range
from 180 days before today to today: the directional past-keyword check
(`'recent' in time_ref`) runs *before* the vague-phrase table, finds no
numeric quantity and no unit word, and applies the generic 180-day past
default; the table's `'recently' → (−90, 0)` entry is unreachable. -/
theorem C8_recently_is_past_default (today : Date) :
    SemanticTimeParser.parse today "recently" = some (subDays today 180, today) := by
  rfl

set_option maxRecDepth 40000 in
/-- **C10 (code bug).** The refinement pipeline is *not* total: with the
question "projects with tags" (tag keyword, no category keyword) and the
classifier result `get_projects_by_category` with an empty `category`
value, the tag-disambiguation pass indexes `tags[0]` of an empty parsed
list (IndexError); and with the question "between January and March 2026"
(a month-range match and at most one detected year) the specific-year
branch reads the unassigned local `date_range` (UnboundLocalError). -/
theorem C10_preprocess_crashes :
    preprocess_query ⟨2026, 10, 12⟩ "projects with tags"
        ⟨"get_projects_by_category", [("category", .vStr "")]⟩ =
      .error .indexError ∧
    preprocess_query ⟨2026, 10, 12⟩ "between January and March 2026"
        ⟨"get_all_projects", []⟩ = .error .unboundLocal := by
  constructor <;> rfl

set_option maxRecDepth 40000 in
/-- **C2 counterexample.** "projects in last 6 months" contains "last 6
months" and no ranking word, yet when the classifier proposed
`get_projects_by_combined_filters` the refiner does *not* resolve the
function to the date-range call: the relative-date pass only augments the
arguments of the protected special types. -/
theorem C2_counterexample :
    preprocess_query ⟨2026, 10, 12⟩ "projects in last 6 months"
        ⟨"get_projects_by_combined_filters", []⟩ =
      .ok ⟨"get_projects_by_combined_filters",
        [("start_date", .vDate ⟨2026, 4, 15⟩),
         ("end_date", .vDate ⟨2026, 10, 12⟩)]⟩ ∧
    "get_projects_by_combined_filters" ≠ "get_projects_by_date_range" := by
  exact ⟨rfl, by decide⟩

set_option maxRecDepth 40000 in
unseal Rat.mul Rat.add Rat.inv Rat.sub in
/-- **C3 counterexample.** For "top 10 projects over 5 million", a
classifier guess of `get_projects_by_combined_filters` is *not* rewritten
to the fee-range/largest-projects path: the fee pass leaves protected
special types in place (only `min_fee`/`max_fee`/`limit` are injected). -/
theorem C3_counterexample :
    preprocess_query ⟨2026, 10, 12⟩ "top 10 projects over 5 million"
        ⟨"get_projects_by_combined_filters", []⟩ =
      .ok ⟨"get_projects_by_combined_filters",
        [("min_fee", .vRat 5000000), ("max_fee", .vRat 999999999999),
         ("limit", .vInt 10)]⟩ ∧
    "get_projects_by_combined_filters" ≠ "get_projects_by_fee_range" ∧
    "get_projects_by_combined_filters" ≠ "get_largest_projects" := by
  exact ⟨by decide, by decide, by decide⟩

set_option maxRecDepth 40000 in
/-- **C4 counterexample.** The pipeline is *not* idempotent: on the
question "tagged projects", a `get_projects_by_multiple_tags`
classification whose single tag value itself contains a separator is
collapsed to the single-tag call by the first run and re-split into a
multi-tag call by the second run. -/
theorem C4_counterexample :
    preprocess_query ⟨2026, 10, 12⟩ "tagged projects"
        ⟨"get_projects_by_multiple_tags", [("tags", .vStrList ["a, b"])]⟩ =
      .ok ⟨"get_projects_by_tags", [("tag", .vStr "a, b")]⟩ ∧
    preprocess_query ⟨2026, 10, 12⟩ "tagged projects"
        ⟨"get_projects_by_tags", [("tag", .vStr "a, b")]⟩ =
      .ok ⟨"get_projects_by_multiple_tags", [("tags", .vStrList ["a", "b"])]⟩ ∧
    (⟨"get_projects_by_tags", [("tag", .vStr "a, b")]⟩ : Classification) ≠
      ⟨"get_projects_by_multiple_tags", [("tags", .vStrList ["a", "b"])]⟩ := by
  exact ⟨by decide, by decide, by decide⟩

set_option maxRecDepth 10000 in
/-- **C7 counterexample.** The month-range parser violates
`start ≤ end` when the end month precedes the start month: "between
december and january 2026" parses to 2026-12-01 .. 2026-01-31. -/
theorem C7_counterexample :
    DateCalculator.parse_month_range "between december and january 2026" =
      some (⟨2026, 12, 1⟩, ⟨2026, 1, 31⟩) ∧
    ¬ ((⟨2026, 12, 1⟩ : Date) ≤ ⟨2026, 1, 31⟩) := by
  exact ⟨rfl, by decide⟩

set_option maxRecDepth 10000 in
unseal Rat.mul Rat.add Rat.inv Rat.sub in
/-- **C9 counterexample.** For four rows with fees 1,2,3,4 the summary
reports `median_fee = 3` (`sorted(fees)[len // 2]`, the *upper* middle),
not the lower-middle element 2 the claim states. -/
theorem C9_counterexample :
    (calculate_summary_stats
        [[("Fee", .vInt 1)], [("Fee", .vInt 2)],
         [("Fee", .vInt 3)], [("Fee", .vInt 4)]]).map SummaryStats.median_fee =
      some (some 3) ∧
    specLowerMedian [1, 2, 3, 4] = 2 ∧ (3 : Rat) ≠ 2 := by
  refine ⟨by decide, by decide, by norm_num⟩

set_option maxRecDepth 10000 in
/-- **C6 counterexample.** For the combined-filter template with arguments
`{limit: 5}`, one of the spec's ten optional filters (the limit) is
present, yet the builder produces zero positional parameters (the limit is
rendered into the SQL text, not bound). -/
theorem C6_counterexample :
    builtParams (build_sql_query "SC" "get_projects_by_combined_filters"
        [("limit", .vInt 5)]) = some [] ∧
    specNumFiltersPresent [("limit", Value.vInt 5)] = 1 ∧
    (0 : Nat) ≠ 1 := by
  refine ⟨by decide, by decide, by decide⟩

set_option maxRecDepth 10000 in
/-- **C1 counterexample.** In the regular template path the SQL text does
vary with argument *values*, not only with clause presence: for
`get_revenue_by_category`, two argument mappings with identical key
presence but different `status` values produce different SQL texts with
identical bound parameters, and the status value appears verbatim inside
the text (string-interpolated `{status_filter}`). -/
theorem C1_counterexample :
    builtSql (build_sql_query "SC" "get_revenue_by_category"
        [("category", .vStr "healthcare"), ("status", .vStr "won")]) ≠
      builtSql (build_sql_query "SC" "get_revenue_by_category"
        [("category", .vStr "healthcare"), ("status", .vStr "lost")]) ∧
    builtParams (build_sql_query "SC" "get_revenue_by_category"
        [("category", .vStr "healthcare"), ("status", .vStr "won")]) =
      builtParams (build_sql_query "SC" "get_revenue_by_category"
        [("category", .vStr "healthcare"), ("status", .vStr "lost")]) ∧
    (builtSql (build_sql_query "SC" "get_revenue_by_category"
        [("category", .vStr "healthcare"), ("status", .vStr "won")])).map
      (fun s => containsSub "won" (csOf s)) = some true := by
  refine ⟨by decide, by decide, by decide⟩

/-! ### Ordering lemmas for the date parsers (claim C7) -/

theorem mk_le_mk (y : Int) {m1 d1 m2 d2 : Nat}
    (h : m1 < m2 ∨ (m1 = m2 ∧ d1 ≤ d2)) :
    (⟨y, m1, d1⟩ : Date) ≤ ⟨y, m2, d2⟩ := by
  rw [Date.le_def]; dsimp only; omega

theorem monthLookup_bounds {w : String} {m : Nat} (h : monthLookup w = some m) :
    1 ≤ m ∧ m ≤ 12 := by
  unfold monthLookup at h
  cases hf : month_map.find? (fun p => p.1 = w) with
  | none => simp [hf] at h
  | some p =>
    rw [hf] at h
    have hm : p ∈ month_map := List.mem_of_find?_eq_some hf
    have hall : ∀ q ∈ month_map, 1 ≤ q.2 ∧ q.2 ≤ 12 := by decide
    have hp := hall p hm
    have hpm : p.2 = m := by simpa using h
    omega

theorem monthRangeOn_shape {cs : Cs} {s e : Date}
    (h : monthRangeOn cs = some (s, e)) :
    s.y = e.y ∧ s.d = 1 ∧ 1 ≤ s.m ∧ 1 ≤ e.m ∧ e.m ≤ 12 ∧ 1 ≤ e.d ∧
      (s ≤ e ↔ s.m ≤ e.m) := by
  unfold monthRangeOn at h
  cases hs : scanP monthRangeCore cs with
  | none => rw [hs] at h; exact absurd h (by simp)
  | some t =>
    obtain ⟨w1, w2, y⟩ := t
    rw [hs] at h
    cases h1 : monthLookup w1 with
    | none => simp [h1] at h
    | some m1 =>
      cases h2 : monthLookup w2 with
      | none => simp [h1, h2] at h
      | some m2 =>
        simp only [h1, h2] at h
        obtain ⟨hb1, hb1'⟩ := monthLookup_bounds h1
        obtain ⟨hb2, hb2'⟩ := monthLookup_bounds h2
        by_cases h12 : m2 = 12
        · subst h12
          rw [if_pos rfl] at h
          simp only [Option.some_inj, Prod.mk.injEq] at h
          obtain ⟨hse, hee⟩ := h
          subst hse; subst hee
          refine ⟨rfl, rfl, hb1, by dsimp only; omega, by dsimp only; omega,
            by dsimp only; omega, ?_⟩
          rw [Date.le_def]; dsimp only
          omega
        · have hpd : prevDay ⟨y, m2 + 1, 1⟩ = ⟨y, m2, daysInMonth y m2⟩ := by
            show (if 1 < (1 : Nat) then _ else
              if 1 < m2 + 1 then Date.mk y (m2 + 1 - 1) (daysInMonth y (m2 + 1 - 1))
              else _) = _
            rw [if_neg (by omega), if_pos (by omega)]
            simp
          rw [if_neg h12, hpd] at h
          simp only [Option.some_inj, Prod.mk.injEq] at h
          obtain ⟨hse, hee⟩ := h
          subst hse; subst hee
          have hdm := daysInMonth_pos y m2
          refine ⟨rfl, rfl, hb1, by dsimp only; omega, by dsimp only; omega,
            by dsimp only; omega, ?_⟩
          rw [Date.le_def]; dsimp only
          omega

theorem extract_numeric_ordered {today : Date} {cs : Cs} {s e : Date}
    (h : SemanticTimeParser._extract_numeric_timeframe today cs = some (s, e)) :
    s ≤ e := by
  unfold SemanticTimeParser._extract_numeric_timeframe at h
  dsimp only at h
  cases hs : scanP SemanticTimeParser.numericCore
      (SemanticTimeParser._convert_written_numbers cs) with
  | none => rw [hs] at h; exact absurd h (by simp)
  | some t =>
    obtain ⟨q, u⟩ := t
    rw [hs] at h
    dsimp only at h
    split_ifs at h <;>
      (simp only [Option.some_inj, Prod.mk.injEq] at h; obtain ⟨h1, h2⟩ := h;
       subst h1; subst h2) <;>
      first
        | exact le_addDays _ _
        | exact subDays_le _ _

theorem future_ref_ordered {today : Date} {cs : Cs} {s e : Date}
    (h : SemanticTimeParser._parse_future_reference today cs = some (s, e)) :
    s ≤ e := by
  unfold SemanticTimeParser._parse_future_reference at h
  cases hx : SemanticTimeParser._extract_numeric_timeframe today cs with
  | some r =>
    rw [hx] at h; simp only [Option.some_inj] at h; subst h
    exact extract_numeric_ordered (s := s) (e := e) (by rw [hx])
  | none =>
    rw [hx] at h
    split_ifs at h <;>
      (simp only [Option.some_inj, Prod.mk.injEq] at h; obtain ⟨h1, h2⟩ := h;
       subst h1; subst h2) <;> exact le_addDays _ _

theorem past_ref_ordered {today : Date} {cs : Cs} {s e : Date}
    (h : SemanticTimeParser._parse_past_reference today cs = some (s, e)) :
    s ≤ e := by
  unfold SemanticTimeParser._parse_past_reference at h
  cases hx : SemanticTimeParser._extract_numeric_timeframe today cs with
  | some r =>
    rw [hx] at h; simp only [Option.some_inj] at h; subst h
    exact extract_numeric_ordered (s := s) (e := e) (by rw [hx])
  | none =>
    rw [hx] at h
    split_ifs at h <;>
      (simp only [Option.some_inj, Prod.mk.injEq] at h; obtain ⟨h1, h2⟩ := h;
       subst h1; subst h2) <;> exact subDays_le _ _

theorem vagueLookup_ordered {cs : Cs} {a b : Int}
    (h : SemanticTimeParser.vagueLookup cs = some (a, b)) : a ≤ b := by
  unfold SemanticTimeParser.vagueLookup at h
  cases hf : SemanticTimeParser.vague_mappings.find? (fun t => containsSub t.1 cs) with
  | none => simp [hf] at h
  | some t =>
    rw [hf] at h
    have h2 : t.2 = (a, b) := by simpa using h
    have hm : t ∈ SemanticTimeParser.vague_mappings := List.mem_of_find?_eq_some hf
    have hall : ∀ q ∈ SemanticTimeParser.vague_mappings, q.2.1 ≤ q.2.2 := by decide
    have ht := hall t hm
    rw [h2] at ht
    exact ht

theorem quarter_dates_ordered (y : Int) (q : Nat) :
    (SemanticTimeParser._get_quarter_dates y q).1 ≤
      (SemanticTimeParser._get_quarter_dates y q).2 := by
  unfold SemanticTimeParser._get_quarter_dates
  split_ifs <;> exact mk_le_mk y (by omega)

theorem current_quarter_ordered (today : Date) :
    (SemanticTimeParser._get_current_quarter_dates today).1 ≤
      (SemanticTimeParser._get_current_quarter_dates today).2 := by
  unfold SemanticTimeParser._get_current_quarter_dates
  split_ifs <;> exact mk_le_mk _ (by omega)

theorem named_quarter_ordered {cs : Cs} {l : List (String × Nat)} {s e : Date}
    (h : SemanticTimeParser.semNamedQuarterGo cs l = some (s, e)) : s ≤ e := by
  induction l with
  | nil => simp [SemanticTimeParser.semNamedQuarterGo] at h
  | cons p rest ih =>
    unfold SemanticTimeParser.semNamedQuarterGo at h
    cases hs : scanP (DateCalculator.namedQCore p.1) cs with
    | none => rw [hs] at h; exact ih h
    | some y =>
      rw [hs] at h
      simp only [Option.some_inj] at h
      have := quarter_dates_ordered y p.2
      rw [h] at this; exact this

theorem sem_quarter_ordered {cs : Cs} {s e : Date}
    (h : SemanticTimeParser._parse_specific_quarter cs = some (s, e)) : s ≤ e := by
  unfold SemanticTimeParser._parse_specific_quarter at h
  cases hs : scanP q1Core cs with
  | none => rw [hs] at h; exact named_quarter_ordered h
  | some t =>
    rw [hs] at h
    simp only [Option.some_inj] at h
    have := quarter_dates_ordered t.2 t.1
    rw [h] at this; exact this

theorem rel_date_ordered {today : Date} {text : String} {s e : Date}
    (h : DateCalculator.parse_relative_date today text = some (s, e)) : s ≤ e := by
  unfold DateCalculator.parse_relative_date at h
  dsimp only at h
  cases h1 : (scanP DateCalculator.pastCore (trimCs (lcs text))).orElse
      (fun _ => scanP (DateCalculator.inTheCore DateCalculator.pastCore)
        (trimCs (lcs text))) with
  | some t =>
    obtain ⟨q, u⟩ := t
    rw [h1] at h
    dsimp only at h
    simp only [Option.some_inj, Prod.mk.injEq] at h
    obtain ⟨hs, he⟩ := h; subst hs; subst he
    exact subDays_le _ _
  | none =>
    rw [h1] at h
    dsimp only at h
    cases h2 : (scanP DateCalculator.futureCore (trimCs (lcs text))).orElse
        (fun _ => scanP (DateCalculator.inTheCore DateCalculator.futureCore)
          (trimCs (lcs text))) with
    | some t =>
      obtain ⟨q, u⟩ := t
      rw [h2] at h
      dsimp only at h
      simp only [Option.some_inj, Prod.mk.injEq] at h
      obtain ⟨hs, he⟩ := h; subst hs; subst he
      exact le_addDays _ _
    | none =>
      rw [h2] at h
      dsimp only at h
      cases h3 : scanP DateCalculator.orCore (trimCs (lcs text)) with
      | some t =>
        obtain ⟨q1, u1, q2, u2⟩ := t
        rw [h3] at h
        dsimp only at h
        simp only [Option.some_inj, Prod.mk.injEq] at h
        obtain ⟨hs, he⟩ := h; subst hs; subst he
        exact subDays_le_addDays _ _ _
      | none =>
        rw [h3] at h
        exact absurd h (by simp)

/-- **C7 amended.** Every range produced by `parse_relative_date` is
ordered; a month-range result is ordered exactly when its start month does
not exceed its end month; and every range produced by the Semantic Time
Resolver is ordered except those coming from its month-range branch. -/
theorem C7_ranges_ordered :
    (∀ (today : Date) (text : String) (s e : Date),
        DateCalculator.parse_relative_date today text = some (s, e) → s ≤ e) ∧
    (∀ (text : String) (s e : Date),
        DateCalculator.parse_month_range text = some (s, e) →
          (s ≤ e ↔ s.m ≤ e.m)) ∧
    (∀ (today : Date) (text : String) (s e : Date),
        SemanticTimeParser.parse today text = some (s, e) →
          s ≤ e ∨ monthRangeOn (trimCs (lcs text)) = some (s, e)) := by
  refine ⟨fun _ _ _ _ h => rel_date_ordered h,
    fun _ _ _ h => (monthRangeOn_shape h).2.2.2.2.2.2, ?_⟩
  intro today text s e h
  unfold SemanticTimeParser.parse at h
  by_cases h0 : text = ""
  · rw [if_pos h0] at h; exact absurd h (by simp)
  · rw [if_neg h0] at h
    dsimp only at h
    by_cases h1 : containsAnyWord SemanticTimeParser.futureWords (trimCs (lcs text)) = true
    · rw [if_pos h1] at h
      exact Or.inl (future_ref_ordered h)
    · rw [if_neg h1] at h
      by_cases h2 : containsAnyWord SemanticTimeParser.pastWords (trimCs (lcs text)) = true
      · rw [if_pos h2] at h
        exact Or.inl (past_ref_ordered h)
      · rw [if_neg h2] at h
        cases hv : SemanticTimeParser.vagueLookup (trimCs (lcs text)) with
        | some p =>
          obtain ⟨a, b⟩ := p
          rw [hv] at h
          dsimp only at h
          simp only [Option.some_inj, Prod.mk.injEq] at h
          obtain ⟨hs, he⟩ := h; subst hs; subst he
          exact Or.inl (shiftDays_le_shiftDays today (vagueLookup_ordered hv))
        | none =>
          rw [hv] at h
          dsimp only at h
          by_cases hq : containsSub "this quarter" (trimCs (lcs text)) = true
          · rw [if_pos hq] at h
            simp only [Option.some_inj] at h
            have := current_quarter_ordered today
            rw [h] at this; exact Or.inl this
          · rw [if_neg hq] at h
            by_cases hy : containsSub "this year" (trimCs (lcs text)) = true
            · rw [if_pos hy] at h
              simp only [Option.some_inj, Prod.mk.injEq] at h
              obtain ⟨hs, he⟩ := h; subst hs; subst he
              exact Or.inl (mk_le_mk _ (by omega))
            · rw [if_neg hy] at h
              cases hsq : SemanticTimeParser._parse_specific_quarter (trimCs (lcs text)) with
              | some r =>
                rw [hsq] at h; dsimp only at h
                simp only [Option.some_inj] at h; subst h
                exact Or.inl (sem_quarter_ordered hsq)
              | none =>
                rw [hsq] at h; dsimp only at h
                cases hsy : SemanticTimeParser._parse_specific_year (trimCs (lcs text)) with
                | some y =>
                  rw [hsy] at h; dsimp only at h
                  simp only [Option.some_inj, Prod.mk.injEq] at h
                  obtain ⟨hs, he⟩ := h; subst hs; subst he
                  exact Or.inl (mk_le_mk _ (by omega))
                | none =>
                  rw [hsy] at h; dsimp only at h
                  cases hmr : monthRangeOn (trimCs (lcs text)) with
                  | some r =>
                    rw [hmr] at h; dsimp only at h
                    simp only [Option.some_inj] at h; subst h
                    exact Or.inr rfl
                  | none =>
                    rw [hmr] at h; dsimp only at h
                    exact Or.inl (extract_numeric_ordered h)

set_option maxRecDepth 10000 in
/-- C7 witness: the three parts applied at concrete phrases. -/
theorem C7_ranges_ordered_witness :
    ((⟨2026, 4, 15⟩ : Date) ≤ ⟨2026, 10, 12⟩) ∧
    (((⟨2026, 1, 1⟩ : Date) ≤ ⟨2026, 3, 31⟩) ↔
      (⟨2026, 1, 1⟩ : Date).m ≤ (⟨2026, 3, 31⟩ : Date).m) ∧
    ((⟨2026, 10, 12⟩ : Date) ≤ ⟨2027, 4, 10⟩ ∨
      monthRangeOn (trimCs (lcs "near future")) =
        some (⟨2026, 10, 12⟩, ⟨2027, 4, 10⟩)) :=
  ⟨C7_ranges_ordered.1 ⟨2026, 10, 12⟩ "last 6 months" ⟨2026, 4, 15⟩ ⟨2026, 10, 12⟩
      (by decide),
   C7_ranges_ordered.2.1 "between january and march 2026" ⟨2026, 1, 1⟩ ⟨2026, 3, 31⟩
      (by decide),
   C7_ranges_ordered.2.2 ⟨2026, 10, 12⟩ "near future" ⟨2026, 10, 12⟩ ⟨2027, 4, 10⟩
      (by decide)⟩


/-! ### C6: parameter counts of the builder -/

theorem sizeSeg_len (sc : String) (a : Args) :
    (sizeSeg sc a).2.length = if a.hasT "size" then 1 else 0 := by
  unfold sizeSeg
  cases h : a.hasT "size" <;> simp

theorem catSeg_len (a : Args) :
    (catSeg a).2.length = (catShape a).getD 0 := by
  unfold catSeg catShape
  cases h : a.hasT "categories"
  · simp
  · cases hl : listItems (a.getD "categories" (.vStr "")) with
    | none => simp
    | some items =>
      by_cases hn : items.length > 0 <;> simp [hn]

theorem tagSeg_len (a : Args) :
    (tagSeg a).2.length = (tagShape a).getD 0 := by
  unfold tagSeg tagShape
  cases h : a.hasT "tags"
  · simp
  · cases hl : listItems (a.getD "tags" (.vStr "")) with
    | none => simp
    | some items =>
      by_cases hn : items.length > 0 <;> simp [hn]

theorem statusSeg_len (a : Args) :
    (statusSeg a).2.length = if a.hasT "status" then 1 else 0 := by
  unfold statusSeg
  cases h : a.hasT "status" <;> simp

theorem companySeg_len (a : Args) :
    (companySeg a).2.length = if a.hasT "company" then 1 else 0 := by
  unfold companySeg
  cases h : a.hasT "company" <;> simp

theorem stateSeg_len (a : Args) :
    (stateSeg a).2.length = if a.hasT "state_code" then 1 else 0 := by
  unfold stateSeg
  cases h : a.hasT "state_code" <;> simp

theorem startDateSeg_len (a : Args) :
    (startDateSeg a).2.length = if a.hasT "start_date" then 1 else 0 := by
  unfold startDateSeg
  cases h : a.hasT "start_date" <;> simp

theorem endDateSeg_len (a : Args) :
    (endDateSeg a).2.length = if a.hasT "end_date" then 1 else 0 := by
  unfold endDateSeg
  cases h : a.hasT "end_date" <;> simp

theorem minFeeSeg_len (a : Args) (sp : String × List Value)
    (h : minFeeSeg a = .ok sp) :
    sp.2.length = if a.hasT "min_fee" then 1 else 0 := by
  unfold minFeeSeg at h
  cases hf : a.hasT "min_fee" <;> simp only [hf] at h ⊢
  · simp only [Bool.false_eq_true, if_false, pure, Except.pure, Except.ok.injEq] at h
    simp [← h]
  · simp only [if_true, bind, Except.bind] at h
    cases hq : pyFloatE (a.getD "min_fee" (.vStr "")) with
    | error e => rw [hq] at h; exact absurd h (by simp)
    | ok q =>
      rw [hq] at h
      simp only [pure, Except.pure, Except.ok.injEq] at h
      simp [← h]

theorem maxFeeSeg_len (a : Args) (sp : String × List Value)
    (h : maxFeeSeg a = .ok sp) :
    sp.2.length = if a.hasT "max_fee" then 1 else 0 := by
  unfold maxFeeSeg at h
  cases hf : a.hasT "max_fee" <;> simp only [hf] at h ⊢
  · simp only [Bool.false_eq_true, if_false, pure, Except.pure, Except.ok.injEq] at h
    simp [← h]
  · simp only [if_true, bind, Except.bind] at h
    cases hq : pyFloatE (a.getD "max_fee" (.vStr "")) with
    | error e => rw [hq] at h; exact absurd h (by simp)
    | ok q =>
      rw [hq] at h
      simp only [pure, Except.pure, Except.ok.injEq] at h
      simp [← h]

theorem minWinSeg_len (a : Args) (sp : String × List Value)
    (h : minWinSeg a = .ok sp) :
    sp.2.length = if a.hasT "min_win" then 1 else 0 := by
  unfold minWinSeg at h
  cases hf : a.hasT "min_win" <;> simp only [hf] at h ⊢
  · simp only [Bool.false_eq_true, if_false, pure, Except.pure, Except.ok.injEq] at h
    simp [← h]
  · simp only [if_true, bind, Except.bind] at h
    cases hq : pyIntE (a.getD "min_win" (.vStr "")) with
    | error e => rw [hq] at h; exact absurd h (by simp)
    | ok q =>
      rw [hq] at h
      simp only [pure, Except.pure, Except.ok.injEq] at h
      simp [← h]

theorem maxWinSeg_len (a : Args) (sp : String × List Value)
    (h : maxWinSeg a = .ok sp) :
    sp.2.length = if a.hasT "max_win" then 1 else 0 := by
  unfold maxWinSeg at h
  cases hf : a.hasT "max_win" <;> simp only [hf] at h ⊢
  · simp only [Bool.false_eq_true, if_false, pure, Except.pure, Except.ok.injEq] at h
    simp [← h]
  · simp only [if_true, bind, Except.bind] at h
    cases hq : pyIntE (a.getD "max_win" (.vStr "")) with
    | error e => rw [hq] at h; exact absurd h (by simp)
    | ok q =>
      rw [hq] at h
      simp only [pure, Except.pure, Except.ok.injEq] at h
      simp [← h]

/-- Combined path: the bound-parameter list has exactly `boundValueCount`
elements (one per present truthy scalar filter, one per rendered list
element, none for the limit). -/
theorem buildCombined_params_len (sc sql0 : String) (a : Args) (sql : String)
    (ps : List Value) (h : buildCombined sc sql0 a = .ok (sql, ps)) :
    ps.length = boundValueCount a := by
  unfold buildCombined at h
  simp only [bind, Except.bind] at h
  cases hf1 : minFeeSeg a with
  | error e => rw [hf1] at h; exact absurd h (by simp)
  | ok p1 =>
    rw [hf1] at h
    cases hf2 : maxFeeSeg a with
    | error e => rw [hf2] at h; exact absurd h (by simp)
    | ok p2 =>
      rw [hf2] at h
      cases hw1 : minWinSeg a with
      | error e => rw [hw1] at h; exact absurd h (by simp)
      | ok p3 =>
        rw [hw1] at h
        cases hw2 : maxWinSeg a with
        | error e => rw [hw2] at h; exact absurd h (by simp)
        | ok p4 =>
          rw [hw2] at h
          simp only [pure, Except.pure, Except.ok.injEq, Prod.mk.injEq] at h
          obtain ⟨-, hp⟩ := h
          subst hp
          simp only [List.length_append, sizeSeg_len, catSeg_len, tagSeg_len,
            statusSeg_len, companySeg_len, stateSeg_len, startDateSeg_len,
            endDateSeg_len, minFeeSeg_len a p1 hf1, maxFeeSeg_len a p2 hf2,
            minWinSeg_len a p3 hw1, maxWinSeg_len a p4 hw2, boundValueCount]

/-- Regular path: the builder always succeeds and binds exactly the
declared number of parameters, whatever the arguments. -/
theorem build_regular_params_len (sc fn : String) (a : Args) (t : Template)
    (hq : query_templates fn = some t)
    (hfn : fn ≠ "get_projects_by_combined_filters") :
    ∃ ps, builtParams (build_sql_query sc fn a) = some ps ∧
      ps.length = t.params.length := by
  unfold build_sql_query
  rw [hq]
  dsimp only
  rw [if_neg hfn]
  by_cases hp : t.params.length > 0
  · rw [if_pos hp]
    refine ⟨_, rfl, ?_⟩
    simp
  · rw [if_neg hp]
    exact ⟨[], rfl, by simp only [List.length_nil]; omega⟩

/-- C6: for every non-combined catalog template the builder emits exactly
as many positional parameters as the template declares, for any arguments;
for the combined template the count is `boundValueCount`: one parameter per
present truthy scalar filter plus one per element of each rendered
category/tag list, and none for the limit filter. -/
theorem C6_param_counts :
    (∀ sc fn a t, query_templates fn = some t →
        fn ≠ "get_projects_by_combined_filters" →
        ∃ ps, builtParams (build_sql_query sc fn a) = some ps ∧
          ps.length = t.params.length) ∧
    (∀ sc sql0 a sql ps, buildCombined sc sql0 a = .ok (sql, ps) →
        ps.length = boundValueCount a) :=
  ⟨fun sc fn a t hq hfn => build_regular_params_len sc fn a t hq hfn,
   fun sc sql0 a sql ps h => buildCombined_params_len sc sql0 a sql ps h⟩

set_option maxRecDepth 4000 in
/-- C6 witness: both parts at concrete inputs. -/
theorem C6_param_counts_witness :
    (∃ ps, builtParams (build_sql_query "C" "get_projects_by_status"
        [("status", Value.vStr "active")]) = some ps ∧ ps.length = 1) ∧
    ([Value.vStr "%a%"] : List Value).length =
      boundValueCount [("status", Value.vStr "a"), ("limit", Value.vInt 5)] := by
  constructor
  · obtain ⟨ps, h1, h2⟩ := C6_param_counts.1 "C" "get_projects_by_status"
      [("status", Value.vStr "active")] _ rfl (by decide)
    exact ⟨ps, h1, by rw [h2]; rfl⟩
  · exact C6_param_counts.2 "C" "X"
      [("status", Value.vStr "a"), ("limit", Value.vInt 5)]
      "X" [Value.vStr "%a%"] (by decide)


/-! ### C1: the combined-path SQL text is a function of the filter shapes -/

theorem map_const_replicate {α β : Type} (l : List α) (b : β) :
    l.map (fun _ => b) = List.replicate l.length b := by
  induction l with
  | nil => rfl
  | cons x xs ih => simp [List.replicate_succ, ih]

theorem sizeSeg_text (sc : String) (a : Args) :
    (sizeSeg sc a).1 =
      if a.hasT "size" then "AND " ++ sc ++ " ILIKE %s" else "" := by
  unfold sizeSeg
  cases h : a.hasT "size" <;> simp

theorem catSeg_text (a : Args) :
    (catSeg a).1 = (match catShape a with
      | some n => "AND (" ++ String.intercalate " OR "
          (List.replicate n "\"Request Category\" ILIKE %s") ++ ")"
      | none => "") := by
  unfold catSeg catShape
  cases h : a.hasT "categories"
  · simp
  · cases hl : listItems (a.getD "categories" (.vStr "")) with
    | none => simp
    | some items =>
      by_cases hn : items.length > 0 <;> simp [hn, map_const_replicate]

theorem tagSeg_text (a : Args) :
    (tagSeg a).1 = (match tagShape a with
      | some n => "AND " ++ String.intercalate " AND "
          (List.replicate n "\"Tags\" ILIKE %s")
      | none => "") := by
  unfold tagSeg tagShape
  cases h : a.hasT "tags"
  · simp
  · cases hl : listItems (a.getD "tags" (.vStr "")) with
    | none => simp
    | some items =>
      by_cases hn : items.length > 0 <;> simp [hn, map_const_replicate]

theorem statusSeg_text (a : Args) :
    (statusSeg a).1 =
      if a.hasT "status" then "AND \"Status\" ILIKE %s" else "" := by
  unfold statusSeg
  cases h : a.hasT "status" <;> simp

theorem companySeg_text (a : Args) :
    (companySeg a).1 =
      if a.hasT "company" then "AND \"Company\" ILIKE %s" else "" := by
  unfold companySeg
  cases h : a.hasT "company" <;> simp

theorem stateSeg_text (a : Args) :
    (stateSeg a).1 =
      if a.hasT "state_code" then "AND \"State Lookup\" = %s" else "" := by
  unfold stateSeg
  cases h : a.hasT "state_code" <;> simp

theorem startDateSeg_text (a : Args) :
    (startDateSeg a).1 =
      if a.hasT "start_date" then "AND \"Start Date\" >= %s::date" else "" := by
  unfold startDateSeg
  cases h : a.hasT "start_date" <;> simp

theorem endDateSeg_text (a : Args) :
    (endDateSeg a).1 =
      if a.hasT "end_date" then " AND \"Start Date\" <= %s::date" else "" := by
  unfold endDateSeg
  cases h : a.hasT "end_date" <;> simp

theorem minFeeSeg_text (a : Args) (sp : String × List Value)
    (h : minFeeSeg a = .ok sp) :
    sp.1 = if a.hasT "min_fee"
      then "AND CAST(NULLIF(\"Fee\", '') AS NUMERIC) >= %s" else "" := by
  unfold minFeeSeg at h
  cases hf : a.hasT "min_fee" <;> simp only [hf] at h ⊢
  · simp only [Bool.false_eq_true, if_false, pure, Except.pure, Except.ok.injEq] at h
    simp [← h]
  · simp only [if_true, bind, Except.bind] at h
    cases hq : pyFloatE (a.getD "min_fee" (.vStr "")) with
    | error e => rw [hq] at h; exact absurd h (by simp)
    | ok q =>
      rw [hq] at h
      simp only [pure, Except.pure, Except.ok.injEq] at h
      simp [← h]

theorem maxFeeSeg_text (a : Args) (sp : String × List Value)
    (h : maxFeeSeg a = .ok sp) :
    sp.1 = if a.hasT "max_fee"
      then " AND CAST(NULLIF(\"Fee\", '') AS NUMERIC) <= %s" else "" := by
  unfold maxFeeSeg at h
  cases hf : a.hasT "max_fee" <;> simp only [hf] at h ⊢
  · simp only [Bool.false_eq_true, if_false, pure, Except.pure, Except.ok.injEq] at h
    simp [← h]
  · simp only [if_true, bind, Except.bind] at h
    cases hq : pyFloatE (a.getD "max_fee" (.vStr "")) with
    | error e => rw [hq] at h; exact absurd h (by simp)
    | ok q =>
      rw [hq] at h
      simp only [pure, Except.pure, Except.ok.injEq] at h
      simp [← h]

theorem minWinSeg_text (a : Args) (sp : String × List Value)
    (h : minWinSeg a = .ok sp) :
    sp.1 = if a.hasT "min_win"
      then "AND CAST(NULLIF(\"Win %\", '') AS NUMERIC) >= %s" else "" := by
  unfold minWinSeg at h
  cases hf : a.hasT "min_win" <;> simp only [hf] at h ⊢
  · simp only [Bool.false_eq_true, if_false, pure, Except.pure, Except.ok.injEq] at h
    simp [← h]
  · simp only [if_true, bind, Except.bind] at h
    cases hq : pyIntE (a.getD "min_win" (.vStr "")) with
    | error e => rw [hq] at h; exact absurd h (by simp)
    | ok q =>
      rw [hq] at h
      simp only [pure, Except.pure, Except.ok.injEq] at h
      simp [← h]

theorem maxWinSeg_text (a : Args) (sp : String × List Value)
    (h : maxWinSeg a = .ok sp) :
    sp.1 = if a.hasT "max_win"
      then " AND CAST(NULLIF(\"Win %\", '') AS NUMERIC) <= %s" else "" := by
  unfold maxWinSeg at h
  cases hf : a.hasT "max_win" <;> simp only [hf] at h ⊢
  · simp only [Bool.false_eq_true, if_false, pure, Except.pure, Except.ok.injEq] at h
    simp [← h]
  · simp only [if_true, bind, Except.bind] at h
    cases hq : pyIntE (a.getD "max_win" (.vStr "")) with
    | error e => rw [hq] at h; exact absurd h (by simp)
    | ok q =>
      rw [hq] at h
      simp only [pure, Except.pure, Except.ok.injEq] at h
      simp [← h]

/-- C1 (amended): on the combined path every argument value is bound, never
written into the SQL text — the produced text equals `combinedTextSpec`, a
function only of which filters are present, the category/tag list lengths,
and the integer-rendered limit clause (the regular path interpolates values
into the text, per the counterexample). -/
theorem C1_combined_text_structural (sc sql0 : String) (a : Args)
    (sql : String) (ps : List Value)
    (h : buildCombined sc sql0 a = .ok (sql, ps)) :
    sql = combinedTextSpec sc sql0 (a.hasT "size") (catShape a) (tagShape a)
      (a.hasT "status") (a.hasT "company") (a.hasT "state_code")
      (a.hasT "min_fee") (a.hasT "max_fee") (a.hasT "min_win")
      (a.hasT "max_win") (a.hasT "start_date") (a.hasT "end_date")
      (limitRender a) := by
  unfold buildCombined at h
  simp only [bind, Except.bind] at h
  cases hf1 : minFeeSeg a with
  | error e => rw [hf1] at h; exact absurd h (by simp)
  | ok p1 =>
    rw [hf1] at h
    cases hf2 : maxFeeSeg a with
    | error e => rw [hf2] at h; exact absurd h (by simp)
    | ok p2 =>
      rw [hf2] at h
      cases hw1 : minWinSeg a with
      | error e => rw [hw1] at h; exact absurd h (by simp)
      | ok p3 =>
        rw [hw1] at h
        cases hw2 : maxWinSeg a with
        | error e => rw [hw2] at h; exact absurd h (by simp)
        | ok p4 =>
          rw [hw2] at h
          simp only [pure, Except.pure, Except.ok.injEq, Prod.mk.injEq] at h
          obtain ⟨hs, -⟩ := h
          subst hs
          unfold combinedTextSpec
          dsimp only
          rw [sizeSeg_text, catSeg_text, tagSeg_text, statusSeg_text,
            companySeg_text, stateSeg_text, startDateSeg_text, endDateSeg_text,
            minFeeSeg_text a p1 hf1, maxFeeSeg_text a p2 hf2,
            minWinSeg_text a p3 hw1, maxWinSeg_text a p4 hw2]

set_option maxRecDepth 20000 in
/-- C1 witness: the structural-text equation at a concrete input. -/
theorem C1_combined_text_structural_witness :
    "A AND CS ILIKE %s  AND \"Tags\" ILIKE %s AND \"Tags\" ILIKE %s       LIMIT 3 Z" =
      combinedTextSpec "CS"
        "A {size_filter} {category_filter} {tag_filter} {status_filter} {company_filter} {state_filter} {fee_filter} {win_filter} {date_filter} {limit_clause} Z"
        true none (some 2) false false false false false false false false false
        "LIMIT 3" := by
  have h := C1_combined_text_structural "CS"
    "A {size_filter} {category_filter} {tag_filter} {status_filter} {company_filter} {state_filter} {fee_filter} {win_filter} {date_filter} {limit_clause} Z"
    [("size", Value.vStr "big"), ("tags", Value.vStrList ["x","y"]),
     ("limit", Value.vInt 3)]
    "A AND CS ILIKE %s  AND \"Tags\" ILIKE %s AND \"Tags\" ILIKE %s       LIMIT 3 Z"
    [Value.vStr "%big%", Value.vStr "%x%", Value.vStr "%y%"] (by decide)
  exact h


/-! ### C9: the reported median is the upper-middle order statistic -/

theorem mem_of_some_getElem {l : List Rat} {i : Nat} {a : Rat}
    (h : l[i]? = some a) : a ∈ l := by
  rw [List.getElem?_eq_some] at h
  obtain ⟨hi, hl⟩ := h
  exact hl ▸ List.getElem_mem hi

theorem sorted_countLt_le (x : Rat) :
    ∀ (l : List Rat) (i : Nat), l.Sorted (fun a b => a ≤ b) →
      l[i]? = some x →
      (l.filter (fun y => decide (y < x))).length ≤ i := by
  intro l
  induction l with
  | nil => intro i _ h; simp at h
  | cons a l ih =>
    intro i hs hg
    have hall : ∀ y ∈ l, a ≤ y := (List.sorted_cons.mp hs).1
    have htl : l.Sorted (fun a b => a ≤ b) := (List.sorted_cons.mp hs).2
    cases i with
    | zero =>
      simp only [List.getElem?_cons_zero, Option.some.injEq] at hg
      subst hg
      have h0 : (a :: l).filter (fun y => decide (y < a)) = [] := by
        refine List.filter_eq_nil_iff.mpr ?_
        intro b hb
        simp only [decide_eq_true_eq]
        rcases List.mem_cons.mp hb with h | h
        · rw [h]; exact lt_irrefl a
        · exact not_lt.2 (hall b h)
      rw [h0]
      simp
    | succ j =>
      simp only [List.getElem?_cons_succ] at hg
      have hx : x ∈ l := mem_of_some_getElem hg
      have hax : a ≤ x := hall x hx
      rw [List.filter_cons]
      by_cases hlt : a < x
      · rw [if_pos (by simpa using hlt)]
        simp only [List.length_cons]
        exact Nat.succ_le_succ (ih j htl hg)
      · rw [if_neg (by simpa using hlt)]
        exact le_trans (ih j htl hg) (Nat.le_succ j)

theorem sorted_countGt_le (x : Rat) :
    ∀ (l : List Rat) (i : Nat), l.Sorted (fun a b => a ≤ b) →
      l[i]? = some x →
      (l.filter (fun y => decide (x < y))).length + i + 1 ≤ l.length := by
  intro l
  induction l with
  | nil => intro i _ h; simp at h
  | cons a l ih =>
    intro i hs hg
    have hall : ∀ y ∈ l, a ≤ y := (List.sorted_cons.mp hs).1
    have htl : l.Sorted (fun a b => a ≤ b) := (List.sorted_cons.mp hs).2
    cases i with
    | zero =>
      simp only [List.getElem?_cons_zero, Option.some.injEq] at hg
      subst hg
      rw [List.filter_cons, if_neg (by simp)]
      have hle := List.length_filter_le (fun y => decide (a < y)) l
      simp only [List.length_cons]
      omega
    | succ j =>
      simp only [List.getElem?_cons_succ] at hg
      have hx : x ∈ l := mem_of_some_getElem hg
      have hax : a ≤ x := hall x hx
      rw [List.filter_cons, if_neg (by simpa using not_lt.2 hax)]
      have hih := ih j htl hg
      simp only [List.length_cons]
      omega

/-- C9 (amended): a reported median fee is `sorted(fees)[len // 2]` — a
member of the fee multiset with at most half the fees strictly below it
and strictly fewer than half strictly above it (the upper middle for an
even count, not the claim's lower middle). -/
theorem C9_median_upper_middle (data : List Row) (st : SummaryStats) (m : Rat)
    (hs : calculate_summary_stats data = some st)
    (hm : st.median_fee = some m) :
    m = (sortedFees (feesOf data)).getD ((feesOf data).length / 2) 0 ∧
    m ∈ feesOf data ∧
    2 * ((feesOf data).filter (fun y => decide (y < m))).length ≤
      (feesOf data).length ∧
    2 * ((feesOf data).filter (fun y => decide (m < y))).length <
      (feesOf data).length := by
  unfold calculate_summary_stats at hs
  by_cases hd : data = []
  · rw [if_pos hd] at hs; exact absurd hs (by simp)
  · rw [if_neg hd] at hs
    simp only [Option.some.injEq] at hs
    subst hs
    dsimp only at hm
    by_cases hf : feesOf data = []
    · rw [if_pos hf] at hm; exact absurd hm (by simp)
    · rw [if_neg hf] at hm
      simp only [Option.some.injEq] at hm
      have hn : 0 < (feesOf data).length := List.length_pos.mpr hf
      have hperm : List.Perm (sortedFees (feesOf data)) (feesOf data) :=
        List.perm_insertionSort _ (feesOf data)
      have hlen : (sortedFees (feesOf data)).length = (feesOf data).length :=
        hperm.length_eq
      have hi : (feesOf data).length / 2 < (sortedFees (feesOf data)).length := by
        rw [hlen]; exact Nat.div_lt_self hn (by norm_num)
      have hget : (sortedFees (feesOf data))[(feesOf data).length / 2]? =
          some m := by
        rw [List.getElem?_eq_getElem hi, Option.some.injEq, ← hm,
          List.getD_eq_getElem]
      have hsort : (sortedFees (feesOf data)).Sorted (fun a b => a ≤ b) :=
        List.sorted_insertionSort _ (feesOf data)
      have hA := sorted_countLt_le m (sortedFees (feesOf data))
        ((feesOf data).length / 2) hsort hget
      have hB := sorted_countGt_le m (sortedFees (feesOf data))
        ((feesOf data).length / 2) hsort hget
      have heqA : ((sortedFees (feesOf data)).filter
            (fun y => decide (y < m))).length =
          ((feesOf data).filter (fun y => decide (y < m))).length :=
        (hperm.filter _).length_eq
      have heqB : ((sortedFees (feesOf data)).filter
            (fun y => decide (m < y))).length =
          ((feesOf data).filter (fun y => decide (m < y))).length :=
        (hperm.filter _).length_eq
      have hmem : m ∈ feesOf data :=
        hperm.mem_iff.mp (mem_of_some_getElem hget)
      refine ⟨hm.symm, hmem, ?_, ?_⟩ <;> omega

set_option maxRecDepth 10000 in
unseal Rat.mul Rat.add Rat.inv Rat.sub in
/-- C9 witness: the characterization at the concrete fee rows 1,2,3,4
(median 3). -/
theorem C9_median_upper_middle_witness :
    (3 : Rat) = (sortedFees (feesOf
        [[("Fee", Value.vInt 1)], [("Fee", Value.vInt 2)],
         [("Fee", Value.vInt 3)], [("Fee", Value.vInt 4)]])).getD
      ((feesOf [[("Fee", Value.vInt 1)], [("Fee", Value.vInt 2)],
         [("Fee", Value.vInt 3)], [("Fee", Value.vInt 4)]]).length / 2) 0 ∧
    (3 : Rat) ∈ feesOf [[("Fee", Value.vInt 1)], [("Fee", Value.vInt 2)],
         [("Fee", Value.vInt 3)], [("Fee", Value.vInt 4)]] ∧
    2 * ((feesOf [[("Fee", Value.vInt 1)], [("Fee", Value.vInt 2)],
         [("Fee", Value.vInt 3)], [("Fee", Value.vInt 4)]]).filter
        (fun y => decide (y < (3 : Rat)))).length ≤
      (feesOf [[("Fee", Value.vInt 1)], [("Fee", Value.vInt 2)],
         [("Fee", Value.vInt 3)], [("Fee", Value.vInt 4)]]).length ∧
    2 * ((feesOf [[("Fee", Value.vInt 1)], [("Fee", Value.vInt 2)],
         [("Fee", Value.vInt 3)], [("Fee", Value.vInt 4)]]).filter
        (fun y => decide ((3 : Rat) < y))).length <
      (feesOf [[("Fee", Value.vInt 1)], [("Fee", Value.vInt 2)],
         [("Fee", Value.vInt 3)], [("Fee", Value.vInt 4)]]).length :=
  C9_median_upper_middle
    [[("Fee", Value.vInt 1)], [("Fee", Value.vInt 2)],
     [("Fee", Value.vInt 3)], [("Fee", Value.vInt 4)]]
    { total_records := 4, total_value := some 10, avg_fee := some (5 / 2),
      median_fee := some 3, min_fee := some 1, max_fee := some 4,
      avg_win_rate := none } 3 (by decide) (by decide)


/-! ### C2/C3: shape lemmas for the refinement passes -/

theorem pass0_shape (today : Date) (fn : String) (a : Args)
    (hwf : ∀ v, a.get "time_reference" = some v → v.truthy = true →
      ∃ s, v = .vStr s) :
    ∃ a', pass0 today ⟨fn, a⟩ = .ok ⟨fn, a'⟩ ∧
      ∀ k, k ≠ "start_date" → k ≠ "end_date" → k ≠ "time_reference" →
        a'.get k = a.get k := by
  unfold pass0
  dsimp only
  cases hv : a.get "time_reference" with
  | none => exact ⟨a, rfl, fun k _ _ _ => rfl⟩
  | some v =>
    dsimp only
    cases ht : v.truthy with
    | false =>
      rw [if_neg (by simp [ht])]
      exact ⟨a, rfl, fun k _ _ _ => rfl⟩
    | true =>
      rw [if_pos rfl]
      obtain ⟨s, rfl⟩ := hwf v hv ht
      dsimp only
      cases hp : SemanticTimeParser.parse today s with
      | some se =>
        obtain ⟨s1, e1⟩ := se
        refine ⟨_, rfl, ?_⟩
        intro k h1 h2 h3
        rw [Args.get_erase_ne _ (Ne.symm h3), Args.get_set_ne _ _ (Ne.symm h2),
          Args.get_set_ne _ _ (Ne.symm h1)]
      | none =>
        refine ⟨_, rfl, ?_⟩
        intro k _ _ h3
        exact Args.get_erase_ne _ (Ne.symm h3)

theorem statusPass_shape (fn : String) (a : Args)
    (hst : ∀ v, a.get "status" = some v → ∃ s, v = .vStr s) :
    ∃ a', statusPass ⟨fn, a⟩ = .ok ⟨fn, a'⟩ ∧
      ∀ k, k ≠ "status" → a'.get k = a.get k := by
  unfold statusPass
  dsimp only
  cases hv : a.get "status" with
  | none => exact ⟨a, rfl, fun k _ => rfl⟩
  | some v =>
    obtain ⟨s, rfl⟩ := hst v hv
    dsimp only
    cases hc : statusCanon s with
    | some w =>
      refine ⟨_, rfl, ?_⟩
      intro k hk
      exact Args.get_set_ne _ _ (Ne.symm hk)
    | none => exact ⟨a, rfl, fun k _ => rfl⟩

theorem tagPass_id (q : String) (c : Classification)
    (htag : containsAnyWord tagKeywords (lcs q) = false) :
    tagPass q c = .ok c := by
  unfold tagPass
  simp [htag]

theorem capPass_shape (fn : String) (a : Args)
    (htags : ∀ v, a.get "tags" = some v → ∃ l, v = .vStrList l) :
    ∃ fn' a', capPass ⟨fn, a⟩ = .ok ⟨fn', a'⟩ ∧
      (fn' = fn ∨ (fn = "get_projects_by_multiple_tags" ∧
        fn' = "get_projects_by_tags")) ∧
      ∀ v, a'.get "companies" = some v → a.get "companies" = some v := by
  unfold capPass
  dsimp only
  by_cases hfn : fn = "get_projects_by_multiple_tags"
  · rw [if_pos hfn]
    unfold Args.getD
    cases hg : a.get "tags" with
    | none =>
      dsimp only [Option.getD, Value.pyLen]
      exact ⟨fn, a, rfl, Or.inl rfl, fun v hv => hv⟩
    | some v =>
      obtain ⟨l, rfl⟩ := htags v hg
      dsimp only [Option.getD, Value.pyLen]
      by_cases h5 : l.length > 5
      · rw [if_pos h5]
        refine ⟨fn, _, rfl, Or.inl rfl, ?_⟩
        intro v hv
        rw [Args.get_set_ne _ _ (by decide)] at hv
        exact hv
      · rw [if_neg h5]
        by_cases h1 : l.length = 1
        · rw [if_pos h1]
          match l, h1 with
          | [t], _ =>
            refine ⟨"get_projects_by_tags", [("tag", .vStr t)], ?_, ?_, ?_⟩
            · rfl
            · exact Or.inr ⟨hfn, rfl⟩
            · intro v hv
              simp [Args.get] at hv
        · rw [if_neg h1]
          exact ⟨fn, a, rfl, Or.inl rfl, fun v hv => hv⟩
  · rw [if_neg hfn]
    exact ⟨fn, a, rfl, Or.inl rfl, fun v hv => hv⟩

theorem opcoPass_shape (fn : String) (a : Args)
    (hco : ∀ v, a.get "companies" = some v → ∃ n, v.pyLen = .ok n) :
    ∃ c', opcoPass ⟨fn, a⟩ = .ok c' ∧
      (c'.function_name = fn ∨ c'.function_name = "compare_companies") := by
  unfold opcoPass
  dsimp only
  by_cases hfn : fn = "compare_opco_revenue"
  · rw [if_pos hfn]
    unfold Args.getD
    cases hg : a.get "companies" with
    | none =>
      dsimp only [Option.getD, Value.truthy]
      rw [if_pos (by decide)]
      exact ⟨_, rfl, Or.inr rfl⟩
    | some v =>
      obtain ⟨n, hn⟩ := hco v hg
      dsimp only [Option.getD]
      cases htr : v.truthy with
      | false =>
        rw [if_pos (by simp [htr])]
        exact ⟨_, rfl, Or.inr rfl⟩
      | true =>
        rw [if_neg (by simp [htr])]
        rw [hn]
        dsimp only
        by_cases h0 : n = 0
        · rw [if_pos h0]
          exact ⟨_, rfl, Or.inr rfl⟩
        · rw [if_neg h0]
          exact ⟨_, rfl, Or.inl rfl⟩
  · rw [if_neg hfn]
    exact ⟨⟨fn, a⟩, rfl, Or.inl rfl⟩


theorem feePass_id (q : String) (c : Classification)
    (hfee : NumberCalculator.parse_fee_range q = none) :
    feePass q c = .ok c := by
  unfold feePass
  rw [hfee]

theorem limitPass_id (q : String) (c : Classification)
    (hlim : NumberCalculator.parse_limit q = none) :
    limitPass q c = .ok c := by
  unfold limitPass
  rw [hlim]

/-- STEP 1 under a sole relative-date match: every classification gets the
parsed window and the function resolves to `get_projects_by_date_range`
unless already one of the protected types. -/
theorem datePass_rel (today : Date) (q : String) (c : Classification)
    (s e : Date)
    (hrel : DateCalculator.parse_relative_date today q = some (s, e))
    (hmr : DateCalculator.parse_month_range q = none)
    (hq3 : rankingWords3 (lcs q) = false)
    (hsq : DateCalculator.parse_specific_quarter q = none)
    (hmy : DateCalculator.parse_multiple_years q = none) :
    datePass today q c = .ok
      ⟨(if c.function_name ∈ relProtected then c.function_name
        else "get_projects_by_date_range"),
       ((((c.arguments.set "start_date" (.vDate s)).set "end_date"
          (.vDate e)).erase "start_year").erase "end_year").erase
         "time_reference"⟩ := by
  unfold datePass
  rw [hmr, hrel, hsq, hmy]
  dsimp only
  rw [hq3]
  rfl

/-- STEP 1 when no date pattern matches at all: a no-op. -/
theorem datePass_id (today : Date) (q : String) (c : Classification)
    (hrel : DateCalculator.parse_relative_date today q = none)
    (hmr : DateCalculator.parse_month_range q = none)
    (hsq : DateCalculator.parse_specific_quarter q = none)
    (hmy : DateCalculator.parse_multiple_years q = none)
    (hsy : DateCalculator.parse_specific_year q = none) :
    datePass today q c = .ok c := by
  unfold datePass
  rw [hmr, hrel, hsq, hmy, hsy]
  rfl


/-- C2 (amended): for a question whose only matching lexical pattern is a
180-day relative window ending today (as "last 6 months" with no ranking
word and no other date/fee/limit/tag pattern), the pipeline overwrites
`start_date`/`end_date` with exactly that window for *every* classifier
proposal, and resolves the function to `get_projects_by_date_range` unless
the classifier proposed one of the protected special types
(`relProtected`), which keep their function name. -/
theorem C2_last6months_resolved (today : Date) (q : String)
    (c : Classification) (hwf : WFArgs c.arguments)
    (htag : containsAnyWord tagKeywords (lcs q) = false)
    (hrel : DateCalculator.parse_relative_date today q =
      some (subDays today 180, today))
    (hmr : DateCalculator.parse_month_range q = none)
    (hq3 : rankingWords3 (lcs q) = false)
    (hsq : DateCalculator.parse_specific_quarter q = none)
    (hmy : DateCalculator.parse_multiple_years q = none)
    (hfee : NumberCalculator.parse_fee_range q = none)
    (hlim : NumberCalculator.parse_limit q = none) :
    ∃ c', preprocess_query today q c = .ok c' ∧
      c'.arguments.get "start_date" = some (.vDate (subDays today 180)) ∧
      c'.arguments.get "end_date" = some (.vDate today) ∧
      (c'.function_name = "get_projects_by_date_range" ∨
        (c.function_name ∈ relProtected ∧
         c'.function_name = c.function_name)) := by
  obtain ⟨fn, a⟩ := c
  obtain ⟨hwf1, hwf2, hwf3, hwf4⟩ := hwf
  obtain ⟨a1, h1, f1⟩ := pass0_shape today fn a hwf1
  have hst1 : ∀ v, a1.get "status" = some v → ∃ s, v = .vStr s := by
    intro v hv
    rw [f1 "status" (by decide) (by decide) (by decide)] at hv
    exact hwf2 v hv
  obtain ⟨a2, h2, f2⟩ := statusPass_shape fn a1 hst1
  have htags2 : ∀ v, a2.get "tags" = some v → ∃ l, v = .vStrList l := by
    intro v hv
    rw [f2 "tags" (by decide),
      f1 "tags" (by decide) (by decide) (by decide)] at hv
    exact hwf4 v hv
  obtain ⟨fn4, a4, h4, hfn4, hcomp4⟩ := capPass_shape fn a2 htags2
  have hco4 : ∀ v, a4.get "companies" = some v → ∃ n, v.pyLen = .ok n := by
    intro v hv
    have hv2 := hcomp4 v hv
    rw [f2 "companies" (by decide),
      f1 "companies" (by decide) (by decide) (by decide)] at hv2
    exact hwf3 v hv2
  obtain ⟨c5, h5, hfn5⟩ := opcoPass_shape fn4 a4 hco4
  have h6 := datePass_rel today q c5 (subDays today 180) today hrel hmr hq3
    hsq hmy
  refine ⟨⟨(if c5.function_name ∈ relProtected then c5.function_name
      else "get_projects_by_date_range"),
    ((((c5.arguments.set "start_date" (.vDate (subDays today 180))).set
      "end_date" (.vDate today)).erase "start_year").erase "end_year").erase
      "time_reference"⟩, ?_, ?_, ?_, ?_⟩
  · unfold preprocess_query
    simp only [bind, Except.bind, h1, h2, h4, h5, h6, tagPass_id,
      feePass_id, limitPass_id, htag, hfee, hlim]
  · dsimp only
    rw [Args.get_erase_ne _ (by decide), Args.get_erase_ne _ (by decide),
      Args.get_erase_ne _ (by decide), Args.get_set_ne _ _ (by decide),
      Args.get_set_self]
  · dsimp only
    rw [Args.get_erase_ne _ (by decide), Args.get_erase_ne _ (by decide),
      Args.get_erase_ne _ (by decide), Args.get_set_self]
  · dsimp only
    by_cases hp : c5.function_name ∈ relProtected
    · rw [if_pos hp]
      rcases hfn5 with he | he
      · rcases hfn4 with hf | ⟨hm, hf⟩
        · right
          refine ⟨?_, by rw [he, hf]⟩
          rw [he, hf] at hp
          exact hp
        · rw [he, hf] at hp
          exact absurd hp (by decide)
      · rw [he] at hp
        exact absurd hp (by decide)
    · rw [if_neg hp]
      exact Or.inl rfl


set_option maxRecDepth 40000 in
/-- C2 witness: a concrete question and classifier proposal. -/
theorem C2_last6months_resolved_witness :
    ∃ c', preprocess_query ⟨2026, 10, 12⟩
        "show projects from the last 6 months"
        ⟨"get_revenue_by_category", []⟩ = .ok c' ∧
      c'.arguments.get "start_date" =
        some (.vDate (subDays ⟨2026, 10, 12⟩ 180)) ∧
      c'.arguments.get "end_date" = some (.vDate ⟨2026, 10, 12⟩) ∧
      (c'.function_name = "get_projects_by_date_range" ∨
        ("get_revenue_by_category" ∈ relProtected ∧
         c'.function_name = "get_revenue_by_category")) :=
  C2_last6months_resolved ⟨2026, 10, 12⟩
    "show projects from the last 6 months"
    ⟨"get_revenue_by_category", []⟩
    (by refine ⟨?_, ?_, ?_, ?_⟩ <;> intro v hv <;> simp [Args.get] at hv)
    (by decide) (by decide) (by decide) (by decide) (by decide) (by decide)
    (by decide) (by decide)


/-- STEP 2 under an open-ended fee match: `min_fee` is set, the absent
upper bound becomes the 999 999 999 999 sentinel, and the function
resolves to a fee-range call unless protected. -/
theorem feePass_over (q fn : String) (a : Args) (mn : Rat)
    (hfee : NumberCalculator.parse_fee_range q = some (mn, none)) :
    ∃ fn', feePass q ⟨fn, a⟩ = .ok
        ⟨fn', (a.set "min_fee" (.vRat mn)).set "max_fee"
          (.vRat 999999999999)⟩ ∧
      ((fn ∈ feeProtected ∧ fn' = fn) ∨
        fn' = "get_projects_by_client_and_fee_range" ∨
        fn' = "get_projects_by_fee_range") := by
  unfold feePass
  rw [hfee]
  dsimp only
  by_cases hp : fn ∈ feeProtected
  · rw [if_pos hp]
    exact ⟨fn, rfl, Or.inl ⟨hp, rfl⟩⟩
  · rw [if_neg hp]
    cases hc : ((a.set "min_fee" (.vRat mn)).set "max_fee"
        (.vRat 999999999999)).has "client" ||
        containsAnyWord ["tamu", "clid"] (lcs q) with
    | true =>
      rw [if_pos rfl]
      exact ⟨_, rfl, Or.inr (Or.inl rfl)⟩
    | false =>
      rw [if_neg (by simp)]
      exact ⟨_, rfl, Or.inr (Or.inr rfl)⟩

/-- STEP 3 when a nonzero limit is parsed. -/
theorem limitPass_set (q fn : String) (a : Args) (n : Int)
    (hlim : NumberCalculator.parse_limit q = some n) (hn : n ≠ 0) :
    limitPass q ⟨fn, a⟩ = .ok ⟨fn, a.set "limit" (.vInt n)⟩ := by
  unfold limitPass
  rw [hlim]
  dsimp only
  rw [if_pos hn]

set_option maxRecDepth 40000 in
unseal Rat.mul Rat.add Rat.inv Rat.sub in
/-- C3 (amended): for "top 10 projects over 5 million", every classifier
proposal ends with `min_fee = 5000000`, `max_fee` the 999 999 999 999
sentinel and `limit = 10`, and the function resolves to
`get_projects_by_fee_range` (or the client variant) unless the classifier
proposed one of the protected special types (`feeProtected`), which keep
their function name. -/
theorem C3_top10_over5m_resolved (today : Date) (c : Classification)
    (hwf : WFArgs c.arguments) :
    ∃ c', preprocess_query today "top 10 projects over 5 million" c =
        .ok c' ∧
      c'.arguments.get "min_fee" = some (.vRat 5000000) ∧
      c'.arguments.get "max_fee" = some (.vRat 999999999999) ∧
      c'.arguments.get "limit" = some (.vInt 10) ∧
      (c'.function_name = "get_projects_by_fee_range" ∨
       c'.function_name = "get_projects_by_client_and_fee_range" ∨
       (c.function_name ∈ feeProtected ∧
        c'.function_name = c.function_name)) := by
  obtain ⟨fn, a⟩ := c
  obtain ⟨hwf1, hwf2, hwf3, hwf4⟩ := hwf
  have htagq : containsAnyWord tagKeywords
      (lcs "top 10 projects over 5 million") = false := by decide
  have hrel : DateCalculator.parse_relative_date today
      "top 10 projects over 5 million" = none := rfl
  have hfee : NumberCalculator.parse_fee_range
      "top 10 projects over 5 million" = some (5000000, none) := by decide
  have hlim : NumberCalculator.parse_limit
      "top 10 projects over 5 million" = some 10 := by decide
  obtain ⟨a1, h1, f1⟩ := pass0_shape today fn a hwf1
  have hst1 : ∀ v, a1.get "status" = some v → ∃ s, v = .vStr s := by
    intro v hv
    rw [f1 "status" (by decide) (by decide) (by decide)] at hv
    exact hwf2 v hv
  obtain ⟨a2, h2, f2⟩ := statusPass_shape fn a1 hst1
  have htags2 : ∀ v, a2.get "tags" = some v → ∃ l, v = .vStrList l := by
    intro v hv
    rw [f2 "tags" (by decide),
      f1 "tags" (by decide) (by decide) (by decide)] at hv
    exact hwf4 v hv
  obtain ⟨fn4, a4, h4, hfn4, hcomp4⟩ := capPass_shape fn a2 htags2
  have hco4 : ∀ v, a4.get "companies" = some v → ∃ n, v.pyLen = .ok n := by
    intro v hv
    have hv2 := hcomp4 v hv
    rw [f2 "companies" (by decide),
      f1 "companies" (by decide) (by decide) (by decide)] at hv2
    exact hwf3 v hv2
  obtain ⟨c5, h5, hfn5⟩ := opcoPass_shape fn4 a4 hco4
  obtain ⟨fn5, a5⟩ := c5
  have hdate := datePass_id today "top 10 projects over 5 million"
    ⟨fn5, a5⟩ hrel (by decide) (by decide) (by decide) (by decide)
  obtain ⟨fn', hfp, hff⟩ := feePass_over "top 10 projects over 5 million"
    fn5 a5 5000000 hfee
  have hlp := limitPass_set "top 10 projects over 5 million" fn'
    ((a5.set "min_fee" (.vRat 5000000)).set "max_fee" (.vRat 999999999999))
    10 hlim (by decide)
  refine ⟨⟨fn', ((a5.set "min_fee" (.vRat 5000000)).set "max_fee"
      (.vRat 999999999999)).set "limit" (.vInt 10)⟩, ?_, ?_, ?_, ?_, ?_⟩
  · unfold preprocess_query
    simp only [bind, Except.bind, h1, h2, tagPass_id, htagq, h4, h5, hdate,
      hfp, hlp]
  · dsimp only
    rw [Args.get_set_ne _ _ (by decide), Args.get_set_ne _ _ (by decide),
      Args.get_set_self]
  · dsimp only
    rw [Args.get_set_ne _ _ (by decide), Args.get_set_self]
  · dsimp only
    rw [Args.get_set_self]
  · dsimp only
    rcases hff with ⟨hp, he⟩ | he | he
    · rcases hfn5 with h55 | h55
      · rcases hfn4 with hf | ⟨hm, hf⟩
        · dsimp only at h55
          right; right
          rw [h55, hf] at hp he
          exact ⟨hp, he⟩
        · dsimp only at h55
          rw [h55, hf] at hp
          exact absurd hp (by decide)
      · dsimp only at h55
        rw [h55] at hp
        exact absurd hp (by decide)
    · exact Or.inr (Or.inl he)
    · exact Or.inl he


/-- C3 witness: a concrete date and classifier proposal. -/
theorem C3_top10_over5m_resolved_witness :
    ∃ c', preprocess_query ⟨2026, 10, 12⟩ "top 10 projects over 5 million"
        ⟨"get_revenue_by_category", []⟩ = .ok c' ∧
      c'.arguments.get "min_fee" = some (.vRat 5000000) ∧
      c'.arguments.get "max_fee" = some (.vRat 999999999999) ∧
      c'.arguments.get "limit" = some (.vInt 10) ∧
      (c'.function_name = "get_projects_by_fee_range" ∨
       c'.function_name = "get_projects_by_client_and_fee_range" ∨
       ("get_revenue_by_category" ∈ feeProtected ∧
        c'.function_name = "get_revenue_by_category")) :=
  C3_top10_over5m_resolved ⟨2026, 10, 12⟩ ⟨"get_revenue_by_category", []⟩
    (by refine ⟨?_, ?_, ?_, ?_⟩ <;> intro v hv <;> simp [Args.get] at hv)


/-! ### C4: pass analysis for idempotence -/

theorem Args.set_set (a : Args) (k : String) (v w : Value) :
    (a.set k v).set k w = a.set k w := by
  induction a with
  | nil => simp [Args.set]
  | cons p rest ih =>
    by_cases h : p.1 = k
    · simp [Args.set, h]
    · simp [Args.set, h, ih]

theorem statusCanon_fix (s w : String) (h : statusCanon s = some w) :
    statusCanon w = some w := by
  unfold statusCanon at h
  dsimp only at h
  split_ifs at h <;> (injection h with h; subst h; decide)

theorem pass0_id_of (today : Date) (c : Classification)
    (h : TrOK c.arguments) : pass0 today c = .ok c := by
  unfold pass0
  cases hv : c.arguments.get "time_reference" with
  | none => rfl
  | some v =>
    dsimp only
    rw [if_neg (by simp [h v hv])]

theorem statusPass_id_of (c : Classification)
    (h : StatusOK c.arguments) : statusPass c = .ok c := by
  unfold statusPass
  cases hv : c.arguments.get "status" with
  | none => rfl
  | some v =>
    obtain ⟨s, rfl, hc⟩ := h v hv
    dsimp only
    rcases hc with hc | hc
    · rw [hc]
    · rw [hc]
      dsimp only
      rw [Args.set_same c.arguments hv]

theorem tagPass_id_of (q : String) (c : Classification)
    (hstable : TagStable q c) (hfn : TagFnOK q c) :
    tagPass q c = .ok c := by
  unfold tagPass
  dsimp only
  cases hcond : (containsAnyWord tagKeywords (lcs q) &&
      !containsAnyWord categoryKeywords (lcs q)) with
  | false => rw [if_neg (by simp [hcond])]
  | true =>
    rw [if_pos rfl]
    obtain ⟨h1, h2⟩ := hfn hcond
    rw [if_neg h1, if_neg h2]
    by_cases h3 : c.function_name = "get_projects_by_tags"
    · rw [if_pos h3]
      cases hv : c.arguments.get "tag" with
      | none =>
        unfold Args.getD
        rw [hv]
        dsimp only [Option.getD, parseItemsOf]
        simp only [bind, Except.bind]
        rw [if_neg (by decide)]
      | some v =>
        obtain ⟨s, rfl, hlen⟩ := hstable hcond h3 v hv
        unfold Args.getD
        rw [hv]
        dsimp only [Option.getD, parseItemsOf]
        simp only [bind, Except.bind]
        rw [if_neg (by omega)]
    · rw [if_neg h3]

theorem capPass_id_of (c : Classification) (h : CapOK c) :
    capPass c = .ok c := by
  unfold capPass
  by_cases hfn : c.function_name = "get_projects_by_multiple_tags"
  · rw [if_pos hfn]
    unfold Args.getD
    cases hv : c.arguments.get "tags" with
    | none =>
      dsimp only [Option.getD, Value.pyLen]
      rw [if_neg (by decide), if_neg (by decide)]
    | some v =>
      obtain ⟨n, hn, h5, h1⟩ := h hfn v hv
      dsimp only [Option.getD]
      rw [hn]
      dsimp only
      rw [if_neg (by omega), if_neg h1]
  · rw [if_neg hfn]

theorem opcoPass_id_of (c : Classification) (h : OpcoOK c) :
    opcoPass c = .ok c := by
  unfold opcoPass
  by_cases hfn : c.function_name = "compare_opco_revenue"
  · rw [if_pos hfn]
    obtain ⟨v, n, hv, htr, hn, h0⟩ := h hfn
    unfold Args.getD
    rw [hv]
    dsimp only [Option.getD]
    rw [if_neg (by simp [htr]), hn]
    dsimp only
    rw [if_neg h0]
  · rw [if_neg hfn]


theorem pass0_out (today : Date) (c c1 : Classification)
    (h : pass0 today c = .ok c1) :
    c1.function_name = c.function_name ∧ TrOK c1.arguments ∧
    (∀ k, k ≠ "start_date" → k ≠ "end_date" → k ≠ "time_reference" →
      c1.arguments.get k = c.arguments.get k) := by
  unfold pass0 at h
  cases hv : c.arguments.get "time_reference" with
  | none =>
    rw [hv] at h
    dsimp only at h
    simp only [Except.ok.injEq] at h
    subst h
    exact ⟨rfl, fun v hv2 => by rw [hv] at hv2; exact absurd hv2 (by simp),
      fun k _ _ _ => rfl⟩
  | some v =>
    rw [hv] at h
    dsimp only at h
    cases ht : v.truthy with
    | false =>
      rw [if_neg (by simp [ht])] at h
      simp only [Except.ok.injEq] at h
      subst h
      refine ⟨rfl, fun w hw => ?_, fun k _ _ _ => rfl⟩
      rw [hv] at hw
      injection hw with hw
      rw [← hw]
      exact ht
    | true =>
      rw [if_pos ht] at h
      cases v with
      | vStr s =>
        dsimp only at h
        cases hp : SemanticTimeParser.parse today s with
        | some se =>
          obtain ⟨s1, e1⟩ := se
          rw [hp] at h
          simp only [Except.ok.injEq] at h
          subst h
          refine ⟨rfl, fun w hw => ?_, fun k h1 h2 h3 => ?_⟩
          · rw [Args.get_erase_self] at hw
            exact absurd hw (by simp)
          · dsimp only
            rw [Args.get_erase_ne _ (Ne.symm h3),
              Args.get_set_ne _ _ (Ne.symm h2), Args.get_set_ne _ _ (Ne.symm h1)]
        | none =>
          rw [hp] at h
          simp only [Except.ok.injEq] at h
          subst h
          refine ⟨rfl, fun w hw => ?_, fun k _ _ h3 => ?_⟩
          · rw [Args.get_erase_self] at hw
            exact absurd hw (by simp)
          · exact Args.get_erase_ne _ (Ne.symm h3)
      | vInt n => exact absurd h (by simp)
      | vRat x => exact absurd h (by simp)
      | vDate d => exact absurd h (by simp)
      | vStrList l => exact absurd h (by simp)
      | vIntList l => exact absurd h (by simp)

theorem statusPass_out (c c1 : Classification)
    (h : statusPass c = .ok c1) :
    c1.function_name = c.function_name ∧ StatusOK c1.arguments ∧
    (∀ k, k ≠ "status" → c1.arguments.get k = c.arguments.get k) := by
  unfold statusPass at h
  cases hv : c.arguments.get "status" with
  | none =>
    rw [hv] at h
    simp only [Except.ok.injEq] at h
    subst h
    exact ⟨rfl, fun v hv2 => by rw [hv] at hv2; exact absurd hv2 (by simp),
      fun k _ => rfl⟩
  | some v =>
    rw [hv] at h
    cases v with
    | vStr s =>
      dsimp only at h
      cases hc : statusCanon s with
      | some w =>
        rw [hc] at h
        simp only [Except.ok.injEq] at h
        subst h
        refine ⟨rfl, fun u hu => ?_, fun k hk => ?_⟩
        · dsimp only at hu
          rw [Args.get_set_self] at hu
          injection hu with hu
          exact ⟨w, hu.symm, Or.inr (statusCanon_fix s w hc)⟩
        · exact Args.get_set_ne _ _ (Ne.symm hk)
      | none =>
        rw [hc] at h
        simp only [Except.ok.injEq] at h
        subst h
        refine ⟨rfl, fun u hu => ?_, fun k _ => rfl⟩
        rw [hv] at hu
        injection hu with hu
        exact ⟨s, hu.symm, Or.inl hc⟩
    | vInt n => exact absurd h (by simp)
    | vRat x => exact absurd h (by simp)
    | vDate d => exact absurd h (by simp)
    | vStrList l => exact absurd h (by simp)
    | vIntList l => exact absurd h (by simp)


theorem ArgsStep.refl (a : Args) : ArgsStep a a :=
  ⟨fun _ _ => rfl, fun h => h⟩

theorem ArgsStep.step_set (a : Args) {b : Args} (h : ArgsStep a b)
    (k : String) (hk : k ∈ dateKeys) (hk2 : k ≠ "time_reference")
    (v : Value) : ArgsStep a (b.set k v) := by
  refine ⟨fun k2 hk2' => ?_, fun htr => ?_⟩
  · rw [Args.get_set_ne]
    · exact h.1 k2 hk2'
    · intro he
      exact hk2' (he ▸ hk)
  · intro w hw
    rw [Args.get_set_ne _ _ hk2] at hw
    exact h.2 htr w hw

theorem ArgsStep.step_erase (a : Args) {b : Args} (h : ArgsStep a b)
    (k : String) (hk : k ∈ dateKeys) : ArgsStep a (b.erase k) := by
  refine ⟨fun k2 hk2' => ?_, fun htr => ?_⟩
  · rw [Args.get_erase_ne]
    · exact h.1 k2 hk2'
    · intro he
      exact hk2' (he ▸ hk)
  · intro w hw
    by_cases he : k = "time_reference"
    · rw [he, Args.get_erase_self] at hw
      exact absurd hw (by simp)
    · rw [Args.get_erase_ne _ he] at hw
      exact h.2 htr w hw

theorem take5V_pyLen (v : Value) (n : Nat) (h : v.pyLen = .ok n)
    (h5 : n > 5) : (take5V v).pyLen = .ok 5 := by
  cases v with
  | vStr s =>
    simp only [Value.pyLen, Except.ok.injEq] at h
    simp only [take5V, Value.pyLen, Except.ok.injEq, String.length,
      List.length_take]
    simp only [String.length] at h
    omega
  | vStrList l =>
    simp only [Value.pyLen, Except.ok.injEq] at h
    simp only [take5V, Value.pyLen, Except.ok.injEq, List.length_take]
    omega
  | vIntList l =>
    simp only [Value.pyLen, Except.ok.injEq] at h
    simp only [take5V, Value.pyLen, Except.ok.injEq, List.length_take]
    omega
  | vInt m => simp [Value.pyLen] at h
  | vRat x => simp [Value.pyLen] at h
  | vDate d => simp [Value.pyLen] at h


theorem get_pair_ne (k k' : String) (v : Value) (h : ¬ k = k') :
    Args.get [(k, v)] k' = none := by
  simp [Args.get, h]

theorem tagPass_out (q : String) (c c1 : Classification)
    (h : tagPass q c = .ok c1) :
    (c1 = c ∨
      (∃ l, c1 = ⟨"get_projects_by_multiple_tags",
        [("tags", Value.vStrList l)]⟩) ∨
      (∃ t, c1 = ⟨"get_largest_by_tags", [("tag", Value.vStr t)]⟩) ∨
      (∃ t, c1 = ⟨"get_projects_by_tags", [("tag", Value.vStr t)]⟩)) ∧
    TagFnOK q c1 := by
  unfold tagPass at h
  dsimp only at h
  cases hcond : (containsAnyWord tagKeywords (lcs q) &&
      !containsAnyWord categoryKeywords (lcs q)) with
  | false =>
    rw [if_neg (by simp [hcond])] at h
    simp only [Except.ok.injEq] at h
    subst h
    exact ⟨Or.inl rfl, fun hct => absurd (hcond ▸ hct) (by simp)⟩
  | true =>
    rw [hcond, if_pos rfl] at h
    by_cases h1 : c.function_name = "get_largest_by_category"
    · rw [if_pos h1] at h
      simp only [bind, Except.bind] at h
      cases hpi : parseItemsOf (c.arguments.getD "category" (.vStr "")) with
      | error e => rw [hpi] at h; exact absurd h (by simp)
      | ok tags =>
        rw [hpi] at h
        dsimp only at h
        by_cases hl : tags.length > 1
        · rw [if_pos hl] at h
          dsimp only at h
          rw [get_pair_ne _ _ _ (by decide)] at h
          dsimp only at h
          simp only [Except.ok.injEq] at h
          subst h
          exact ⟨Or.inr (Or.inl ⟨tags, rfl⟩), fun _ => ⟨by dsimp only; decide, by dsimp only; decide⟩⟩
        · rw [if_neg hl] at h
          cases hrk : containsAnyWord rankingWords6 (lcs q) with
          | true =>
            rw [hrk, if_pos rfl] at h
            cases tags with
            | nil => simp [listHead] at h
            | cons t rest =>
              dsimp only [listHead] at h
              rw [get_pair_ne _ _ _ (by decide)] at h
              dsimp only at h
              simp only [Except.ok.injEq] at h
              subst h
              exact ⟨Or.inr (Or.inr (Or.inl ⟨t, rfl⟩)),
                fun _ => ⟨by dsimp only; decide, by dsimp only; decide⟩⟩
          | false =>
            rw [hrk, if_neg (by simp)] at h
            cases tags with
            | nil => simp [listHead] at h
            | cons t rest =>
              dsimp only [listHead] at h
              rw [get_pair_ne _ _ _ (by decide)] at h
              dsimp only at h
              simp only [Except.ok.injEq] at h
              subst h
              exact ⟨Or.inr (Or.inr (Or.inr ⟨t, rfl⟩)),
                fun _ => ⟨by dsimp only; decide, by dsimp only; decide⟩⟩
    · rw [if_neg h1] at h
      by_cases h2 : c.function_name = "get_projects_by_category"
      · rw [if_pos h2] at h
        simp only [bind, Except.bind] at h
        cases hpi : parseItemsOf (c.arguments.getD "category" (.vStr "")) with
        | error e => rw [hpi] at h; exact absurd h (by simp)
        | ok tags =>
          rw [hpi] at h
          dsimp only at h
          by_cases hl : tags.length > 1
          · rw [if_pos hl] at h
            simp only [Except.ok.injEq] at h
            subst h
            exact ⟨Or.inr (Or.inl ⟨tags, rfl⟩),
              fun _ => ⟨by dsimp only; decide, by dsimp only; decide⟩⟩
          · rw [if_neg hl] at h
            cases tags with
            | nil => simp [listHead] at h
            | cons t rest =>
              dsimp only [listHead] at h
              simp only [Except.ok.injEq] at h
              subst h
              exact ⟨Or.inr (Or.inr (Or.inr ⟨t, rfl⟩)),
                fun _ => ⟨by dsimp only; decide, by dsimp only; decide⟩⟩
      · rw [if_neg h2] at h
        by_cases h3 : c.function_name = "get_projects_by_tags"
        · rw [if_pos h3] at h
          simp only [bind, Except.bind] at h
          cases hpi : parseItemsOf (c.arguments.getD "tag" (.vStr "")) with
          | error e => rw [hpi] at h; exact absurd h (by simp)
          | ok tags =>
            rw [hpi] at h
            dsimp only at h
            by_cases hl : tags.length > 1
            · rw [if_pos hl] at h
              simp only [Except.ok.injEq] at h
              subst h
              exact ⟨Or.inr (Or.inl ⟨tags, rfl⟩),
                fun _ => ⟨by dsimp only; decide, by dsimp only; decide⟩⟩
            · rw [if_neg hl] at h
              simp only [Except.ok.injEq] at h
              subst h
              refine ⟨Or.inl rfl, fun _ => ⟨?_, ?_⟩⟩
              · rw [h3]; decide
              · rw [h3]; decide
        · rw [if_neg h3] at h
          simp only [Except.ok.injEq] at h
          subst h
          exact ⟨Or.inl rfl, fun _ => ⟨h1, h2⟩⟩


theorem capPass_out (c c1 : Classification) (h : capPass c = .ok c1) :
    (c1 = c ∨
      (∃ v, c1 = ⟨c.function_name, c.arguments.set "tags" v⟩) ∨
      (∃ t, c1 = ⟨"get_projects_by_tags", [("tag", t)]⟩)) ∧
    CapOK c1 := by
  unfold capPass at h
  by_cases hfn : c.function_name = "get_projects_by_multiple_tags"
  · rw [if_pos hfn] at h
    unfold Args.getD at h
    cases hg : c.arguments.get "tags" with
    | none =>
      rw [hg] at h
      dsimp only [Option.getD, Value.pyLen] at h
      rw [if_neg (by decide), if_neg (by decide)] at h
      simp only [Except.ok.injEq] at h
      subst h
      refine ⟨Or.inl rfl, fun hm v hv => ?_⟩
      rw [hg] at hv
      exact absurd hv (by simp)
    | some v =>
      rw [hg] at h
      dsimp only [Option.getD] at h
      cases hpl : v.pyLen with
      | error e => rw [hpl] at h; exact absurd h (by simp)
      | ok n =>
        rw [hpl] at h
        dsimp only at h
        by_cases h5 : n > 5
        · rw [if_pos h5] at h
          simp only [Except.ok.injEq] at h
          subst h
          refine ⟨Or.inr (Or.inl ⟨take5V v, by rw [hfn]⟩),
            fun hm w hw => ?_⟩
          dsimp only at hw
          rw [Args.get_set_self] at hw
          injection hw with hw
          exact ⟨5, by rw [← hw]; exact take5V_pyLen v n hpl h5, by omega,
            by omega⟩
        · rw [if_neg h5] at h
          by_cases h1 : n = 1
          · rw [if_pos h1] at h
            simp only [bind, Except.bind] at h
            cases hh : head0V v with
            | error e => rw [hh] at h; exact absurd h (by simp)
            | ok t =>
              rw [hh] at h
              simp only [Except.ok.injEq] at h
              subst h
              refine ⟨Or.inr (Or.inr ⟨t, rfl⟩), fun hm => ?_⟩
              exact absurd hm (by dsimp only; decide)
          · rw [if_neg h1] at h
            simp only [Except.ok.injEq] at h
            subst h
            refine ⟨Or.inl rfl, fun hm w hw => ?_⟩
            rw [hg] at hw
            injection hw with hw
            exact ⟨n, by rw [← hw]; exact hpl, by omega, h1⟩
  · rw [if_neg hfn] at h
    simp only [Except.ok.injEq] at h
    subst h
    exact ⟨Or.inl rfl, fun hm => absurd hm hfn⟩

theorem opcoPass_out (c c1 : Classification) (h : opcoPass c = .ok c1) :
    (c1 = c ∨ c1 = ⟨"compare_companies", []⟩) ∧ OpcoOK c1 := by
  unfold opcoPass at h
  by_cases hfn : c.function_name = "compare_opco_revenue"
  · rw [if_pos hfn] at h
    unfold Args.getD at h
    cases hg : c.arguments.get "companies" with
    | none =>
      rw [hg] at h
      dsimp only [Option.getD, Value.truthy] at h
      rw [if_pos (by decide)] at h
      simp only [Except.ok.injEq] at h
      subst h
      exact ⟨Or.inr rfl, fun hm => absurd hm (by dsimp only; decide)⟩
    | some v =>
      rw [hg] at h
      dsimp only [Option.getD] at h
      cases htr : v.truthy with
      | false =>
        rw [if_pos (by simp [htr])] at h
        simp only [Except.ok.injEq] at h
        subst h
        exact ⟨Or.inr rfl, fun hm => absurd hm (by dsimp only; decide)⟩
      | true =>
        rw [if_neg (by simp [htr])] at h
        cases hpl : v.pyLen with
        | error e => rw [hpl] at h; exact absurd h (by simp)
        | ok n =>
          rw [hpl] at h
          dsimp only at h
          by_cases h0 : n = 0
          · rw [if_pos h0] at h
            simp only [Except.ok.injEq] at h
            subst h
            exact ⟨Or.inr rfl, fun hm => absurd hm (by dsimp only; decide)⟩
          · rw [if_neg h0] at h
            simp only [Except.ok.injEq] at h
            subst h
            exact ⟨Or.inl rfl, fun _ => ⟨v, n, hg, htr, hpl, h0⟩⟩
  · rw [if_neg hfn] at h
    simp only [Except.ok.injEq] at h
    subst h
    exact ⟨Or.inl rfl, fun hm => absurd hm hfn⟩

/-- STEP 2 on a fee match, as an equation (`max_fee` falsy or absent
becomes the sentinel). -/
theorem feePass_eq (q : String) (c : Classification) (mn : Rat)
    (mx : Option Rat) (mxv : Value)
    (hv : mxv = (match mx with
      | some m => if m ≠ 0 then Value.vRat m else Value.vRat 999999999999
      | none => Value.vRat 999999999999))
    (hp : NumberCalculator.parse_fee_range q = some (mn, mx)) :
    feePass q c = .ok
      ⟨(if c.function_name ∈ feeProtected then c.function_name
        else if (((c.arguments.set "min_fee" (.vRat mn)).set "max_fee"
              mxv).has "client" ||
            containsAnyWord ["tamu", "clid"] (lcs q)) = true then
          "get_projects_by_client_and_fee_range"
        else "get_projects_by_fee_range"),
       (c.arguments.set "min_fee" (.vRat mn)).set "max_fee" mxv⟩ := by
  subst hv
  cases mx with
  | none =>
    unfold feePass
    dsimp only
    rw [hp]
  | some m =>
    unfold feePass
    dsimp only
    rw [hp]
    dsimp only
    by_cases hm : m ≠ 0
    · rw [if_pos hm, if_pos hm]
    · rw [if_neg hm, if_neg hm]


theorem Args.get_set (a : Args) (k k2 : String) (v : Value) :
    (a.set k v).get k2 = if k = k2 then some v else a.get k2 := by
  induction a with
  | nil =>
    by_cases h : k = k2 <;> simp [Args.set, Args.get, h]
  | cons p rest ih =>
    obtain ⟨k1, v1⟩ := p
    by_cases h : k1 = k
    · subst h
      by_cases h2 : k1 = k2
      · subst h2
        simp [Args.set, Args.get]
      · simp [Args.set, Args.get, h2]
    · by_cases h2 : k = k2
      · subst h2
        simp [Args.set, Args.get, h, ih]
      · by_cases h3 : k1 = k2
        · subst h3
          simp [Args.set, Args.get, h, h2]
        · simp [Args.set, Args.get, h, h2, h3, ih]

theorem Args.get_erase (a : Args) (k k2 : String) :
    (a.erase k).get k2 = if k = k2 then none else a.get k2 := by
  by_cases h : k = k2
  · rw [if_pos h, h, Args.get_erase_self]
  · rw [if_neg h, Args.get_erase_ne _ h]

set_option maxHeartbeats 2000000 in
theorem datePass_out (today : Date) (q : String) (c c5 : Classification)
    (h : datePass today q c = .ok c5) :
    ArgsStep c.arguments c5.arguments ∧
    (c5.function_name = c.function_name ∨
      c5.function_name ∈ ["get_projects_by_date_range",
        "get_largest_projects", "get_projects_by_quarter", "compare_years",
        "get_projects_by_years", "get_projects_by_year"]) := by
  unfold datePass at h
  try simp at h
  try dsimp only at h
  cases hmr : DateCalculator.parse_month_range q with
  | some se =>
    obtain ⟨s, e⟩ := se
    rw [hmr] at h
    try simp at h
    try dsimp only at h
    cases hsq : DateCalculator.parse_specific_quarter q with
    | some yq =>
      obtain ⟨y, qn⟩ := yq
      rw [hsq] at h
      try simp at h
      try dsimp only at h
      cases hmy : DateCalculator.parse_multiple_years q with
      | some ys =>
        rw [hmy] at h
        try simp at h
        try dsimp only at h
        repeat'
          (first
            | (dsimp only at h)
            | (simp at h)
            | (split at h))
        all_goals
          first
          | ((try simp only [Except.ok.injEq] at h)
             subst h
             try dsimp only
             constructor
             · repeat
                 first
                 | exact ArgsStep.refl _
                 | refine ArgsStep.step_set _ ?_ _ (by decide) (by decide) _
                 | refine ArgsStep.step_erase _ ?_ _ (by decide)
             · first
               | exact Or.inl rfl
               | exact Or.inr (by decide))
          | exact absurd h (by simp)
          | exact absurd (by decide) (by assumption)
          | simp_all
      | none =>
        rw [hmy] at h
        try simp at h
        try dsimp only at h
        all_goals exact absurd h (by simp)
    | none =>
      rw [hsq] at h
      try simp at h
      try dsimp only at h
      cases hmy : DateCalculator.parse_multiple_years q with
      | some ys =>
        rw [hmy] at h
        try simp at h
        try dsimp only at h
        repeat'
          (first
            | (dsimp only at h)
            | (simp at h)
            | (split at h))
        all_goals
          first
          | ((try simp only [Except.ok.injEq] at h)
             subst h
             try dsimp only
             constructor
             · repeat
                 first
                 | exact ArgsStep.refl _
                 | refine ArgsStep.step_set _ ?_ _ (by decide) (by decide) _
                 | refine ArgsStep.step_erase _ ?_ _ (by decide)
             · first
               | exact Or.inl rfl
               | exact Or.inr (by decide))
          | exact absurd h (by simp)
          | exact absurd (by decide) (by assumption)
          | simp_all
      | none =>
        rw [hmy] at h
        try simp at h
        try dsimp only at h
        all_goals exact absurd h (by simp)
  | none =>
    rw [hmr] at h
    try simp at h
    try dsimp only at h
    cases hrr : DateCalculator.parse_relative_date today q with
    | some se2 =>
      obtain ⟨s2, e2⟩ := se2
      rw [hrr] at h
      try simp at h
      try dsimp only at h
      cases hsq : DateCalculator.parse_specific_quarter q with
      | some yq =>
        obtain ⟨y, qn⟩ := yq
        rw [hsq] at h
        try simp at h
        try dsimp only at h
        cases hmy : DateCalculator.parse_multiple_years q with
        | some ys =>
          rw [hmy] at h
          try simp at h
          try dsimp only at h
          repeat'
            (first
              | (dsimp only at h)
              | (simp at h)
              | (split at h))
          all_goals
            first
            | ((try simp only [Except.ok.injEq] at h)
               subst h
               try dsimp only
               constructor
               · repeat
                   first
                   | exact ArgsStep.refl _
                   | refine ArgsStep.step_set _ ?_ _ (by decide) (by decide) _
                   | refine ArgsStep.step_erase _ ?_ _ (by decide)
               · first
                 | exact Or.inl rfl
                 | exact Or.inr (by decide))
            | exact absurd h (by simp)
            | exact absurd (by decide) (by assumption)
            | simp_all
        | none =>
          rw [hmy] at h
          try simp at h
          try dsimp only at h
          repeat'
            (first
              | (dsimp only at h)
              | (simp at h)
              | (split at h))
          all_goals
            first
            | ((try simp only [Except.ok.injEq] at h)
               subst h
               try dsimp only
               constructor
               · repeat
                   first
                   | exact ArgsStep.refl _
                   | refine ArgsStep.step_set _ ?_ _ (by decide) (by decide) _
                   | refine ArgsStep.step_erase _ ?_ _ (by decide)
               · first
                 | exact Or.inl rfl
                 | exact Or.inr (by decide))
            | exact absurd h (by simp)
            | exact absurd (by decide) (by assumption)
            | simp_all
      | none =>
        rw [hsq] at h
        try simp at h
        try dsimp only at h
        cases hmy : DateCalculator.parse_multiple_years q with
        | some ys =>
          rw [hmy] at h
          try simp at h
          try dsimp only at h
          repeat'
            (first
              | (dsimp only at h)
              | (simp at h)
              | (split at h))
          all_goals
            first
            | ((try simp only [Except.ok.injEq] at h)
               subst h
               try dsimp only
               constructor
               · repeat
                   first
                   | exact ArgsStep.refl _
                   | refine ArgsStep.step_set _ ?_ _ (by decide) (by decide) _
                   | refine ArgsStep.step_erase _ ?_ _ (by decide)
               · first
                 | exact Or.inl rfl
                 | exact Or.inr (by decide))
            | exact absurd h (by simp)
            | exact absurd (by decide) (by assumption)
            | simp_all
        | none =>
          rw [hmy] at h
          try simp at h
          try dsimp only at h
          repeat'
            (first
              | (dsimp only at h)
              | (simp at h)
              | (split at h))
          all_goals
            first
            | ((try simp only [Except.ok.injEq] at h)
               subst h
               try dsimp only
               constructor
               · repeat
                   first
                   | exact ArgsStep.refl _
                   | refine ArgsStep.step_set _ ?_ _ (by decide) (by decide) _
                   | refine ArgsStep.step_erase _ ?_ _ (by decide)
               · first
                 | exact Or.inl rfl
                 | exact Or.inr (by decide))
            | exact absurd h (by simp)
            | exact absurd (by decide) (by assumption)
            | simp_all
    | none =>
      rw [hrr] at h
      try simp at h
      try dsimp only at h
      cases hsq : DateCalculator.parse_specific_quarter q with
      | some yq =>
        obtain ⟨y, qn⟩ := yq
        rw [hsq] at h
        try simp at h
        try dsimp only at h
        cases hmy : DateCalculator.parse_multiple_years q with
        | some ys =>
          rw [hmy] at h
          try simp at h
          try dsimp only at h
          repeat'
            (first
              | (dsimp only at h)
              | (simp at h)
              | (split at h))
          all_goals
            first
            | ((try simp only [Except.ok.injEq] at h)
               subst h
               try dsimp only
               constructor
               · repeat
                   first
                   | exact ArgsStep.refl _
                   | refine ArgsStep.step_set _ ?_ _ (by decide) (by decide) _
                   | refine ArgsStep.step_erase _ ?_ _ (by decide)
               · first
                 | exact Or.inl rfl
                 | exact Or.inr (by decide))
            | exact absurd h (by simp)
            | exact absurd (by decide) (by assumption)
            | simp_all
        | none =>
          rw [hmy] at h
          try simp at h
          try dsimp only at h
          cases hsy : DateCalculator.parse_specific_year q with
          | some y2 =>
            rw [hsy] at h
            try simp at h
            try dsimp only at h
            repeat'
              (first
                | (dsimp only at h)
                | (simp at h)
                | (split at h))
            all_goals
              first
              | ((try simp only [Except.ok.injEq] at h)
                 subst h
                 try dsimp only
                 constructor
                 · repeat
                     first
                     | exact ArgsStep.refl _
                     | refine ArgsStep.step_set _ ?_ _ (by decide) (by decide) _
                     | refine ArgsStep.step_erase _ ?_ _ (by decide)
                 · first
                   | exact Or.inl rfl
                   | exact Or.inr (by decide))
              | exact absurd h (by simp)
              | exact absurd (by decide) (by assumption)
              | simp_all
          | none =>
            rw [hsy] at h
            try simp at h
            try dsimp only at h
            repeat'
              (first
                | (dsimp only at h)
                | (simp at h)
                | (split at h))
            all_goals
              first
              | ((try simp only [Except.ok.injEq] at h)
                 subst h
                 try dsimp only
                 constructor
                 · repeat
                     first
                     | exact ArgsStep.refl _
                     | refine ArgsStep.step_set _ ?_ _ (by decide) (by decide) _
                     | refine ArgsStep.step_erase _ ?_ _ (by decide)
                 · first
                   | exact Or.inl rfl
                   | exact Or.inr (by decide))
              | exact absurd h (by simp)
              | exact absurd (by decide) (by assumption)
              | simp_all
      | none =>
        rw [hsq] at h
        try simp at h
        try dsimp only at h
        cases hmy : DateCalculator.parse_multiple_years q with
        | some ys =>
          rw [hmy] at h
          try simp at h
          try dsimp only at h
          repeat'
            (first
              | (dsimp only at h)
              | (simp at h)
              | (split at h))
          all_goals
            first
            | ((try simp only [Except.ok.injEq] at h)
               subst h
               try dsimp only
               constructor
               · repeat
                   first
                   | exact ArgsStep.refl _
                   | refine ArgsStep.step_set _ ?_ _ (by decide) (by decide) _
                   | refine ArgsStep.step_erase _ ?_ _ (by decide)
               · first
                 | exact Or.inl rfl
                 | exact Or.inr (by decide))
            | exact absurd h (by simp)
            | exact absurd (by decide) (by assumption)
            | simp_all
        | none =>
          rw [hmy] at h
          try simp at h
          try dsimp only at h
          cases hsy : DateCalculator.parse_specific_year q with
          | some y2 =>
            rw [hsy] at h
            try simp at h
            try dsimp only at h
            repeat'
              (first
                | (dsimp only at h)
                | (simp at h)
                | (split at h))
            all_goals
              first
              | ((try simp only [Except.ok.injEq] at h)
                 subst h
                 try dsimp only
                 constructor
                 · repeat
                     first
                     | exact ArgsStep.refl _
                     | refine ArgsStep.step_set _ ?_ _ (by decide) (by decide) _
                     | refine ArgsStep.step_erase _ ?_ _ (by decide)
                 · first
                   | exact Or.inl rfl
                   | exact Or.inr (by decide))
              | exact absurd h (by simp)
              | exact absurd (by decide) (by assumption)
              | simp_all
          | none =>
            rw [hsy] at h
            try simp at h
            try dsimp only at h
            try simp only [Except.ok.injEq] at h
            subst h
            exact ⟨ArgsStep.refl _, Or.inl rfl⟩


set_option maxHeartbeats 2000000 in
/-- Running the date pass again on the pipeline output (whose arguments
agree with the date pass output on all date keys, and whose function is
either the date-pass output function or a fee-range rename of an
unprotected one) changes nothing but possibly the function name, which the
fee pass then restores: the arguments are returned untouched, a preserved
function is reproduced exactly, and an unprotected function stays
unprotected. -/
theorem datePass_rerun (today : Date) (q : String) (c4 c5 : Classification)
    (h : datePass today q c4 = .ok c5)
    (fn' : String) (a' : Args)
    (hfn : fn' = c5.function_name ∨
      (¬ c5.function_name ∈ feeProtected ∧
        (fn' = "get_projects_by_client_and_fee_range" ∨
         fn' = "get_projects_by_fee_range")))
    (ha : ∀ k, k ∈ dateKeys → a'.get k = c5.arguments.get k)
    (hys : YearStable today q ⟨fn', a'⟩) :
    ∃ fn2, datePass today q ⟨fn', a'⟩ = .ok ⟨fn2, a'⟩ ∧
      (fn' = c5.function_name → fn2 = c5.function_name) ∧
      (¬ c5.function_name ∈ feeProtected → ¬ fn2 ∈ feeProtected) := by
  have hsd := ha "start_date" (by decide)
  have hed := ha "end_date" (by decide)
  have hyr := ha "year" (by decide)
  have hqt := ha "quarter" (by decide)
  have hy1 := ha "year1" (by decide)
  have hy2 := ha "year2" (by decide)
  have hyy := ha "years" (by decide)
  have hsy2 := ha "start_year" (by decide)
  have hey2 := ha "end_year" (by decide)
  have htr2 := ha "time_reference" (by decide)
  clear ha
  unfold datePass at h ⊢
  dsimp only at h ⊢
  cases hmr : DateCalculator.parse_month_range q with
  | some se =>
    obtain ⟨s, e⟩ := se
    rw [hmr] at h
    try simp only [Option.isSome_some, eq_self_iff_true, if_true] at h
    try simp only [Option.isSome_some, eq_self_iff_true, if_true]
    try dsimp only at h
    try dsimp only
    cases hmy : DateCalculator.parse_multiple_years q with
    | none =>
      rw [hmy] at h
      dsimp only at h
      exact absurd h (by simp)
    | some ys =>
      rw [hmy] at h
      dsimp only at h
      try dsimp only
      cases hsq : DateCalculator.parse_specific_quarter q with
      | some yq =>
        obtain ⟨y, qn⟩ := yq
        rw [hsq] at h
        dsimp only at h
        try dsimp only
        by_cases hcomb : c4.function_name = "get_projects_by_combined_filters"
        · have hfnMeq : (if c4.function_name ∈ monthProtected then
              c4.function_name else "get_projects_by_date_range") =
              c4.function_name := if_pos (by rw [hcomb]; decide)
          rw [hfnMeq] at h
          rw [if_neg (show ¬(c4.function_name ≠ "get_projects_by_combined_filters") from by simp [hcomb])] at h
          dsimp only at h
          rw [if_neg (show ¬(c4.function_name ≠ "get_projects_by_combined_filters") from by simp [hcomb]), if_neg (show ¬(c4.function_name ≠ "get_projects_by_combined_filters") from by simp [hcomb]),
            ite_self] at h
          simp only [Except.ok.injEq] at h
          subst h
          simp only [Args.get_set, String.reduceEq, reduceIte] at hsd hed
          dsimp only at hfn
          rcases hfn with rfl | ⟨hnp, hf⟩
          · rw [hfnMeq]
            rw [if_neg (show ¬(c4.function_name ≠ "get_projects_by_combined_filters") from by simp [hcomb])]
            dsimp only
            rw [if_neg (show ¬(c4.function_name ≠ "get_projects_by_combined_filters") from by simp [hcomb]), if_neg (show ¬(c4.function_name ≠ "get_projects_by_combined_filters") from by simp [hcomb]),
              ite_self]
            rw [Args.set_same _ hsd, Args.set_same _ hed]
            exact ⟨c4.function_name, rfl, fun _ => rfl,
              fun hn => absurd (by rw [hcomb]; decide) hn⟩
          · exact absurd (by rw [hcomb]; decide) hnp
        · have hfnMne : (if c4.function_name ∈ monthProtected then
              c4.function_name else "get_projects_by_date_range") ≠
              "get_projects_by_combined_filters" := by
            by_cases hmp : c4.function_name ∈ monthProtected
            · rw [if_pos hmp]; exact hcomb
            · rw [if_neg hmp]; decide
          rw [if_pos hfnMne] at h
          dsimp only at h
          rw [if_pos (by decide : ("get_projects_by_quarter" : String) ≠
              "get_projects_by_combined_filters"),
            if_pos (by decide : ("get_projects_by_quarter" : String) ≠
              "get_projects_by_combined_filters")] at h
          cases hcc : (decide (ys.length = 2) &&
              containsAnyWord ["compare", "vs", "versus"] (lcs q)) with
          | true =>
            rw [hcc, if_pos rfl] at h
            simp only [Except.ok.injEq] at h
            subst h
            dsimp only at hfn
            simp only [Args.get_set, String.reduceEq, reduceIte] at hsd hed hyr hqt hy1 hy2
            have hf'nm : ¬ fn' ∈ monthProtected := by
              rcases hfn with rfl | ⟨hnp, hf | hf⟩ <;>
                first | decide | (subst hf; decide)
            rw [if_pos (show (if fn' ∈ monthProtected then fn'
                else "get_projects_by_date_range") ≠
                "get_projects_by_combined_filters" by
              rw [if_neg hf'nm]; decide)]
            dsimp only
            rw [if_pos (by decide : ("get_projects_by_quarter" : String) ≠
                "get_projects_by_combined_filters"),
              if_pos (by decide : ("get_projects_by_quarter" : String) ≠
                "get_projects_by_combined_filters")]
            rw [if_pos rfl]
            rw [Args.set_same _ hsd, Args.set_same _ hed,
              Args.set_same _ hyr, Args.set_same _ hqt,
              Args.set_same _ hy1, Args.set_same _ hy2]
            exact ⟨"compare_years", rfl, fun _ => rfl, fun _ => by decide⟩
          | false =>
            rw [hcc, if_neg (by simp)] at h
            simp only [Except.ok.injEq] at h
            subst h
            dsimp only at hfn
            simp only [Args.get_set, String.reduceEq, reduceIte] at hsd hed hyr hqt hyy
            have hf'nm : ¬ fn' ∈ monthProtected := by
              rcases hfn with rfl | ⟨hnp, hf | hf⟩ <;>
                first | decide | (subst hf; decide)
            rw [if_pos (show (if fn' ∈ monthProtected then fn'
                else "get_projects_by_date_range") ≠
                "get_projects_by_combined_filters" by
              rw [if_neg hf'nm]; decide)]
            dsimp only
            rw [if_pos (by decide : ("get_projects_by_quarter" : String) ≠
                "get_projects_by_combined_filters"),
              if_pos (by decide : ("get_projects_by_quarter" : String) ≠
                "get_projects_by_combined_filters")]
            rw [if_neg (by simp)]
            rw [Args.set_same _ hsd, Args.set_same _ hed,
              Args.set_same _ hyr, Args.set_same _ hqt,
              Args.set_same _ hyy]
            exact ⟨"get_projects_by_years", rfl, fun _ => rfl,
              fun _ => by decide⟩
      | none =>
        rw [hsq] at h
        dsimp only at h
        try dsimp only
        by_cases hcomb : c4.function_name = "get_projects_by_combined_filters"
        · have hfnMeq : (if c4.function_name ∈ monthProtected then
              c4.function_name else "get_projects_by_date_range") =
              c4.function_name := if_pos (by rw [hcomb]; decide)
          rw [hfnMeq] at h
          try dsimp only at h
          rw [if_neg (show ¬(c4.function_name ≠ "get_projects_by_combined_filters") from by simp [hcomb]), if_neg (show ¬(c4.function_name ≠ "get_projects_by_combined_filters") from by simp [hcomb]),
            ite_self] at h
          simp only [Except.ok.injEq] at h
          subst h
          simp only [Args.get_set, String.reduceEq, reduceIte] at hsd hed
          dsimp only at hfn
          rcases hfn with rfl | ⟨hnp, hf⟩
          · rw [hfnMeq]
            dsimp only
            rw [if_neg (show ¬(c4.function_name ≠ "get_projects_by_combined_filters") from by simp [hcomb]), if_neg (show ¬(c4.function_name ≠ "get_projects_by_combined_filters") from by simp [hcomb]),
              ite_self]
            rw [Args.set_same _ hsd, Args.set_same _ hed]
            exact ⟨c4.function_name, rfl, fun _ => rfl,
              fun hn => absurd (by rw [hcomb]; decide) hn⟩
          · exact absurd (by rw [hcomb]; decide) hnp
        · have hfnMne : (if c4.function_name ∈ monthProtected then
              c4.function_name else "get_projects_by_date_range") ≠
              "get_projects_by_combined_filters" := by
            by_cases hmp : c4.function_name ∈ monthProtected
            · rw [if_pos hmp]; exact hcomb
            · rw [if_neg hmp]; decide
          rw [if_pos hfnMne, if_pos hfnMne] at h
          cases hcc : (decide (ys.length = 2) &&
              containsAnyWord ["compare", "vs", "versus"] (lcs q)) with
          | true =>
            rw [hcc, if_pos rfl] at h
            simp only [Except.ok.injEq] at h
            subst h
            dsimp only at hfn
            simp only [Args.get_set, String.reduceEq, reduceIte] at hsd hed hy1 hy2
            have hf'nm : ¬ fn' ∈ monthProtected := by
              rcases hfn with rfl | ⟨hnp, hf | hf⟩ <;>
                first | decide | (subst hf; decide)
            have hfnM'ne : (if fn' ∈ monthProtected then fn'
                else "get_projects_by_date_range") ≠
                "get_projects_by_combined_filters" := by
              rw [if_neg hf'nm]; decide
            rw [if_pos hfnM'ne, if_pos hfnM'ne]
            rw [if_pos rfl]
            rw [Args.set_same _ hsd, Args.set_same _ hed,
              Args.set_same _ hy1, Args.set_same _ hy2]
            exact ⟨"compare_years", rfl, fun _ => rfl, fun _ => by decide⟩
          | false =>
            rw [hcc, if_neg (by simp)] at h
            simp only [Except.ok.injEq] at h
            subst h
            dsimp only at hfn
            simp only [Args.get_set, String.reduceEq, reduceIte] at hsd hed hyy
            have hf'nm : ¬ fn' ∈ monthProtected := by
              rcases hfn with rfl | ⟨hnp, hf | hf⟩ <;>
                first | decide | (subst hf; decide)
            have hfnM'ne : (if fn' ∈ monthProtected then fn'
                else "get_projects_by_date_range") ≠
                "get_projects_by_combined_filters" := by
              rw [if_neg hf'nm]; decide
            rw [if_pos hfnM'ne, if_pos hfnM'ne]
            rw [if_neg (by simp)]
            rw [Args.set_same _ hsd, Args.set_same _ hed,
              Args.set_same _ hyy]
            exact ⟨"get_projects_by_years", rfl, fun _ => rfl,
              fun _ => by decide⟩
  | none =>
    rw [hmr] at h
    try simp only [Option.isSome_none, Bool.false_eq_true, if_false] at h
    try simp only [Option.isSome_none, Bool.false_eq_true, if_false]
    try dsimp only at h
    try dsimp only
    cases hrr : DateCalculator.parse_relative_date today q with
    | some se2 =>
      obtain ⟨s2, e2⟩ := se2
      rw [hrr] at h
      try simp only [Option.isNone_some, Option.isNone_none,
        Bool.false_eq_true, false_and, if_false] at h
      try simp only [Option.isNone_some, Option.isNone_none,
        Bool.false_eq_true, false_and, if_false]
      try dsimp only at h
      try dsimp only
      cases hsq : DateCalculator.parse_specific_quarter q with
      | some yq =>
        obtain ⟨y, qn⟩ := yq
        rw [hsq] at h
        try dsimp only at h
        try dsimp only
        cases hmy : DateCalculator.parse_multiple_years q with
        | some ys =>
          rw [hmy] at h
          try dsimp only at h
          try dsimp only
          by_cases hcomb :
            c4.function_name = "get_projects_by_combined_filters"
          · have hfnReq : (if c4.function_name ∈ relProtected then
                c4.function_name
                else if rankingWords3 (lcs q) = true then
                  "get_largest_projects"
                else "get_projects_by_date_range") = c4.function_name :=
              if_pos (by rw [hcomb]; decide)
            rw [hfnReq] at h
            rw [if_neg (show ¬(c4.function_name ≠
              "get_projects_by_combined_filters") from by simp [hcomb])] at h
            try dsimp only at h
            rw [if_neg (show ¬(c4.function_name ≠
                "get_projects_by_combined_filters") from by simp [hcomb]),
              if_neg (show ¬(c4.function_name ≠
                "get_projects_by_combined_filters") from by simp [hcomb]),
              ite_self] at h
            simp only [Except.ok.injEq] at h
            subst h
            dsimp only at hfn
            simp only [Args.get_set, Args.get_erase, String.reduceEq,
              reduceIte] at hsd hed hsy2 hey2 htr2
            rcases hfn with rfl | ⟨hnp, hf⟩
            · rw [hfnReq]
              rw [if_neg (show ¬(c4.function_name ≠
                "get_projects_by_combined_filters") from by simp [hcomb])]
              dsimp only
              rw [if_neg (show ¬(c4.function_name ≠
                  "get_projects_by_combined_filters") from by simp [hcomb]),
                if_neg (show ¬(c4.function_name ≠
                  "get_projects_by_combined_filters") from by simp [hcomb]),
                ite_self]
              rw [Args.set_same _ hsd, Args.set_same _ hed,
                Args.erase_absent _ hsy2, Args.erase_absent _ hey2,
                Args.erase_absent _ htr2]
              exact ⟨c4.function_name, rfl, fun _ => rfl,
                fun hn => absurd (by rw [hcomb]; decide) hn⟩
            · exact absurd (by rw [hcomb]; decide) hnp
          · have hfnRne : (if c4.function_name ∈ relProtected then
                c4.function_name
                else if rankingWords3 (lcs q) = true then
                  "get_largest_projects"
                else "get_projects_by_date_range") ≠
                "get_projects_by_combined_filters" := by
              by_cases hrp : c4.function_name ∈ relProtected
              · rw [if_pos hrp]; exact hcomb
              · rw [if_neg hrp]; split <;> decide
            rw [if_pos hfnRne] at h
            try dsimp only at h
            rw [if_pos (by decide : ("get_projects_by_quarter" : String) ≠
                "get_projects_by_combined_filters"),
              if_pos (by decide : ("get_projects_by_quarter" : String) ≠
                "get_projects_by_combined_filters")] at h
            cases hcc : (decide (ys.length = 2) &&
                containsAnyWord ["compare", "vs", "versus"] (lcs q)) with
            | true =>
              rw [hcc, if_pos rfl] at h
              simp only [Except.ok.injEq] at h
              subst h
              dsimp only at hfn
              simp only [Args.get_set, Args.get_erase, String.reduceEq,
                reduceIte] at hsd hed hyr hqt hy1 hy2 hsy2 hey2 htr2
              have hf'nr : ¬ fn' ∈ relProtected := by
                rcases hfn with rfl | ⟨hnp, hf | hf⟩ <;>
                  first | decide | (subst hf; decide)
              have hfnR'ne : (if fn' ∈ relProtected then fn'
                  else if rankingWords3 (lcs q) = true then
                    "get_largest_projects"
                  else "get_projects_by_date_range") ≠
                  "get_projects_by_combined_filters" := by
                rw [if_neg hf'nr]; split <;> decide
              rw [if_pos hfnR'ne]
              dsimp only
              rw [if_pos (by decide :
                  ("get_projects_by_quarter" : String) ≠
                  "get_projects_by_combined_filters"),
                if_pos (by decide :
                  ("get_projects_by_quarter" : String) ≠
                  "get_projects_by_combined_filters")]
              rw [if_pos rfl]
              rw [Args.set_same _ hsd, Args.set_same _ hed,
                Args.erase_absent _ hsy2, Args.erase_absent _ hey2,
                Args.erase_absent _ htr2, Args.set_same _ hyr,
                Args.set_same _ hqt, Args.set_same _ hy1,
                Args.set_same _ hy2]
              exact ⟨"compare_years", rfl, fun _ => rfl, fun _ => by decide⟩
            | false =>
              rw [hcc, if_neg (by simp)] at h
              simp only [Except.ok.injEq] at h
              subst h
              dsimp only at hfn
              simp only [Args.get_set, Args.get_erase, String.reduceEq,
                reduceIte] at hsd hed hyr hqt hyy hsy2 hey2 htr2
              have hf'nr : ¬ fn' ∈ relProtected := by
                rcases hfn with rfl | ⟨hnp, hf | hf⟩ <;>
                  first | decide | (subst hf; decide)
              have hfnR'ne : (if fn' ∈ relProtected then fn'
                  else if rankingWords3 (lcs q) = true then
                    "get_largest_projects"
                  else "get_projects_by_date_range") ≠
                  "get_projects_by_combined_filters" := by
                rw [if_neg hf'nr]; split <;> decide
              rw [if_pos hfnR'ne]
              dsimp only
              rw [if_pos (by decide :
                  ("get_projects_by_quarter" : String) ≠
                  "get_projects_by_combined_filters"),
                if_pos (by decide :
                  ("get_projects_by_quarter" : String) ≠
                  "get_projects_by_combined_filters")]
              rw [if_neg (by simp)]
              rw [Args.set_same _ hsd, Args.set_same _ hed,
                Args.erase_absent _ hsy2, Args.erase_absent _ hey2,
                Args.erase_absent _ htr2, Args.set_same _ hyr,
                Args.set_same _ hqt, Args.set_same _ hyy]
              exact ⟨"get_projects_by_years", rfl, fun _ => rfl,
                fun _ => by decide⟩
        | none =>
          rw [hmy] at h
          try dsimp only at h
          try dsimp only
          by_cases hcomb :
            c4.function_name = "get_projects_by_combined_filters"
          · have hfnReq : (if c4.function_name ∈ relProtected then
                c4.function_name
                else if rankingWords3 (lcs q) = true then
                  "get_largest_projects"
                else "get_projects_by_date_range") = c4.function_name :=
              if_pos (by rw [hcomb]; decide)
            rw [hfnReq] at h
            rw [if_neg (show ¬(c4.function_name ≠
              "get_projects_by_combined_filters") from by simp [hcomb])] at h
            simp only [Except.ok.injEq] at h
            subst h
            dsimp only at hfn
            simp only [Args.get_set, Args.get_erase, String.reduceEq,
              reduceIte] at hsd hed hsy2 hey2 htr2
            rcases hfn with rfl | ⟨hnp, hf⟩
            · rw [hfnReq]
              rw [if_neg (show ¬(c4.function_name ≠
                "get_projects_by_combined_filters") from by simp [hcomb])]
              rw [Args.set_same _ hsd, Args.set_same _ hed,
                Args.erase_absent _ hsy2, Args.erase_absent _ hey2,
                Args.erase_absent _ htr2]
              exact ⟨c4.function_name, rfl, fun _ => rfl,
                fun hn => absurd (by rw [hcomb]; decide) hn⟩
            · exact absurd (by rw [hcomb]; decide) hnp
          · have hfnRne : (if c4.function_name ∈ relProtected then
                c4.function_name
                else if rankingWords3 (lcs q) = true then
                  "get_largest_projects"
                else "get_projects_by_date_range") ≠
                "get_projects_by_combined_filters" := by
              by_cases hrp : c4.function_name ∈ relProtected
              · rw [if_pos hrp]; exact hcomb
              · rw [if_neg hrp]; split <;> decide
            rw [if_pos hfnRne] at h
            simp only [Except.ok.injEq] at h
            subst h
            dsimp only at hfn
            simp only [Args.get_set, Args.get_erase, String.reduceEq,
              reduceIte] at hsd hed hyr hqt hsy2 hey2 htr2
            have hf'nr : ¬ fn' ∈ relProtected := by
              rcases hfn with rfl | ⟨hnp, hf | hf⟩ <;>
                first | decide | (subst hf; decide)
            have hfnR'ne : (if fn' ∈ relProtected then fn'
                else if rankingWords3 (lcs q) = true then
                  "get_largest_projects"
                else "get_projects_by_date_range") ≠
                "get_projects_by_combined_filters" := by
              rw [if_neg hf'nr]; split <;> decide
            rw [if_pos hfnR'ne]
            dsimp only
            rw [Args.set_same _ hsd, Args.set_same _ hed,
              Args.erase_absent _ hsy2, Args.erase_absent _ hey2,
              Args.erase_absent _ htr2, Args.set_same _ hyr,
              Args.set_same _ hqt]
            exact ⟨"get_projects_by_quarter", rfl, fun _ => rfl,
              fun _ => by decide⟩
      | none =>
        rw [hsq] at h
        try dsimp only at h
        try dsimp only
        cases hmy : DateCalculator.parse_multiple_years q with
        | some ys =>
          rw [hmy] at h
          try dsimp only at h
          try dsimp only
          by_cases hcomb :
            c4.function_name = "get_projects_by_combined_filters"
          · have hfnReq : (if c4.function_name ∈ relProtected then
                c4.function_name
                else if rankingWords3 (lcs q) = true then
                  "get_largest_projects"
                else "get_projects_by_date_range") = c4.function_name :=
              if_pos (by rw [hcomb]; decide)
            rw [hfnReq] at h
            rw [if_neg (show ¬(c4.function_name ≠
                "get_projects_by_combined_filters") from by simp [hcomb]),
              if_neg (show ¬(c4.function_name ≠
                "get_projects_by_combined_filters") from by simp [hcomb]),
              ite_self] at h
            simp only [Except.ok.injEq] at h
            subst h
            dsimp only at hfn
            simp only [Args.get_set, Args.get_erase, String.reduceEq,
              reduceIte] at hsd hed hsy2 hey2 htr2
            rcases hfn with rfl | ⟨hnp, hf⟩
            · rw [hfnReq]
              rw [if_neg (show ¬(c4.function_name ≠
                  "get_projects_by_combined_filters") from by simp [hcomb]),
                if_neg (show ¬(c4.function_name ≠
                  "get_projects_by_combined_filters") from by simp [hcomb]),
                ite_self]
              rw [Args.set_same _ hsd, Args.set_same _ hed,
                Args.erase_absent _ hsy2, Args.erase_absent _ hey2,
                Args.erase_absent _ htr2]
              exact ⟨c4.function_name, rfl, fun _ => rfl,
                fun hn => absurd (by rw [hcomb]; decide) hn⟩
            · exact absurd (by rw [hcomb]; decide) hnp
          · have hfnRne : (if c4.function_name ∈ relProtected then
                c4.function_name
                else if rankingWords3 (lcs q) = true then
                  "get_largest_projects"
                else "get_projects_by_date_range") ≠
                "get_projects_by_combined_filters" := by
              by_cases hrp : c4.function_name ∈ relProtected
              · rw [if_pos hrp]; exact hcomb
              · rw [if_neg hrp]; split <;> decide
            rw [if_pos hfnRne, if_pos hfnRne] at h
            cases hcc : (decide (ys.length = 2) &&
                containsAnyWord ["compare", "vs", "versus"] (lcs q)) with
            | true =>
              rw [hcc, if_pos rfl] at h
              simp only [Except.ok.injEq] at h
              subst h
              dsimp only at hfn
              simp only [Args.get_set, Args.get_erase, String.reduceEq,
                reduceIte] at hsd hed hy1 hy2 hsy2 hey2 htr2
              have hf'nr : ¬ fn' ∈ relProtected := by
                rcases hfn with rfl | ⟨hnp, hf | hf⟩ <;>
                  first | decide | (subst hf; decide)
              have hfnR'ne : (if fn' ∈ relProtected then fn'
                  else if rankingWords3 (lcs q) = true then
                    "get_largest_projects"
                  else "get_projects_by_date_range") ≠
                  "get_projects_by_combined_filters" := by
                rw [if_neg hf'nr]; split <;> decide
              rw [if_pos hfnR'ne, if_pos hfnR'ne]
              rw [if_pos rfl]
              rw [Args.set_same _ hsd, Args.set_same _ hed,
                Args.erase_absent _ hsy2, Args.erase_absent _ hey2,
                Args.erase_absent _ htr2, Args.set_same _ hy1,
                Args.set_same _ hy2]
              exact ⟨"compare_years", rfl, fun _ => rfl, fun _ => by decide⟩
            | false =>
              rw [hcc, if_neg (by simp)] at h
              simp only [Except.ok.injEq] at h
              subst h
              dsimp only at hfn
              simp only [Args.get_set, Args.get_erase, String.reduceEq,
                reduceIte] at hsd hed hyy hsy2 hey2 htr2
              have hf'nr : ¬ fn' ∈ relProtected := by
                rcases hfn with rfl | ⟨hnp, hf | hf⟩ <;>
                  first | decide | (subst hf; decide)
              have hfnR'ne : (if fn' ∈ relProtected then fn'
                  else if rankingWords3 (lcs q) = true then
                    "get_largest_projects"
                  else "get_projects_by_date_range") ≠
                  "get_projects_by_combined_filters" := by
                rw [if_neg hf'nr]; split <;> decide
              rw [if_pos hfnR'ne, if_pos hfnR'ne]
              rw [if_neg (by simp)]
              rw [Args.set_same _ hsd, Args.set_same _ hed,
                Args.erase_absent _ hsy2, Args.erase_absent _ hey2,
                Args.erase_absent _ htr2, Args.set_same _ hyy]
              exact ⟨"get_projects_by_years", rfl, fun _ => rfl,
                fun _ => by decide⟩
        | none =>
          rw [hmy] at h
          try dsimp only at h
          try dsimp only
          by_cases hcomb :
            c4.function_name = "get_projects_by_combined_filters"
          · have hfnReq : (if c4.function_name ∈ relProtected then
                c4.function_name
                else if rankingWords3 (lcs q) = true then
                  "get_largest_projects"
                else "get_projects_by_date_range") = c4.function_name :=
              if_pos (by rw [hcomb]; decide)
            rw [hfnReq] at h
            simp only [Except.ok.injEq] at h
            subst h
            dsimp only at hfn
            simp only [Args.get_set, Args.get_erase, String.reduceEq,
              reduceIte] at hsd hed hsy2 hey2 htr2
            rcases hfn with rfl | ⟨hnp, hf⟩
            · rw [hfnReq]
              rw [Args.set_same _ hsd, Args.set_same _ hed,
                Args.erase_absent _ hsy2, Args.erase_absent _ hey2,
                Args.erase_absent _ htr2]
              exact ⟨c4.function_name, rfl, fun _ => rfl,
                fun hn => absurd (by rw [hcomb]; decide) hn⟩
            · exact absurd (by rw [hcomb]; decide) hnp
          · by_cases hrp : c4.function_name ∈ relProtected
            · rw [if_pos hrp] at h
              simp only [Except.ok.injEq] at h
              subst h
              dsimp only at hfn
              simp only [Args.get_set, Args.get_erase, String.reduceEq,
                reduceIte] at hsd hed hsy2 hey2 htr2
              rcases hfn with rfl | ⟨hnp, hf⟩
              · rw [if_pos hrp]
                rw [Args.set_same _ hsd, Args.set_same _ hed,
                  Args.erase_absent _ hsy2, Args.erase_absent _ hey2,
                  Args.erase_absent _ htr2]
                exact ⟨c4.function_name, rfl, fun _ => rfl, fun hn => hn⟩
              · have hfp : c4.function_name ∈ feeProtected := by
                  simp only [relProtected, List.mem_cons,
                    List.not_mem_nil, or_false] at hrp
                  rcases hrp with h1 | h1 | h1 <;> (rw [h1]; decide)
                exact absurd hfp hnp
            · rw [if_neg hrp] at h
              cases hrk : rankingWords3 (lcs q) with
              | true =>
                rw [hrk, if_pos rfl] at h
                simp only [Except.ok.injEq] at h
                subst h
                dsimp only at hfn
                simp only [Args.get_set, Args.get_erase, String.reduceEq,
                  reduceIte] at hsd hed hsy2 hey2 htr2
                have hf'nr : ¬ fn' ∈ relProtected := by
                  rcases hfn with rfl | ⟨hnp, hf | hf⟩ <;>
                    first | decide | (subst hf; decide)
                rw [if_neg hf'nr, if_pos rfl]
                rw [Args.set_same _ hsd, Args.set_same _ hed,
                  Args.erase_absent _ hsy2, Args.erase_absent _ hey2,
                  Args.erase_absent _ htr2]
                exact ⟨"get_largest_projects", rfl, fun _ => rfl,
                  fun _ => by decide⟩
              | false =>
                rw [hrk, if_neg (by simp)] at h
                simp only [Except.ok.injEq] at h
                subst h
                dsimp only at hfn
                simp only [Args.get_set, Args.get_erase, String.reduceEq,
                  reduceIte] at hsd hed hsy2 hey2 htr2
                have hf'nr : ¬ fn' ∈ relProtected := by
                  rcases hfn with rfl | ⟨hnp, hf | hf⟩ <;>
                    first | decide | (subst hf; decide)
                rw [if_neg hf'nr, if_neg (by simp)]
                rw [Args.set_same _ hsd, Args.set_same _ hed,
                  Args.erase_absent _ hsy2, Args.erase_absent _ hey2,
                  Args.erase_absent _ htr2]
                exact ⟨"get_projects_by_date_range", rfl, fun _ => rfl,
                  fun _ => by decide⟩
    | none =>
      rw [hrr] at h
      try simp only [Option.isNone_none, eq_self_iff_true, and_self,
        if_true, reduceIte] at h
      try simp only [Option.isNone_none, eq_self_iff_true, and_self,
        if_true, reduceIte]
      try dsimp only at h
      try dsimp only
      cases hsq : DateCalculator.parse_specific_quarter q with
      | some yq =>
        obtain ⟨y, qn⟩ := yq
        rw [hsq] at h
        try dsimp only at h
        try dsimp only
        by_cases hcomb :
          c4.function_name = "get_projects_by_combined_filters"
        · rw [if_neg (show ¬(c4.function_name ≠
            "get_projects_by_combined_filters") from by simp [hcomb])] at h
          try dsimp only at h
          cases hmy : DateCalculator.parse_multiple_years q with
          | some ys =>
            rw [hmy] at h
            try dsimp only at h
            try dsimp only
            rw [if_neg (show ¬(c4.function_name ≠
                "get_projects_by_combined_filters") from by simp [hcomb]),
              if_neg (show ¬(c4.function_name ≠
                "get_projects_by_combined_filters") from by simp [hcomb]),
              ite_self] at h
            simp only [Except.ok.injEq] at h
            subst h
            rcases hfn with rfl | ⟨hnp, hf⟩
            · rw [if_neg (show ¬(c4.function_name ≠
                "get_projects_by_combined_filters") from by simp [hcomb])]
              dsimp only
              rw [if_neg (show ¬(c4.function_name ≠
                  "get_projects_by_combined_filters") from by simp [hcomb]),
                if_neg (show ¬(c4.function_name ≠
                  "get_projects_by_combined_filters") from by simp [hcomb]),
                ite_self]
              exact ⟨c4.function_name, rfl, fun _ => rfl,
                fun hn => absurd (by rw [hcomb]; decide) hn⟩
            · exact absurd (by rw [hcomb]; decide) hnp
          | none =>
            rw [hmy] at h
            try dsimp only at h
            try dsimp only
            cases hsy : DateCalculator.parse_specific_year q with
            | some y2 =>
              rw [hsy] at h
              try dsimp only at h
              try dsimp only
              cases hrk : rankingWords3 (lcs q) with
              | true =>
                rw [hrk, if_pos rfl] at h
                rw [if_pos (show c4.function_name ∈ yearRankingSet from by
                  rw [hcomb]; decide)] at h
                simp only [Except.ok.injEq] at h
                subst h
                dsimp only at hfn
                simp only [Args.get_set, String.reduceEq, reduceIte]
                  at hsy2 hey2
                rcases hfn with rfl | ⟨hnp, hf⟩
                · rw [if_neg (show ¬(c4.function_name ≠
                    "get_projects_by_combined_filters") from by
                      simp [hcomb])]
                  dsimp only
                  rw [if_pos rfl]
                  rw [if_pos (show c4.function_name ∈ yearRankingSet from by
                    rw [hcomb]; decide)]
                  rw [Args.set_same _ hsy2, Args.set_same _ hey2]
                  exact ⟨c4.function_name, rfl, fun _ => rfl,
                    fun hn => absurd (by rw [hcomb]; decide) hn⟩
                · exact absurd (by rw [hcomb]; decide) hnp
              | false =>
                rw [hrk, if_neg (by simp)] at h
                rw [if_neg (show ¬(c4.function_name ∉ yearPlainExcluded)
                  from by rw [hcomb]; decide)] at h
                simp only [Except.ok.injEq] at h
                subst h
                rcases hfn with rfl | ⟨hnp, hf⟩
                · rw [if_neg (show ¬(c4.function_name ≠
                    "get_projects_by_combined_filters") from by
                      simp [hcomb])]
                  dsimp only
                  rw [if_neg (by simp)]
                  rw [if_neg (show ¬(c4.function_name ∉ yearPlainExcluded)
                    from by rw [hcomb]; decide)]
                  exact ⟨c4.function_name, rfl, fun _ => rfl,
                    fun hn => absurd (by rw [hcomb]; decide) hn⟩
                · exact absurd (by rw [hcomb]; decide) hnp
            | none =>
              rw [hsy] at h
              try dsimp only at h
              try dsimp only
              simp only [Except.ok.injEq] at h
              subst h
              rcases hfn with rfl | ⟨hnp, hf⟩
              · rw [if_neg (show ¬(c4.function_name ≠
                  "get_projects_by_combined_filters") from by simp [hcomb])]
                exact ⟨c4.function_name, rfl, fun _ => rfl,
                  fun hn => absurd (by rw [hcomb]; decide) hn⟩
              · exact absurd (by rw [hcomb]; decide) hnp
        · rw [if_pos hcomb] at h
          try dsimp only at h
          cases hmy : DateCalculator.parse_multiple_years q with
          | some ys =>
            rw [hmy] at h
            try dsimp only at h
            try dsimp only
            rw [if_pos (by decide : ("get_projects_by_quarter" : String) ≠
                "get_projects_by_combined_filters"),
              if_pos (by decide : ("get_projects_by_quarter" : String) ≠
                "get_projects_by_combined_filters")] at h
            cases hcc : (decide (ys.length = 2) &&
                containsAnyWord ["compare", "vs", "versus"] (lcs q)) with
            | true =>
              rw [hcc, if_pos rfl] at h
              simp only [Except.ok.injEq] at h
              subst h
              dsimp only at hfn
              simp only [Args.get_set, String.reduceEq, reduceIte]
                at hyr hqt hy1 hy2
              have hf'ne : fn' ≠ "get_projects_by_combined_filters" := by
                rcases hfn with rfl | ⟨hnp, hf | hf⟩ <;>
                  first | decide | (subst hf; decide)
              rw [if_pos hf'ne]
              dsimp only
              rw [if_pos (by decide : ("get_projects_by_quarter" : String) ≠
                  "get_projects_by_combined_filters"),
                if_pos (by decide : ("get_projects_by_quarter" : String) ≠
                  "get_projects_by_combined_filters")]
              rw [if_pos rfl]
              rw [Args.set_same _ hyr, Args.set_same _ hqt,
                Args.set_same _ hy1, Args.set_same _ hy2]
              exact ⟨"compare_years", rfl, fun _ => rfl, fun _ => by decide⟩
            | false =>
              rw [hcc, if_neg (by simp)] at h
              simp only [Except.ok.injEq] at h
              subst h
              dsimp only at hfn
              simp only [Args.get_set, String.reduceEq, reduceIte]
                at hyr hqt hyy
              have hf'ne : fn' ≠ "get_projects_by_combined_filters" := by
                rcases hfn with rfl | ⟨hnp, hf | hf⟩ <;>
                  first | decide | (subst hf; decide)
              rw [if_pos hf'ne]
              dsimp only
              rw [if_pos (by decide : ("get_projects_by_quarter" : String) ≠
                  "get_projects_by_combined_filters"),
                if_pos (by decide : ("get_projects_by_quarter" : String) ≠
                  "get_projects_by_combined_filters")]
              rw [if_neg (by simp)]
              rw [Args.set_same _ hyr, Args.set_same _ hqt,
                Args.set_same _ hyy]
              exact ⟨"get_projects_by_years", rfl, fun _ => rfl,
                fun _ => by decide⟩
          | none =>
            rw [hmy] at h
            try dsimp only at h
            try dsimp only
            cases hsy : DateCalculator.parse_specific_year q with
            | some y2 =>
              rw [hsy] at h
              try dsimp only at h
              try dsimp only
              cases hrk : rankingWords3 (lcs q) with
              | true =>
                rw [hrk, if_pos rfl] at h
                rw [if_neg (by decide :
                  ¬(("get_projects_by_quarter" : String) ∈
                    yearRankingSet))] at h
                simp only [Except.ok.injEq] at h
                subst h
                dsimp only at hfn
                simp only [Args.get_set, String.reduceEq, reduceIte]
                  at hyr hqt
                have hf'ne : fn' ≠ "get_projects_by_combined_filters" := by
                  rcases hfn with rfl | ⟨hnp, hf | hf⟩ <;>
                    first | decide | (subst hf; decide)
                rw [if_pos hf'ne]
                dsimp only
                rw [if_pos rfl]
                rw [if_neg (by decide :
                  ¬(("get_projects_by_quarter" : String) ∈ yearRankingSet))]
                rw [Args.set_same _ hyr, Args.set_same _ hqt]
                exact ⟨"get_projects_by_quarter", rfl, fun _ => rfl,
                  fun _ => by decide⟩
              | false =>
                rw [hrk, if_neg (by simp)] at h
                rw [if_pos (by decide :
                  ("get_projects_by_quarter" : String) ∉
                    yearPlainExcluded)] at h
                simp only [Except.ok.injEq] at h
                subst h
                dsimp only at hfn
                simp only [Args.get_set, String.reduceEq, reduceIte]
                  at hyr hqt
                have hf'ne : fn' ≠ "get_projects_by_combined_filters" := by
                  rcases hfn with rfl | ⟨hnp, hf | hf⟩ <;>
                    first | decide | (subst hf; decide)
                rw [if_pos hf'ne]
                dsimp only
                rw [if_neg (by simp)]
                rw [if_pos (by decide :
                  ("get_projects_by_quarter" : String) ∉ yearPlainExcluded)]
                have hq2 : (a'.set "year" (Value.vInt y)).get "quarter" =
                    some (Value.vInt (qn : Int)) := by
                  rw [Args.get_set]; simp [hqt]
                rw [Args.set_same _ hq2, Args.set_set, Args.set_same _ hyr]
                exact ⟨"get_projects_by_year", rfl, fun _ => rfl,
                  fun _ => by decide⟩
            | none =>
              rw [hsy] at h
              try dsimp only at h
              try dsimp only
              simp only [Except.ok.injEq] at h
              subst h
              dsimp only at hfn
              simp only [Args.get_set, String.reduceEq, reduceIte]
                at hyr hqt
              have hf'ne : fn' ≠ "get_projects_by_combined_filters" := by
                rcases hfn with rfl | ⟨hnp, hf | hf⟩ <;>
                  first | decide | (subst hf; decide)
              rw [if_pos hf'ne]
              rw [Args.set_same _ hyr, Args.set_same _ hqt]
              exact ⟨"get_projects_by_quarter", rfl, fun _ => rfl,
                fun _ => by decide⟩
      | none =>
        rw [hsq] at h
        try dsimp only at h
        try dsimp only
        cases hmy : DateCalculator.parse_multiple_years q with
        | some ys =>
          rw [hmy] at h
          try dsimp only at h
          try dsimp only
          by_cases hcomb :
            c4.function_name = "get_projects_by_combined_filters"
          · rw [if_neg (show ¬(c4.function_name ≠
                "get_projects_by_combined_filters") from by simp [hcomb]),
              if_neg (show ¬(c4.function_name ≠
                "get_projects_by_combined_filters") from by simp [hcomb]),
              ite_self] at h
            simp only [Except.ok.injEq] at h
            subst h
            rcases hfn with rfl | ⟨hnp, hf⟩
            · rw [if_neg (show ¬(c4.function_name ≠
                  "get_projects_by_combined_filters") from by simp [hcomb]),
                if_neg (show ¬(c4.function_name ≠
                  "get_projects_by_combined_filters") from by simp [hcomb]),
                ite_self]
              exact ⟨c4.function_name, rfl, fun _ => rfl,
                fun hn => absurd (by rw [hcomb]; decide) hn⟩
            · exact absurd (by rw [hcomb]; decide) hnp
          · rw [if_pos hcomb, if_pos hcomb] at h
            cases hcc : (decide (ys.length = 2) &&
                containsAnyWord ["compare", "vs", "versus"] (lcs q)) with
            | true =>
              rw [hcc, if_pos rfl] at h
              simp only [Except.ok.injEq] at h
              subst h
              dsimp only at hfn
              simp only [Args.get_set, String.reduceEq, reduceIte]
                at hy1 hy2
              have hf'ne : fn' ≠ "get_projects_by_combined_filters" := by
                rcases hfn with rfl | ⟨hnp, hf | hf⟩ <;>
                  first | decide | (subst hf; decide)
              rw [if_pos hf'ne, if_pos hf'ne]
              rw [if_pos rfl]
              rw [Args.set_same _ hy1, Args.set_same _ hy2]
              exact ⟨"compare_years", rfl, fun _ => rfl, fun _ => by decide⟩
            | false =>
              rw [hcc, if_neg (by simp)] at h
              simp only [Except.ok.injEq] at h
              subst h
              dsimp only at hfn
              simp only [Args.get_set, String.reduceEq, reduceIte] at hyy
              have hf'ne : fn' ≠ "get_projects_by_combined_filters" := by
                rcases hfn with rfl | ⟨hnp, hf | hf⟩ <;>
                  first | decide | (subst hf; decide)
              rw [if_pos hf'ne, if_pos hf'ne]
              rw [if_neg (by simp)]
              rw [Args.set_same _ hyy]
              exact ⟨"get_projects_by_years", rfl, fun _ => rfl,
                fun _ => by decide⟩
        | none =>
          rw [hmy] at h
          try dsimp only at h
          try dsimp only
          cases hsy : DateCalculator.parse_specific_year q with
          | some y2 =>
            rw [hsy] at h
            try dsimp only at h
            try dsimp only
            cases hrk : rankingWords3 (lcs q) with
            | true =>
              rw [hrk, if_pos rfl] at h
              by_cases hyrs : c4.function_name ∈ yearRankingSet
              · rw [if_pos hyrs] at h
                simp only [Except.ok.injEq] at h
                subst h
                dsimp only at hfn
                simp only [Args.get_set, String.reduceEq, reduceIte]
                  at hsy2 hey2
                rw [if_pos rfl]
                rcases hfn with rfl | ⟨hnp, hf | hf⟩
                · rw [if_pos hyrs]
                  rw [Args.set_same _ hsy2, Args.set_same _ hey2]
                  exact ⟨c4.function_name, rfl, fun _ => rfl, fun hn => hn⟩
                · subst hf
                  rw [if_neg (by decide)]
                  exact ⟨_, rfl, fun heq => heq, fun _ => by decide⟩
                · subst hf
                  rw [if_neg (by decide)]
                  exact ⟨_, rfl, fun heq => heq, fun _ => by decide⟩
              · rw [if_neg hyrs] at h
                simp only [Except.ok.injEq] at h
                subst h
                rw [if_pos rfl]
                rcases hfn with rfl | ⟨hnp, hf | hf⟩
                · rw [if_neg hyrs]
                  exact ⟨c4.function_name, rfl, fun _ => rfl, fun hn => hn⟩
                · subst hf
                  rw [if_neg (by decide)]
                  exact ⟨_, rfl, fun heq => heq, fun _ => by decide⟩
                · subst hf
                  rw [if_neg (by decide)]
                  exact ⟨_, rfl, fun heq => heq, fun _ => by decide⟩
            | false =>
              rw [hrk, if_neg (by simp)] at h
              by_cases hexc : c4.function_name ∈ yearPlainExcluded
              · rw [if_neg (not_not_intro hexc)] at h
                simp only [Except.ok.injEq] at h
                subst h
                rw [if_neg (by simp)]
                rcases hfn with rfl | ⟨hnp, hf | hf⟩
                · rw [if_neg (not_not_intro hexc)]
                  exact ⟨c4.function_name, rfl, fun _ => rfl, fun hn => hn⟩
                · subst hf
                  have hyd := hys y2 hsy hmr hrr hmy hrk
                  dsimp only at hyd
                  rcases hyd with hyv | ⟨hbad, _⟩
                  · rw [if_pos (by decide)]
                    rw [Args.set_same _ hyv]
                    exact ⟨"get_projects_by_year", rfl,
                      fun heq => absurd hexc (by rw [← heq]; decide),
                      fun _ => by decide⟩
                  · exact absurd hbad (by decide)
                · subst hf
                  have hyd := hys y2 hsy hmr hrr hmy hrk
                  dsimp only at hyd
                  rcases hyd with hyv | ⟨hbad, _⟩
                  · rw [if_pos (by decide)]
                    rw [Args.set_same _ hyv]
                    exact ⟨"get_projects_by_year", rfl,
                      fun heq => absurd hexc (by rw [← heq]; decide),
                      fun _ => by decide⟩
                  · exact absurd hbad (by decide)
              · rw [if_pos hexc] at h
                simp only [Except.ok.injEq] at h
                subst h
                dsimp only at hfn
                simp only [Args.get_set, String.reduceEq, reduceIte] at hyr
                rw [if_neg (by simp)]
                rcases hfn with rfl | ⟨hnp, hf | hf⟩
                · rw [if_pos (by decide)]
                  rw [Args.set_same _ hyr]
                  exact ⟨"get_projects_by_year", rfl, fun _ => rfl,
                    fun _ => by decide⟩
                · subst hf
                  rw [if_pos (by decide)]
                  rw [Args.set_same _ hyr]
                  exact ⟨"get_projects_by_year", rfl, fun _ => rfl,
                    fun _ => by decide⟩
                · subst hf
                  rw [if_pos (by decide)]
                  rw [Args.set_same _ hyr]
                  exact ⟨"get_projects_by_year", rfl, fun _ => rfl,
                    fun _ => by decide⟩
          | none =>
            rw [hsy] at h
            try dsimp only at h
            try dsimp only
            simp only [Except.ok.injEq] at h
            subst h
            refine ⟨fn', rfl, fun heq => heq, ?_⟩
            rcases hfn with rfl | ⟨hnp, hf | hf⟩
            · exact fun hn => hn
            · subst hf; exact fun _ => by decide
            · subst hf; exact fun _ => by decide

theorem except_bind_ok {α β : Type} (x : Except PyErr α)
    (f : α → Except PyErr β) (b : β)
    (h : (x >>= f) = .ok b) : ∃ a, x = .ok a ∧ f a = .ok b := by
  cases x with
  | error e =>
    simp only [bind, Except.bind] at h
    exact absurd h (by simp)
  | ok a => exact ⟨a, rfl, h⟩

theorem limitPass_rerun (q : String) (c c2 : Classification)
    (h : limitPass q c = .ok c2) : limitPass q c2 = .ok c2 := by
  unfold limitPass at h ⊢
  cases hp : NumberCalculator.parse_limit q with
  | none => rfl
  | some n =>
    rw [hp] at h
    dsimp only at h
    by_cases h0 : n ≠ 0
    · rw [if_pos h0] at h
      simp only [Except.ok.injEq] at h
      subst h
      dsimp only
      rw [if_pos h0, Args.set_set]
    · rw [if_neg h0] at h
      simp only [Except.ok.injEq] at h
      subst h
      dsimp only
      rw [if_neg h0]

theorem TrOK_congr {a b : Args}
    (he : b.get "time_reference" = a.get "time_reference") (h : TrOK a) :
    TrOK b := fun v hv => h v (he.symm.trans hv)

theorem StatusOK_congr {a b : Args}
    (he : b.get "status" = a.get "status") (h : StatusOK a) :
    StatusOK b := fun v hv => h v (he.symm.trans hv)

theorem TagFnOK_congr {q : String} {c c2 : Classification}
    (he : c2.function_name = c.function_name) (h : TagFnOK q c) :
    TagFnOK q c2 := by
  intro hc
  rw [he]
  exact h hc

theorem TagFnOK_of_ne {q : String} {c2 : Classification}
    (h1 : c2.function_name ≠ "get_largest_by_category")
    (h2 : c2.function_name ≠ "get_projects_by_category") : TagFnOK q c2 :=
  fun _ => ⟨h1, h2⟩

theorem CapOK_congr {c c2 : Classification}
    (hfn : c2.function_name = c.function_name)
    (he : c2.arguments.get "tags" = c.arguments.get "tags")
    (h : CapOK c) : CapOK c2 := by
  intro hm v hv
  exact h (hfn.symm.trans hm) v (he.symm.trans hv)

theorem CapOK_of_ne {c2 : Classification}
    (h : c2.function_name ≠ "get_projects_by_multiple_tags") : CapOK c2 :=
  fun hm => absurd hm h

theorem OpcoOK_congr {c c2 : Classification}
    (hfn : c2.function_name = c.function_name)
    (he : c2.arguments.get "companies" = c.arguments.get "companies")
    (h : OpcoOK c) : OpcoOK c2 := by
  intro hm
  obtain ⟨v, n, hv, ht, hn, h0⟩ := h (hfn.symm.trans hm)
  exact ⟨v, n, he.trans hv, ht, hn, h0⟩

theorem OpcoOK_of_ne {c2 : Classification}
    (h : c2.function_name ≠ "compare_opco_revenue") : OpcoOK c2 :=
  fun hm => absurd hm h

set_option maxHeartbeats 2000000 in
/-- **C4** (amended): re-running `preprocess_query` on its own output is the
identity whenever that output is *tag-stable* (the tag pass cannot re-split
the single-tag call from its stored tag value) and *year-stable* (the
specific-year branch cannot inject a fresh `year` argument after a
fee-driven function rename); without these two provisos a second run can
change the classification. -/
theorem C4_idempotent_unless_resplit (today : Date) (q : String)
    (c c' : Classification)
    (h : preprocess_query today q c = .ok c')
    (hts : TagStable q c')
    (hys : YearStable today q c') :
    preprocess_query today q c' = .ok c' := by
  unfold preprocess_query at h
  obtain ⟨d0, h0, h⟩ := except_bind_ok _ _ _ h
  obtain ⟨d1, h1, h⟩ := except_bind_ok _ _ _ h
  obtain ⟨d2, h2, h⟩ := except_bind_ok _ _ _ h
  obtain ⟨d3, h3, h⟩ := except_bind_ok _ _ _ h
  obtain ⟨d4, h4, h⟩ := except_bind_ok _ _ _ h
  obtain ⟨d5, h5, h⟩ := except_bind_ok _ _ _ h
  obtain ⟨d6, h6, h7⟩ := except_bind_ok _ _ _ h
  obtain ⟨hfn0, htr0, hfr0⟩ := pass0_out today c d0 h0
  obtain ⟨hfn1, hst1, hfr1⟩ := statusPass_out d0 d1 h1
  obtain ⟨hsh2, htf2⟩ := tagPass_out q d1 d2 h2
  obtain ⟨hsh3, hcap3⟩ := capPass_out d2 d3 h3
  obtain ⟨hsh4, hop4⟩ := opcoPass_out d3 d4 h4
  obtain ⟨hstep5, hfn5⟩ := datePass_out today q d4 d5 h5
  have hfee : (NumberCalculator.parse_fee_range q = none ∧ d6 = d5) ∨
      ∃ mn mx, NumberCalculator.parse_fee_range q = some (mn, mx) ∧
      d6 = ⟨(if d5.function_name ∈ feeProtected then d5.function_name
          else if (((d5.arguments.set "min_fee" (.vRat mn)).set "max_fee"
                (match mx with
                 | some m => if m ≠ 0 then Value.vRat m
                   else Value.vRat 999999999999
                 | none => Value.vRat 999999999999)).has "client" ||
              containsAnyWord ["tamu", "clid"] (lcs q)) = true then
            "get_projects_by_client_and_fee_range"
          else "get_projects_by_fee_range"),
         (d5.arguments.set "min_fee" (.vRat mn)).set "max_fee"
           (match mx with
            | some m => if m ≠ 0 then Value.vRat m
              else Value.vRat 999999999999
            | none => Value.vRat 999999999999)⟩ := by
    cases hpf : NumberCalculator.parse_fee_range q with
    | none =>
      unfold feePass at h6
      dsimp only at h6
      rw [hpf] at h6
      dsimp only at h6
      simp only [Except.ok.injEq] at h6
      exact Or.inl ⟨rfl, h6.symm⟩
    | some p =>
      obtain ⟨mn, mx⟩ := p
      rw [feePass_eq q d5 mn mx _ rfl hpf] at h6
      simp only [Except.ok.injEq] at h6
      exact Or.inr ⟨mn, mx, rfl, h6.symm⟩
  have hlim : c' = d6 ∨
      ∃ n, c' = ⟨d6.function_name, d6.arguments.set "limit" (.vInt n)⟩ := by
    unfold limitPass at h7
    cases hp : NumberCalculator.parse_limit q with
    | none =>
      rw [hp] at h7
      simp only [Except.ok.injEq] at h7
      exact Or.inl h7.symm
    | some n =>
      rw [hp] at h7
      dsimp only at h7
      by_cases h0 : n ≠ 0
      · rw [if_pos h0] at h7
        simp only [Except.ok.injEq] at h7
        exact Or.inr ⟨n, h7.symm⟩
      · rw [if_neg h0] at h7
        simp only [Except.ok.injEq] at h7
        exact Or.inl h7.symm
  have hfnl : c'.function_name = d6.function_name := by
    rcases hlim with rfl | ⟨n, rfl⟩ <;> rfl
  have hfnf : d6.function_name = d5.function_name ∨
      (¬ d5.function_name ∈ feeProtected ∧
       (d6.function_name = "get_projects_by_client_and_fee_range" ∨
        d6.function_name = "get_projects_by_fee_range")) := by
    rcases hfee with ⟨_, rfl⟩ | ⟨mn, mx, _, rfl⟩
    · exact Or.inl rfl
    · dsimp only
      by_cases hp : d5.function_name ∈ feeProtected
      · rw [if_pos hp]
        exact Or.inl rfl
      · rw [if_neg hp]
        refine Or.inr ⟨hp, ?_⟩
        split
        · exact Or.inl rfl
        · exact Or.inr rfl
  have hfr67 : ∀ k, k ≠ "min_fee" → k ≠ "max_fee" → k ≠ "limit" →
      c'.arguments.get k = d5.arguments.get k := by
    intro k hk1 hk2 hk3
    have h65 : d6.arguments.get k = d5.arguments.get k := by
      rcases hfee with ⟨_, rfl⟩ | ⟨mn, mx, _, rfl⟩
      · rfl
      · dsimp only
        rw [Args.get_set_ne _ _ (Ne.symm hk2),
          Args.get_set_ne _ _ (Ne.symm hk1)]
    rcases hlim with rfl | ⟨n, rfl⟩
    · exact h65
    · dsimp only
      rw [Args.get_set_ne _ _ (Ne.symm hk3)]
      exact h65
  have hg2 : ∀ k, k ≠ "tag" → k ≠ "tags" →
      d2.arguments.get k = d1.arguments.get k ∨
      d2.arguments.get k = none := by
    intro k hk1 hk2
    rcases hsh2 with rfl | ⟨l, rfl⟩ | ⟨t, rfl⟩ | ⟨t, rfl⟩
    · exact Or.inl rfl
    · exact Or.inr (by dsimp only; exact get_pair_ne _ _ _ (Ne.symm hk2))
    · exact Or.inr (by dsimp only; exact get_pair_ne _ _ _ (Ne.symm hk1))
    · exact Or.inr (by dsimp only; exact get_pair_ne _ _ _ (Ne.symm hk1))
  have hg3 : ∀ k, k ≠ "tag" → k ≠ "tags" →
      d3.arguments.get k = d2.arguments.get k ∨
      d3.arguments.get k = none := by
    intro k hk1 hk2
    rcases hsh3 with rfl | ⟨v, rfl⟩ | ⟨t, rfl⟩
    · exact Or.inl rfl
    · exact Or.inl (by dsimp only; exact Args.get_set_ne _ _ (Ne.symm hk2))
    · exact Or.inr (by dsimp only; exact get_pair_ne _ _ _ (Ne.symm hk1))
  have hg4 : ∀ k, d4.arguments.get k = d3.arguments.get k ∨
      d4.arguments.get k = none := by
    intro k
    rcases hsh4 with rfl | rfl
    · exact Or.inl rfl
    · exact Or.inr (by simp [Args.get])
  have htrc : TrOK c'.arguments := by
    have t1 : TrOK d1.arguments := TrOK_congr (hfr1 _ (by decide)) htr0
    have t2 : TrOK d2.arguments := by
      rcases hg2 "time_reference" (by decide) (by decide) with he | he
      · exact TrOK_congr he t1
      · intro v hv
        rw [he] at hv
        exact absurd hv (by simp)
    have t3 : TrOK d3.arguments := by
      rcases hg3 "time_reference" (by decide) (by decide) with he | he
      · exact TrOK_congr he t2
      · intro v hv
        rw [he] at hv
        exact absurd hv (by simp)
    have t4 : TrOK d4.arguments := by
      rcases hg4 "time_reference" with he | he
      · exact TrOK_congr he t3
      · intro v hv
        rw [he] at hv
        exact absurd hv (by simp)
    exact TrOK_congr (hfr67 _ (by decide) (by decide) (by decide))
      (hstep5.2 t4)
  have hstc : StatusOK c'.arguments := by
    have t2 : StatusOK d2.arguments := by
      rcases hg2 "status" (by decide) (by decide) with he | he
      · exact StatusOK_congr he hst1
      · intro v hv
        rw [he] at hv
        exact absurd hv (by simp)
    have t3 : StatusOK d3.arguments := by
      rcases hg3 "status" (by decide) (by decide) with he | he
      · exact StatusOK_congr he t2
      · intro v hv
        rw [he] at hv
        exact absurd hv (by simp)
    have t4 : StatusOK d4.arguments := by
      rcases hg4 "status" with he | he
      · exact StatusOK_congr he t3
      · intro v hv
        rw [he] at hv
        exact absurd hv (by simp)
    have t5 : StatusOK d5.arguments :=
      StatusOK_congr (hstep5.1 "status" (by decide)) t4
    exact StatusOK_congr (hfr67 _ (by decide) (by decide) (by decide)) t5
  have htfc : TagFnOK q c' := by
    have t3 : TagFnOK q d3 := by
      rcases hsh3 with rfl | ⟨v, rfl⟩ | ⟨t, rfl⟩
      · exact htf2
      · exact TagFnOK_congr rfl htf2
      · exact TagFnOK_of_ne (by dsimp only; decide) (by dsimp only; decide)
    have t4 : TagFnOK q d4 := by
      rcases hsh4 with rfl | rfl
      · exact t3
      · exact TagFnOK_of_ne (by dsimp only; decide) (by dsimp only; decide)
    have t5 : TagFnOK q d5 := by
      rcases hfn5 with he | hm
      · exact TagFnOK_congr he t4
      · exact fun _ => ⟨fun hx => absurd (hx ▸ hm) (by decide),
          fun hx => absurd (hx ▸ hm) (by decide)⟩
    have t6 : TagFnOK q d6 := by
      rcases hfnf with he | ⟨_, he | he⟩
      · exact TagFnOK_congr he t5
      · exact fun _ => ⟨by rw [he]; decide, by rw [he]; decide⟩
      · exact fun _ => ⟨by rw [he]; decide, by rw [he]; decide⟩
    exact TagFnOK_congr hfnl t6
  have hcapc : CapOK c' := by
    have t4 : CapOK d4 := by
      rcases hsh4 with rfl | rfl
      · exact hcap3
      · exact CapOK_of_ne (by dsimp only; decide)
    have t5 : CapOK d5 := by
      rcases hfn5 with he | hm
      · exact CapOK_congr he (hstep5.1 "tags" (by decide)) t4
      · exact CapOK_of_ne (fun hx => absurd (hx ▸ hm) (by decide))
    have t6 : CapOK d6 := by
      rcases hfnf with he | ⟨_, he | he⟩
      · refine CapOK_congr he ?_ t5
        rcases hfee with ⟨_, rfl⟩ | ⟨mn, mx, _, rfl⟩
        · rfl
        · dsimp only
          rw [Args.get_set_ne _ _ (by decide),
            Args.get_set_ne _ _ (by decide)]
      · exact CapOK_of_ne (by rw [he]; decide)
      · exact CapOK_of_ne (by rw [he]; decide)
    refine CapOK_congr hfnl ?_ t6
    rcases hlim with rfl | ⟨n, rfl⟩
    · rfl
    · dsimp only
      exact Args.get_set_ne _ _ (by decide)
  have hopc : OpcoOK c' := by
    have t5 : OpcoOK d5 := by
      rcases hfn5 with he | hm
      · exact OpcoOK_congr he (hstep5.1 "companies" (by decide)) hop4
      · exact OpcoOK_of_ne (fun hx => absurd (hx ▸ hm) (by decide))
    have t6 : OpcoOK d6 := by
      rcases hfnf with he | ⟨_, he | he⟩
      · refine OpcoOK_congr he ?_ t5
        rcases hfee with ⟨_, rfl⟩ | ⟨mn, mx, _, rfl⟩
        · rfl
        · dsimp only
          rw [Args.get_set_ne _ _ (by decide),
            Args.get_set_ne _ _ (by decide)]
      · exact OpcoOK_of_ne (by rw [he]; decide)
      · exact OpcoOK_of_ne (by rw [he]; decide)
    refine OpcoOK_congr hfnl ?_ t6
    rcases hlim with rfl | ⟨n, rfl⟩
    · rfl
    · dsimp only
      exact Args.get_set_ne _ _ (by decide)
  have hdfn : c'.function_name = d5.function_name ∨
      (¬ d5.function_name ∈ feeProtected ∧
       (c'.function_name = "get_projects_by_client_and_fee_range" ∨
        c'.function_name = "get_projects_by_fee_range")) := by
    rw [hfnl]
    exact hfnf
  have hdha : ∀ k, k ∈ dateKeys →
      c'.arguments.get k = d5.arguments.get k := by
    intro k hk
    exact hfr67 k (fun he => absurd (he ▸ hk) (by decide))
      (fun he => absurd (he ▸ hk) (by decide))
      (fun he => absurd (he ▸ hk) (by decide))
  obtain ⟨fn2, hdate, hdA, hdB⟩ := datePass_rerun today q d4 d5 h5
    c'.function_name c'.arguments hdfn hdha hys
  have hdate' : datePass today q c' = .ok ⟨fn2, c'.arguments⟩ := hdate
  have hfin : feePass q (⟨fn2, c'.arguments⟩ : Classification) = .ok c' := by
    rcases hfee with ⟨hpf, hd65⟩ | ⟨mn, mx, hpf, hd6⟩
    · have hce : c'.function_name = d5.function_name := by
        rw [hfnl, hd65]
      have hf2 : fn2 = c'.function_name := by
        rw [hdA hce, hce]
      unfold feePass
      dsimp only
      rw [hpf]
      dsimp only
      rw [hf2]
    · have hA6 := congrArg Classification.arguments hd6
      dsimp only at hA6
      have h6fn := congrArg Classification.function_name hd6
      dsimp only at h6fn
      have h6min := congrArg (fun a => Args.get a "min_fee") hA6
      dsimp only at h6min
      rw [Args.get_set_ne _ _ (by decide), Args.get_set_self] at h6min
      have h6max := congrArg (fun a => Args.get a "max_fee") hA6
      dsimp only at h6max
      rw [Args.get_set_self] at h6max
      have hacc : ∀ k, k ≠ "limit" →
          c'.arguments.get k = d6.arguments.get k := by
        intro k hk
        rcases hlim with rfl | ⟨n, rfl⟩
        · rfl
        · dsimp only
          exact Args.get_set_ne _ _ (Ne.symm hk)
      have hmin := (hacc "min_fee" (by decide)).trans h6min
      have hmax := (hacc "max_fee" (by decide)).trans h6max
      rw [feePass_eq q ⟨fn2, c'.arguments⟩ mn mx _ rfl hpf]
      dsimp only
      rw [Args.set_same _ hmin, Args.set_same _ hmax]
      by_cases hprot : d5.function_name ∈ feeProtected
      · have hce : c'.function_name = d5.function_name := by
          rw [hfnl, h6fn, if_pos hprot]
        rw [if_pos (show fn2 ∈ feeProtected from by
          rw [hdA hce]; exact hprot)]
        rw [hdA hce, ← hce]
      · have hnf2 : ¬ fn2 ∈ feeProtected := hdB hprot
        rw [if_neg hnf2]
        have hce := hfnl.trans h6fn
        rw [if_neg hprot] at hce
        have hhas6 := congrArg (fun a => Args.has a "client") hA6
        dsimp only at hhas6
        have hhasc : c'.arguments.has "client" =
            d6.arguments.has "client" := by
          unfold Args.has
          rw [hacc "client" (by decide)]
        rw [hhasc.trans hhas6, ← hce]
  unfold preprocess_query
  simp only [bind, Except.bind, pass0_id_of today c' htrc,
    statusPass_id_of c' hstc, tagPass_id_of q c' hts htfc,
    capPass_id_of c' hcapc, opcoPass_id_of c' hopc, hdate', hfin]
  exact limitPass_rerun q d6 c' h7

set_option maxRecDepth 200000 in
/-- Witness for C4: a concrete run (question "projects", classifier
proposal `get_all_projects` with no arguments) whose refined output is tag-
and year-stable, and on which the second run is the identity. -/
theorem C4_idempotent_unless_resplit_witness :
    preprocess_query ⟨2026, 10, 12⟩ "projects" ⟨"get_all_projects", []⟩ =
      .ok ⟨"get_all_projects", []⟩ :=
  C4_idempotent_unless_resplit ⟨2026, 10, 12⟩ "projects"
    ⟨"get_all_projects", []⟩ ⟨"get_all_projects", []⟩ (by decide)
    (fun hcond => absurd hcond (by decide))
    (by
      intro y hy h2 h3 h4 h5
      rw [show DateCalculator.parse_specific_year "projects" = none from by
        decide] at hy
      exact absurd hy (by simp))

end Rmdb
